import Mathlib

/-!
# Shader synthesis and program cache of the vitaGL rendering backend

A shallow embedding of `src/pc/gfx/gfx_vitagl.c`.

* C character buffers (`char buf[1024]` together with a `size_t` cursor) are a
  `CharBuf`: the whole array as a list of characters plus the cursor.  Every
  store checks the index against the array size; a store outside the array is
  the fault `out_of_bounds`.
* Functions that may fault return `Except Fault _`.
* Pointers into `shader_program_pool` are indices into the pool.
* Calls into the graphics driver are recorded, in order, in a call trace; what
  the driver returns is supplied by a `Driver`.
-/

namespace GfxVitaGL

/-! ## Faults -/

/-- Ways in which the C code can leave defined behaviour or stop. -/
inductive Fault
  | out_of_bounds
  | no_return_value
  | aborted
  deriving DecidableEq

/-! ## Character buffers: `append_str`, `append_line`, `sprintf` -/

/-- A character array with its write cursor: `bytes` is the whole array (its
length is the array size), `len` the `size_t` length variable next to it. -/
structure CharBuf where
  bytes : List Char
  len : Nat
  deriving DecidableEq

/-- The store `buf[(*len)++] = ch`. -/
def CharBuf.put (b : CharBuf) (ch : Char) : Except Fault CharBuf :=
  if b.len < b.bytes.length then
    .ok { bytes := b.bytes.set b.len ch, len := b.len + 1 }
  else .error .out_of_bounds

/-- The loop `while (*str != 0) buf[(*len)++] = *str++;` over the characters
of a C string. -/
def put_chars (b : CharBuf) : List Char → Except Fault CharBuf
  | [] => .ok b
  | ch :: str => (b.put ch).bind (fun b1 => put_chars b1 str)

/-- The function `append_str(buf, len, str)`. -/
def append_str (b : CharBuf) (str : String) : Except Fault CharBuf :=
  put_chars b str.data

/-- The function `append_line(buf, len, str)`: the string, then a newline. -/
def append_line (b : CharBuf) (str : String) : Except Fault CharBuf :=
  (put_chars b str.data).bind (fun b1 => b1.put '\n')

/-- The store `buf[i] = ch` at an index that is not the cursor; the cursor
stays. -/
def CharBuf.store (b : CharBuf) (i : Nat) (ch : Char) : Except Fault CharBuf :=
  if i < b.bytes.length then .ok { b with bytes := b.bytes.set i ch }
  else .error .out_of_bounds

/-- The idiom `len += sprintf(buf + len, fmt, ...)`, with `out` the formatted
text: `sprintf` stores the text and a terminating NUL and returns the number of
characters before the NUL, so the cursor ends on the NUL. -/
def sprintf_at (b : CharBuf) (out : String) : Except Fault CharBuf :=
  (put_chars b out.data).bind (fun b1 => b1.store b1.len (Char.ofNat 0))

/-- The store `buf[len - 2] = ch`; `len` is a `size_t`, so for `len < 2` the
index wraps around and lies outside the array. -/
def CharBuf.store_back2 (b : CharBuf) (ch : Char) : Except Fault CharBuf :=
  if 2 ≤ b.len then b.store (b.len - 2) ch else .error .out_of_bounds

/-- The conversion `%d` of a non-negative `int`. -/
def fmt_d (n : Nat) : String := Nat.repr n

/-- The characters the C code has written so far: `buf[0 .. len)`. -/
def CharBuf.text (b : CharBuf) : List Char := b.bytes.take b.len

/-! ## Operand selectors and the feature descriptor (`gfx_cc.h`) -/

/-- Modelled from the spec: the enumerators of `gfx_cc.h` (not part of the
sources at hand) that select an operand, in the order in which the spec lists
them: constant zero, the four inputs, texel 0, texel 0 alpha, texel 1. -/
def SHADER_0 : Nat := 0
/-- Modelled from the spec: operand selector "input 1" of `gfx_cc.h`. -/
def SHADER_INPUT_1 : Nat := 1
/-- Modelled from the spec: operand selector "input 2" of `gfx_cc.h`. -/
def SHADER_INPUT_2 : Nat := 2
/-- Modelled from the spec: operand selector "input 3" of `gfx_cc.h`. -/
def SHADER_INPUT_3 : Nat := 3
/-- Modelled from the spec: operand selector "input 4" of `gfx_cc.h`. -/
def SHADER_INPUT_4 : Nat := 4
/-- Modelled from the spec: operand selector "texel of stage 0" of `gfx_cc.h`. -/
def SHADER_TEXEL0 : Nat := 5
/-- Modelled from the spec: operand selector "alpha of texel 0" of `gfx_cc.h`. -/
def SHADER_TEXEL0A : Nat := 6
/-- Modelled from the spec: operand selector "texel of stage 1" of `gfx_cc.h`. -/
def SHADER_TEXEL1 : Nat := 7

/-- Modelled from the spec: `struct CCFeatures` of `gfx_cc.h` (not part of the
sources at hand), with the fields that `gfx_vitagl.c` reads. -/
structure CCFeatures where
  c : Fin 2 → Fin 4 → Nat
  opt_alpha : Bool
  opt_fog : Bool
  opt_texture_edge : Bool
  opt_noise : Bool
  used_textures0 : Bool
  used_textures1 : Bool
  num_inputs : Nat
  do_single0 : Bool
  do_single1 : Bool
  do_multiply0 : Bool
  do_multiply1 : Bool
  do_mix0 : Bool
  do_mix1 : Bool
  color_alpha_same : Bool

/-! ## `shader_item_to_str` and `append_formula` -/

/-- The function `shader_item_to_str`.  The two `switch` statements have no
`default`: for an unrecognised selector control reaches the end of a non-void
function, which is `none` here. -/
def shader_item_to_str (item : Nat) (with_alpha only_alpha inputs_have_alpha
    hint_single_element : Bool) : Option String :=
  if !only_alpha then
    if item = SHADER_0 then
      some (if with_alpha then "float4(0.0, 0.0, 0.0, 0.0)" else "float3(0.0, 0.0, 0.0)")
    else if item = SHADER_INPUT_1 then
      some (if with_alpha || !inputs_have_alpha then "vInput1" else "vInput1.rgb")
    else if item = SHADER_INPUT_2 then
      some (if with_alpha || !inputs_have_alpha then "vInput2" else "vInput2.rgb")
    else if item = SHADER_INPUT_3 then
      some (if with_alpha || !inputs_have_alpha then "vInput3" else "vInput3.rgb")
    else if item = SHADER_INPUT_4 then
      some (if with_alpha || !inputs_have_alpha then "vInput4" else "vInput4.rgb")
    else if item = SHADER_TEXEL0 then
      some (if with_alpha then "texVal0" else "texVal0.rgb")
    else if item = SHADER_TEXEL0A then
      some (if hint_single_element then "texVal0.a"
        else if with_alpha then "float4(texelVal0.a, texelVal0.a, texelVal0.a, texelVal0.a)"
        else "float3(texelVal0.a, texelVal0.a, texelVal0.a)")
    else if item = SHADER_TEXEL1 then
      some (if with_alpha then "texVal1" else "texVal1.rgb")
    else none
  else
    if item = SHADER_0 then some "0.0"
    else if item = SHADER_INPUT_1 then some "vInput1.a"
    else if item = SHADER_INPUT_2 then some "vInput2.a"
    else if item = SHADER_INPUT_3 then some "vInput3.a"
    else if item = SHADER_INPUT_4 then some "vInput4.a"
    else if item = SHADER_TEXEL0 then some "texVal0.a"
    else if item = SHADER_TEXEL0A then some "texVal0.a"
    else if item = SHADER_TEXEL1 then some "texVal1.a"
    else none

/-- The call `append_str(buf, len, shader_item_to_str(...))`: when
`shader_item_to_str` returned nothing there is no string to append. -/
def append_item (b : CharBuf) (item : Option String) : Except Fault CharBuf :=
  match item with
  | some str => append_str b str
  | none => .error .no_return_value

/-- The row `c[only_alpha]` of the operand table: a `bool` index is 0 or 1. -/
def operand_row (c : Fin 2 → Fin 4 → Nat) (only_alpha : Bool) : Fin 4 → Nat :=
  c (if only_alpha then 1 else 0)

/-- The function `append_formula`. -/
def append_formula (b : CharBuf) (c : Fin 2 → Fin 4 → Nat)
    (do_single do_multiply do_mix with_alpha only_alpha opt_alpha : Bool) :
    Except Fault CharBuf :=
  if do_single then
    append_item b (shader_item_to_str (operand_row c only_alpha 3) with_alpha only_alpha opt_alpha false)
  else if do_multiply then
    (append_item b (shader_item_to_str (operand_row c only_alpha 0) with_alpha only_alpha opt_alpha false)).bind fun b =>
    (append_str b " * ").bind fun b =>
    append_item b (shader_item_to_str (operand_row c only_alpha 2) with_alpha only_alpha opt_alpha true)
  else if do_mix then
    (append_str b "lerp(").bind fun b =>
    (append_item b (shader_item_to_str (operand_row c only_alpha 1) with_alpha only_alpha opt_alpha false)).bind fun b =>
    (append_str b ", ").bind fun b =>
    (append_item b (shader_item_to_str (operand_row c only_alpha 0) with_alpha only_alpha opt_alpha false)).bind fun b =>
    (append_str b ", ").bind fun b =>
    (append_item b (shader_item_to_str (operand_row c only_alpha 2) with_alpha only_alpha opt_alpha true)).bind fun b =>
    append_str b ")"
  else
    (append_str b "(").bind fun b =>
    (append_item b (shader_item_to_str (operand_row c only_alpha 0) with_alpha only_alpha opt_alpha false)).bind fun b =>
    (append_str b " - ").bind fun b =>
    (append_item b (shader_item_to_str (operand_row c only_alpha 1) with_alpha only_alpha opt_alpha false)).bind fun b =>
    (append_str b ") * ").bind fun b =>
    (append_item b (shader_item_to_str (operand_row c only_alpha 2) with_alpha only_alpha opt_alpha true)).bind fun b =>
    (append_str b " + ").bind fun b =>
    append_item b (shader_item_to_str (operand_row c only_alpha 3) with_alpha only_alpha opt_alpha false)

/-! ## Shader source generation (first half of `gfx_vitagl_create_and_load_new_shader`) -/

/-- A counting loop `for (int i = start; i < start + count; i++) state = body(i, state)`
that stops at the first fault. -/
def for_loop {σ : Type} (body : Nat → σ → Except Fault σ) : Nat → Nat → σ → Except Fault σ
  | 0, _, st => .ok st
  | count + 1, i, st => (body i st).bind (for_loop body count (i + 1))

/-- The component count of one colour input: `cc_features.opt_alpha ? 4 : 3`. -/
def input_width (f : CCFeatures) : Nat := if f.opt_alpha then 4 else 3

/-- The statement `num_floats += cc_features.opt_alpha ? 4 : 3`, once per
iteration of the loop of lines 224-229. -/
def add_input_floats (f : CCFeatures) : Nat → Nat → Nat
  | 0, acc => acc
  | count + 1, acc => add_input_floats f count (acc + input_width f)

/-- The local `num_floats` as the vertex-shader section (lines 209-229) leaves
it: it starts at 4 and grows with each declared attribute. -/
def vertex_num_floats (f : CCFeatures) : Nat :=
  let n0 := 4
  let n1 := if f.used_textures0 || f.used_textures1 then n0 + 2 else n0
  let n2 := if f.opt_fog then n1 + 4 else n1
  add_input_floats f f.num_inputs n2

/-- Body of the loop of lines 224-229 without the `num_floats` update. -/
def vs_declare_input (f : CCFeatures) (i : Nat) (b : CharBuf) : Except Fault CharBuf :=
  (sprintf_at b ("float" ++ fmt_d (input_width f) ++ " aInput" ++ fmt_d (i + 1) ++ ",\n")).bind fun b =>
  sprintf_at b ("float" ++ fmt_d (input_width f) ++ " out vInput" ++ fmt_d (i + 1)
    ++ " : TEXCOORD" ++ fmt_d (i + 2) ++ ",\n")

/-- Body of the loop of lines 238-240. -/
def vs_copy_input (i : Nat) (b : CharBuf) : Except Fault CharBuf :=
  sprintf_at b ("vInput" ++ fmt_d (i + 1) ++ " = aInput" ++ fmt_d (i + 1) ++ ";\n")

/-- Lines 212-229: the parameter list of the vertex shader, each parameter on
a line of its own that ends in a comma. -/
def vs_params (f : CCFeatures) (b : CharBuf) : Except Fault CharBuf :=
  (append_line b "float4 main(").bind fun b =>
  (append_line b "float4 aVtxPos,").bind fun b =>
  (if f.used_textures0 || f.used_textures1 then
    (append_line b "float2 aTexCoord,").bind fun b =>
    append_line b "float2 out vTexCoord : TEXCOORD0,"
   else .ok b).bind fun b =>
  (if f.opt_fog then
    (append_line b "float4 aFog,").bind fun b =>
    append_line b "float4 out vFog : TEXCOORD1,"
   else .ok b).bind fun b =>
  for_loop (vs_declare_input f) f.num_inputs 0 b

/-- Lines 231-242: the line that closes the parameter list and the body of the
vertex shader. -/
def vs_body (f : CCFeatures) (b : CharBuf) : Except Fault CharBuf :=
  (append_line b ") : POSITION\n\x7b").bind fun b =>
  (if f.used_textures0 || f.used_textures1 then
    append_line b "vTexCoord = aTexCoord;"
   else .ok b).bind fun b =>
  (if f.opt_fog then
    append_line b "vFog = aFog;"
   else .ok b).bind fun b =>
  (for_loop vs_copy_input f.num_inputs 0 b).bind fun b =>
  (append_line b "return aVtxPos;").bind fun b =>
  append_line b "\x7d"

/-- Lines 212-242: the vertex shader text written into `vs_buf`; between the
parameter list and the rest stands the store `vs_buf[vs_len - 2] = 32` of
line 230. -/
def build_vertex_source (f : CCFeatures) (b : CharBuf) : Except Fault CharBuf :=
  ((vs_params f b).bind fun b => b.store_back2 ' ').bind (vs_body f)

/-- Body of the loop of lines 258-261. -/
def fs_declare_input (f : CCFeatures) (i : Nat) (b : CharBuf) : Except Fault CharBuf :=
  sprintf_at b ("float" ++ fmt_d (input_width f) ++ " vInput" ++ fmt_d (i + 1)
    ++ " : TEXCOORD" ++ fmt_d (i + 2) ++ ",\n")

/-- Lines 286-298: the right-hand side of the `texel` assignment. -/
def fs_texel_value (f : CCFeatures) (b : CharBuf) : Except Fault CharBuf :=
  if !f.color_alpha_same && f.opt_alpha then
    (append_str b "float4(").bind fun b =>
    (append_formula b f.c f.do_single0 f.do_multiply0 f.do_mix0 false false true).bind fun b =>
    (append_str b ", ").bind fun b =>
    (append_formula b f.c f.do_single1 f.do_multiply1 f.do_mix1 true true true).bind fun b =>
    append_str b ")"
  else
    append_formula b f.c f.do_single0 f.do_multiply0 f.do_mix0 f.opt_alpha false f.opt_alpha

/-- Lines 245-273: the helper function and the parameter list of the fragment
shader, each parameter on a line of its own that ends in a comma. -/
def fs_params (f : CCFeatures) (b : CharBuf) : Except Fault CharBuf :=
  (if f.opt_alpha && f.opt_noise then
    (append_line b "float random(float3 value) \x7b").bind fun b =>
    (append_line b "    float r = dot(sin(value), float3(12.9898, 78.233, 37.719));").bind fun b =>
    (append_line b "    return frac(sin(r) * 143758.5453);").bind fun b =>
    append_line b "\x7d"
   else .ok b).bind fun b =>
  (append_line b "float4 main(").bind fun b =>
  (if f.used_textures0 || f.used_textures1 then
    append_line b "float2 vTexCoord : TEXCOORD0,"
   else .ok b).bind fun b =>
  (if f.opt_fog then
    append_line b "float4 vFog : TEXCOORD1,"
   else .ok b).bind fun b =>
  (for_loop (fs_declare_input f) f.num_inputs 0 b).bind fun b =>
  (if f.used_textures0 then
    append_line b "uniform sampler2D uTex0 : TEXUNIT0,"
   else .ok b).bind fun b =>
  (if f.used_textures1 then
    append_line b "uniform sampler2D uTex1 : TEXUNIT1,"
   else .ok b).bind fun b =>
  (if f.opt_alpha && f.opt_noise then
    (append_line b "uniform int frame_count,").bind fun b =>
    (append_line b "uniform int window_height,").bind fun b =>
    append_line b "float2 gl_FragCoord : WPOS,"
   else .ok b)

/-- Line 276: the line that closes the parameter list of the fragment shader. -/
def fs_close_params (b : CharBuf) : Except Fault CharBuf :=
  append_line b ") : COLOR\n\x7b"

/-- Lines 278-324: the body of the fragment shader. -/
def fs_body (f : CCFeatures) (b : CharBuf) : Except Fault CharBuf :=
  (if f.used_textures0 then
    append_line b "float4 texVal0 = tex2D(uTex0, vTexCoord);"
   else .ok b).bind fun b =>
  (if f.used_textures1 then
    append_line b "float4 texVal1 = tex2D(uTex1, vTexCoord);"
   else .ok b).bind fun b =>
  (append_str b (if f.opt_alpha then "float4 texel = " else "float3 texel = ")).bind fun b =>
  (fs_texel_value f b).bind fun b =>
  (append_line b ";").bind fun b =>
  (if f.opt_texture_edge && f.opt_alpha then
    append_line b "if (texel.a > 0.3) texel.a = 1.0; else discard;"
   else .ok b).bind fun b =>
  (if f.opt_fog then
    if f.opt_alpha then
      append_line b "texel = float4(lerp(texel.rgb, vFog.rgb, vFog.a), texel.a);"
    else
      append_line b "texel = lerp(texel, vFog.rgb, vFog.a);"
   else .ok b).bind fun b =>
  (if f.opt_alpha && f.opt_noise then
    append_line b ("texel.a *= floor(random(float3(floor(gl_FragCoord.xy * (240.0 / "
      ++ "float(window_height))), float(frame_count))) + 0.5);")
   else .ok b).bind fun b =>
  (if f.opt_alpha then
    append_line b "return texel;"
   else
    append_line b "return float4(texel, 1.0);").bind fun b =>
  append_line b "\x7d"

/-- Lines 245-324: the fragment shader text written into `fs_buf`; after the
parameter list stands the store `fs_buf[fs_len - 2] = 32` of line 275. -/
def build_fragment_source (f : CCFeatures) (b : CharBuf) : Except Fault CharBuf :=
  (((fs_params f b).bind fun b => b.store_back2 ' ').bind fs_close_params).bind (fs_body f)

/-- The stores `vs_buf[vs_len] = 0` and `fs_buf[fs_len] = 0` of lines 326-327. -/
def CharBuf.terminate (b : CharBuf) : Except Fault CharBuf :=
  b.store b.len (Char.ofNat 0)

/-- A local `char buf[1024]` with its length variable set to 0.  The array is
not initialised by the C code and no element is read before it is written. -/
def fresh_buf : CharBuf := { bytes := List.replicate 1024 (Char.ofNat 0), len := 0 }

/-- Lines 205-327: both shader texts, each NUL-terminated in its buffer. -/
def generate_sources (f : CCFeatures) : Except Fault (CharBuf × CharBuf) :=
  (build_vertex_source f fresh_buf).bind fun vs =>
  (build_fragment_source f fresh_buf).bind fun fs =>
  vs.terminate.bind fun vs =>
  fs.terminate.bind fun fs =>
  .ok (vs, fs)

/-! ## Driver calls, programs and the global state -/

/-- The two shader stages passed to `glCreateShader`. -/
inductive ShaderKind
  | vertex
  | fragment
  deriving DecidableEq

/-- One call into the graphics driver, with the arguments the C code passes. -/
inductive GLCall
  | createShader (kind : ShaderKind)
  | shaderSource (shader : Nat) (source : List Char)
  | compileShader (shader : Nat)
  | createProgram
  | attachShader (program shader : Nat)
  | bindAttribLocation (program index : Nat) (name : String)
  | linkProgram (program : Nat)
  | getUniformLocation (program : Nat) (name : String)
  | useProgram (program : Nat)
  | enableVertexAttribArray (index : Int)
  | vertexAttribPointer (index : Int) (size stride offset : Nat)
  | disableVertexAttribArray (index : Int)
  | uniform1i (location value : Int)
  deriving DecidableEq

/-- What lies outside `gfx_vitagl.c`: the formula describer
`gfx_cc_get_features` and the values the driver returns, each of which may
depend on all driver calls made so far. -/
structure Driver where
  gfx_cc_get_features : Nat → CCFeatures
  glCreateShader : List GLCall → Nat
  compile_status : List GLCall → Nat → Bool
  glCreateProgram : List GLCall → Nat
  glGetUniformLocation : List GLCall → Nat → String → Int

/-- The record `struct ShaderProgram`; the arrays `attrib_locations` and
`attrib_sizes` are lists whose length is the array size. -/
structure ShaderProgram where
  shader_id : Nat
  opengl_program_id : Nat
  num_inputs : Nat
  used_textures0 : Bool
  used_textures1 : Bool
  num_floats : Nat
  attrib_locations : List Int
  attrib_sizes : List Nat
  num_attribs : Nat
  used_noise : Bool
  frame_count_location : Int
  window_height_location : Int
  deriving DecidableEq

/-- An element of the zero-initialised static array `shader_program_pool`. -/
def ShaderProgram.zero : ShaderProgram :=
  { shader_id := 0, opengl_program_id := 0, num_inputs := 0, used_textures0 := false,
    used_textures1 := false, num_floats := 0, attrib_locations := List.replicate 7 0,
    attrib_sizes := List.replicate 7 0, num_attribs := 0, used_noise := false,
    frame_count_location := 0, window_height_location := 0 }

/-- The file-scope variables of `gfx_vitagl.c` together with the trace of
driver calls (oldest first).  A `struct ShaderProgram *` is an index into
`shader_program_pool`; `none` is `NULL`. -/
structure GfxState where
  shader_program_pool : List ShaderProgram
  shader_program_pool_size : Nat
  cur_shader : Option Nat
  frame_count : Nat
  window_height : Nat
  gl : List GLCall

/-- The state at program start: 64 zeroed pool entries, nothing bound. -/
def GfxState.init : GfxState :=
  { shader_program_pool := List.replicate 64 ShaderProgram.zero,
    shader_program_pool_size := 0, cur_shader := none, frame_count := 0,
    window_height := 0, gl := [] }

/-- Narrowing to `uint8_t`. -/
def to_uint8 (n : Nat) : Nat := n % 256

/-- Conversion of a `uint32_t` to the `GLint` parameter of `glUniform1i`. -/
def to_GLint (n : Nat) : Int :=
  if n % 2 ^ 32 < 2 ^ 31 then (n % 2 ^ 32 : Nat) else ((n % 2 ^ 32 : Nat) : Int) - 2 ^ 32

/-! ## Binding a program: `gfx_vitagl_vertex_array_set_attribs`, `gfx_vitagl_set_uniforms`,
`gfx_vitagl_unload_shader`, `gfx_vitagl_load_shader` -/

/-- Loop state of `gfx_vitagl_vertex_array_set_attribs`: the running float
offset `pos` and the driver trace. -/
structure AttribCursor where
  pos : Nat
  gl : List GLCall

/-- Body of the loop of `gfx_vitagl_vertex_array_set_attribs`; reading
`attrib_locations[i]` or `attrib_sizes[i]` past the array is a fault. -/
def set_attrib (prg : ShaderProgram) (i : Nat) (a : AttribCursor) : Except Fault AttribCursor :=
  match prg.attrib_locations.get? i, prg.attrib_sizes.get? i with
  | some loc, some size =>
    .ok { pos := a.pos + size,
          gl := a.gl ++ [GLCall.enableVertexAttribArray loc,
            GLCall.vertexAttribPointer loc size (prg.num_floats * 4) (a.pos * 4)] }
  | _, _ => .error .out_of_bounds

/-- The function `gfx_vitagl_vertex_array_set_attribs`, on the driver trace. -/
def gfx_vitagl_vertex_array_set_attribs (prg : ShaderProgram) (gl : List GLCall) :
    Except Fault (List GLCall) :=
  (for_loop (set_attrib prg) prg.num_attribs 0 { pos := 0, gl := gl }).bind fun a => .ok a.gl

/-- The function `gfx_vitagl_set_uniforms`; it reads the globals `frame_count`
and `window_height`. -/
def gfx_vitagl_set_uniforms (frame_count window_height : Nat) (prg : ShaderProgram)
    (gl : List GLCall) : List GLCall :=
  if prg.used_noise then
    gl ++ [GLCall.uniform1i prg.frame_count_location (to_GLint frame_count),
           GLCall.uniform1i prg.window_height_location (to_GLint window_height)]
  else gl

/-- Body of the loop of `gfx_vitagl_unload_shader`. -/
def unset_attrib (prg : ShaderProgram) (i : Nat) (gl : List GLCall) : Except Fault (List GLCall) :=
  match prg.attrib_locations.get? i with
  | some loc => .ok (gl ++ [GLCall.disableVertexAttribArray loc])
  | none => .error .out_of_bounds

/-- The function `gfx_vitagl_unload_shader`; `none` is the `NULL` argument. -/
def gfx_vitagl_unload_shader (s : GfxState) (old_prg : Option ShaderProgram) :
    Except Fault GfxState :=
  match old_prg with
  | some prg =>
    (for_loop (unset_attrib prg) prg.num_attribs 0 s.gl).bind fun gl => .ok { s with gl := gl }
  | none => .ok s

/-- The function `gfx_vitagl_load_shader`, applied to the record its argument
points to. -/
def gfx_vitagl_load_shader (s : GfxState) (new_prg : ShaderProgram) : Except Fault GfxState :=
  (gfx_vitagl_vertex_array_set_attribs new_prg
    (s.gl ++ [GLCall.useProgram new_prg.opengl_program_id])).bind fun gl =>
  .ok { s with gl := gfx_vitagl_set_uniforms s.frame_count s.window_height new_prg gl }

/-! ## Second half of `gfx_vitagl_create_and_load_new_shader`: compile, link, record -/

/-- Lines 339-351 and 353-365: create one shader object, hand over its source
(`length` characters of the buffer), compile, and `abort()` when the driver
reports failure. -/
def compile_stage (d : Driver) (kind : ShaderKind) (src : CharBuf) (gl : List GLCall) :
    Except Fault (Nat × List GLCall) :=
  let shader := d.glCreateShader gl
  let gl := gl ++ [GLCall.createShader kind, GLCall.shaderSource shader src.text,
    GLCall.compileShader shader]
  if d.compile_status gl shader then .ok (shader, gl) else .error .aborted

/-- Local state of lines 371-400: the pool entry being filled in, the slot
counter `cnt` and the driver trace. -/
structure AttribState where
  prg : ShaderProgram
  cnt : Nat
  gl : List GLCall

/-- One group `glBindAttribLocation(shader_program, cnt, name);
prg->attrib_locations[cnt] = cnt; prg->attrib_sizes[cnt] = size; ++cnt;`. -/
def bind_attrib (program : Nat) (name : String) (size : Nat) (a : AttribState) :
    Except Fault AttribState :=
  if a.cnt < a.prg.attrib_locations.length ∧ a.cnt < a.prg.attrib_sizes.length then
    .ok { prg := { a.prg with
                    attrib_locations := a.prg.attrib_locations.set a.cnt (a.cnt : Int),
                    attrib_sizes := a.prg.attrib_sizes.set a.cnt (to_uint8 size) },
          cnt := a.cnt + 1,
          gl := a.gl ++ [GLCall.bindAttribLocation program a.cnt name] }
  else .error .out_of_bounds

/-- Body of the loop of lines 393-400; `name` is a `char[16]`, so the text
written by `sprintf` must leave room for its NUL. -/
def bind_input_attrib (f : CCFeatures) (program : Nat) (i : Nat) (a : AttribState) :
    Except Fault AttribState :=
  let name := "aInput" ++ fmt_d (i + 1)
  if name.length < 16 then bind_attrib program name (input_width f) a
  else .error .out_of_bounds

/-- Lines 371-400: bind the attribute slots in their fixed order. -/
def bind_attribs (f : CCFeatures) (program : Nat) (a : AttribState) : Except Fault AttribState :=
  (bind_attrib program "aVtxPos" 4 a).bind fun a =>
  (if f.used_textures0 || f.used_textures1 then bind_attrib program "aTexCoord" 2 a
   else .ok a).bind fun a =>
  (if f.opt_fog then bind_attrib program "aFog" 4 a else .ok a).bind fun a =>
  for_loop (bind_input_attrib f program) f.num_inputs 0 a

/-- Lines 367-369: create the program object and attach both shaders. -/
def attach_stages (d : Driver) (vertex_shader fragment_shader : Nat) (gl : List GLCall) :
    Nat × List GLCall :=
  let shader_program := d.glCreateProgram gl
  (shader_program, gl ++ [GLCall.createProgram, GLCall.attachShader shader_program vertex_shader,
    GLCall.attachShader shader_program fragment_shader])

/-- Lines 409-415: the stores into the pool entry after linking; the fields
`used_noise`, `frame_count_location` and `window_height_location` and the
array elements from `cnt` on keep what the entry held before. -/
def fill_entry (f : CCFeatures) (shader_id shader_program num_floats : Nat) (a : AttribState) :
    ShaderProgram :=
  { a.prg with
    shader_id := shader_id
    opengl_program_id := shader_program
    num_inputs := to_uint8 f.num_inputs
    used_textures0 := f.used_textures0
    used_textures1 := f.used_textures1
    num_floats := to_uint8 num_floats
    num_attribs := to_uint8 a.cnt }

/-- Lines 419-425: after the program has been loaded, look up the two uniform
locations when the descriptor asks for noise, and set `used_noise`. -/
def record_noise (d : Driver) (f : CCFeatures) (shader_program : Nat) (prg : ShaderProgram)
    (gl : List GLCall) : ShaderProgram × List GLCall :=
  if f.opt_alpha && f.opt_noise then
    ({ prg with
        frame_count_location := d.glGetUniformLocation gl shader_program "frame_count"
        window_height_location :=
          d.glGetUniformLocation (gl ++ [GLCall.getUniformLocation shader_program "frame_count"])
            shader_program "window_height"
        used_noise := true },
      gl ++ [GLCall.getUniformLocation shader_program "frame_count",
        GLCall.getUniformLocation shader_program "window_height"])
  else ({ prg with used_noise := false }, gl)

/-- The function `gfx_vitagl_create_and_load_new_shader`.  It returns the
pointer `prg`, here the index of the pool entry, and the new state.  The loop
of lines 404-407 only prints the recorded locations and is left out. -/
def gfx_vitagl_create_and_load_new_shader (d : Driver) (s : GfxState) (shader_id : Nat) :
    Except Fault (Nat × GfxState) :=
  let f := d.gfx_cc_get_features shader_id
  let num_floats := vertex_num_floats f
  (generate_sources f).bind fun src =>
  (compile_stage d ShaderKind.vertex src.1 s.gl).bind fun vertex =>
  (compile_stage d ShaderKind.fragment src.2 vertex.2).bind fun fragment =>
  let program := attach_stages d vertex.1 fragment.1 fragment.2
  -- struct ShaderProgram *prg = &shader_program_pool[shader_program_pool_size++];
  let slot := s.shader_program_pool_size
  match s.shader_program_pool.get? slot with
  | none => .error .out_of_bounds
  | some entry =>
    (bind_attribs f program.1 { prg := entry, cnt := 0, gl := program.2 }).bind fun a =>
    let prg := fill_entry f shader_id program.1 num_floats a
    let s1 : GfxState := { s with
      shader_program_pool := s.shader_program_pool.set slot prg
      shader_program_pool_size := to_uint8 (s.shader_program_pool_size + 1)
      gl := a.gl ++ [GLCall.linkProgram program.1] }
    (gfx_vitagl_load_shader s1 prg).bind fun s2 =>
    let done := record_noise d f program.1 prg s2.gl
    .ok (slot, { s2 with shader_program_pool := s2.shader_program_pool.set slot done.1,
                         gl := done.2 })

/-! ## The two halves of `gfx_vitagl_create_and_load_new_shader` around line 373 -/

/-- Lines 201-373 of `gfx_vitagl_create_and_load_new_shader`: generate and
compile both shaders (with `abort()` when the driver reports a failure),
create the program object, and take the pool slot
`prg = &shader_program_pool[shader_program_pool_size++]`.  The result is the
program object with the driver trace, the index of the slot, and the state
with the incremented counter.  Nothing compares the counter with the size of
the pool, and taking the address stores nothing. -/
def create_until_slot (d : Driver) (s : GfxState) (shader_id : Nat) :
    Except Fault ((Nat × List GLCall) × Nat × GfxState) :=
  let f := d.gfx_cc_get_features shader_id
  (generate_sources f).bind fun src =>
  (compile_stage d ShaderKind.vertex src.1 s.gl).bind fun vertex =>
  (compile_stage d ShaderKind.fragment src.2 vertex.2).bind fun fragment =>
  let program := attach_stages d vertex.1 fragment.1 fragment.2
  .ok (program, s.shader_program_pool_size,
    { s with shader_program_pool_size := to_uint8 (s.shader_program_pool_size + 1) })

/-- Lines 374-427 of `gfx_vitagl_create_and_load_new_shader`: the stores
through `prg`, the slot taken at line 373, and the loading of the entry.  A
slot index that is no element of the pool makes the first store through `prg`
a store outside the array. -/
def create_from_slot (d : Driver) (shader_id : Nat) (program : Nat × List GLCall) (slot : Nat)
    (s : GfxState) : Except Fault (Nat × GfxState) :=
  let f := d.gfx_cc_get_features shader_id
  let num_floats := vertex_num_floats f
  match s.shader_program_pool.get? slot with
  | none => .error .out_of_bounds
  | some entry =>
    (bind_attribs f program.1 { prg := entry, cnt := 0, gl := program.2 }).bind fun a =>
    let prg := fill_entry f shader_id program.1 num_floats a
    let s1 : GfxState := { s with
      shader_program_pool := s.shader_program_pool.set slot prg
      gl := a.gl ++ [GLCall.linkProgram program.1] }
    (gfx_vitagl_load_shader s1 prg).bind fun s2 =>
    let done := record_noise d f program.1 prg s2.gl
    .ok (slot, { s2 with shader_program_pool := s2.shader_program_pool.set slot done.1,
                         gl := done.2 })

/-! ## `gfx_vitagl_lookup_shader`, `gfx_vitagl_shader_get_info` -/

/-- The loop of `gfx_vitagl_lookup_shader` from index `i` with `count`
iterations left: the first index whose entry has the id, `none` for `NULL`.
Reading an entry past the pool array is a fault. -/
def lookup_from (pool : List ShaderProgram) (shader_id : Nat) :
    Nat → Nat → Except Fault (Option Nat)
  | 0, _ => .ok none
  | count + 1, i =>
    match pool.get? i with
    | none => .error .out_of_bounds
    | some entry =>
      if entry.shader_id = shader_id then .ok (some i)
      else lookup_from pool shader_id count (i + 1)

/-- The function `gfx_vitagl_lookup_shader`; it returns the pointer (index or
`none`) together with the state it leaves. -/
def gfx_vitagl_lookup_shader (s : GfxState) (shader_id : Nat) :
    Except Fault (Option Nat × GfxState) :=
  (lookup_from s.shader_program_pool shader_id s.shader_program_pool_size 0).bind fun r =>
  .ok (r, s)

/-- The function `gfx_vitagl_shader_get_info`: the values stored through the
two out-parameters, `(*num_inputs, used_textures[0], used_textures[1])`. -/
def gfx_vitagl_shader_get_info (prg : ShaderProgram) : Nat × Bool × Bool :=
  (prg.num_inputs, prg.used_textures0, prg.used_textures1)

/-- Modelled from the spec: `getOrCreate`, the composition that the renderer
(outside `gfx_vitagl.c`) makes of the two cache operations: look the formula id
up and build a program only when the lookup finds none. -/
def get_or_create (d : Driver) (s : GfxState) (shader_id : Nat) : Except Fault (Nat × GfxState) :=
  (gfx_vitagl_lookup_shader s shader_id).bind fun (r, s1) =>
  match r with
  | some prg => .ok (prg, s1)
  | none => gfx_vitagl_create_and_load_new_shader d s1 shader_id

/-! ## Wrap modes: `gfx_cm_to_opengles` -/

/-- Modelled from the spec: the two independent wrap flag bits (`G_TX_CLAMP`
and `G_TX_MIRROR` of `PR/gbi.h`) and the three wrap modes of the GL header.
Neither header is part of the sources at hand, so the five constants are
parameters. -/
structure WrapConstants where
  G_TX_CLAMP : Nat
  G_TX_MIRROR : Nat
  GL_CLAMP_TO_EDGE : Nat
  GL_MIRRORED_REPEAT : Nat
  GL_REPEAT : Nat

/-- The function `gfx_cm_to_opengles`. -/
def gfx_cm_to_opengles (k : WrapConstants) (val : Nat) : Nat :=
  if val &&& k.G_TX_CLAMP ≠ 0 then k.GL_CLAMP_TO_EDGE
  else if val &&& k.G_TX_MIRROR ≠ 0 then k.GL_MIRRORED_REPEAT else k.GL_REPEAT

/-! ## Descriptions of the generated text, used to state and prove the theorems -/

/-- The buffer `b1` has the size of `b`, a cursor inside the array, and holds
the text `t`. -/
def Holds (b b1 : CharBuf) (t : List Char) : Prop :=
  b1.bytes.length = b.bytes.length ∧ b1.len ≤ b1.bytes.length ∧ b1.text = t

/-- The step `m` turns the text `t` of any buffer into `g t`: it never
shortens the text; provided `R` holds it succeeds whenever the new text and a
terminator fit in the array; whenever it succeeds the buffer holds the new
text; and provided `R` holds its only fault is a store outside the array. -/
structure Emits (R : Prop) (m : CharBuf → Except Fault CharBuf)
    (g : List Char → List Char) : Prop where
  grow : ∀ t, t.length ≤ (g t).length
  run : R → ∀ b, b.len ≤ b.bytes.length → (g b.text).length < b.bytes.length →
    ∃ b1, m b = .ok b1 ∧ Holds b b1 (g b.text)
  sound : ∀ b b1, b.len ≤ b.bytes.length → m b = .ok b1 → Holds b b1 (g b.text)
  fault : R → ∀ b e, b.len ≤ b.bytes.length → m b = .error e → e = Fault.out_of_bounds

/-- The step `m` appends the text `s`. -/
def Appends (R : Prop) (m : CharBuf → Except Fault CharBuf) (s : List Char) : Prop :=
  Emits R m (fun t => t ++ s)

/-- The buffer after the characters `s` have been stored at the cursor. -/
def CharBuf.extend (b : CharBuf) (s : List Char) : CharBuf :=
  { bytes := b.bytes.take b.len ++ s ++ b.bytes.drop (b.len + s.length), len := b.len + s.length }

/-- The step `m` stores exactly the characters `s` at the cursor and nothing
else; it faults exactly when they do not fit in the array. -/
def Writes (m : CharBuf → Except Fault CharBuf) (s : List Char) : Prop :=
  ∀ b, b.len ≤ b.bytes.length →
    m b = if b.len + s.length ≤ b.bytes.length then .ok (b.extend s) else .error .out_of_bounds

/-- The step `m` faults on every buffer. -/
def Fails (m : CharBuf → Except Fault CharBuf) : Prop :=
  ∀ b, ∃ e, m b = .error e

/-- A text followed by a newline. -/
def line (str : String) : List Char := str.data ++ ['\n']

/-- The text of a counting loop whose iteration `i` emits `txt i`. -/
def loop_text (txt : Nat → List Char) : Nat → Nat → List Char
  | 0, _ => []
  | count + 1, i => txt i ++ loop_text txt count (i + 1)

/-- The text `t` with its last character but one replaced by `ch`. -/
def set_back2 (t : List Char) (ch : Char) : List Char := t.set (t.length - 2) ch

/-- A sequence of `append_str` calls whose arguments are either literals or
results of `shader_item_to_str`. -/
def append_pieces (b : CharBuf) : List (Option String) → Except Fault CharBuf
  | [] => .ok b
  | p :: ps => (append_item b p).bind fun b1 => append_pieces b1 ps

/-- The concatenation of the pieces that are present. -/
def pieces_text : List (Option String) → List Char
  | [] => []
  | p :: ps => (p.getD "").data ++ pieces_text ps

/-- The strings that `append_formula` appends, in order. -/
def formula_pieces (c : Fin 2 → Fin 4 → Nat)
    (do_single do_multiply do_mix with_alpha only_alpha opt_alpha : Bool) : List (Option String) :=
  let item := fun (k : Fin 4) (hint : Bool) =>
    shader_item_to_str (operand_row c only_alpha k) with_alpha only_alpha opt_alpha hint
  if do_single then [item 3 false]
  else if do_multiply then [item 0 false, some " * ", item 2 true]
  else if do_mix then
    [some "lerp(", item 1 false, some ", ", item 0 false, some ", ", item 2 true, some ")"]
  else
    [some "(", item 0 false, some " - ", item 1 false, some ") * ", item 2 true, some " + ",
      item 3 false]

/-- The strings that lines 286-298 append, in order. -/
def texel_value_pieces (f : CCFeatures) : List (Option String) :=
  if !f.color_alpha_same && f.opt_alpha then
    [some "float4("]
      ++ formula_pieces f.c f.do_single0 f.do_multiply0 f.do_mix0 false false true
      ++ [some ", "]
      ++ formula_pieces f.c f.do_single1 f.do_multiply1 f.do_mix1 true true true
      ++ [some ")"]
  else formula_pieces f.c f.do_single0 f.do_multiply0 f.do_mix0 f.opt_alpha false f.opt_alpha

/-- Every operand that the formulas of the descriptor use is one that
`shader_item_to_str` recognises. -/
def operands_recognised (f : CCFeatures) : Prop :=
  ∀ p ∈ texel_value_pieces f, p.isSome = true

/-- Text of one iteration of the loop of lines 224-229. -/
def vs_declare_input_text (f : CCFeatures) (i : Nat) : List Char :=
  ("float" ++ fmt_d (input_width f) ++ " aInput" ++ fmt_d (i + 1) ++ ",\n").data
  ++ ("float" ++ fmt_d (input_width f) ++ " out vInput" ++ fmt_d (i + 1)
    ++ " : TEXCOORD" ++ fmt_d (i + 2) ++ ",\n").data

/-- Text of one iteration of the loop of lines 238-240. -/
def vs_copy_input_text (i : Nat) : List Char :=
  ("vInput" ++ fmt_d (i + 1) ++ " = aInput" ++ fmt_d (i + 1) ++ ";\n").data

/-- Text of one iteration of the loop of lines 258-261. -/
def fs_declare_input_text (f : CCFeatures) (i : Nat) : List Char :=
  ("float" ++ fmt_d (input_width f) ++ " vInput" ++ fmt_d (i + 1)
    ++ " : TEXCOORD" ++ fmt_d (i + 2) ++ ",\n").data

/-- Text appended by `vs_params`. -/
def vs_params_text (f : CCFeatures) : List Char :=
  line "float4 main(" ++ (line "float4 aVtxPos,"
  ++ ((if f.used_textures0 || f.used_textures1 then
        line "float2 aTexCoord," ++ line "float2 out vTexCoord : TEXCOORD0," else [])
  ++ ((if f.opt_fog then line "float4 aFog," ++ line "float4 out vFog : TEXCOORD1," else [])
  ++ loop_text (vs_declare_input_text f) f.num_inputs 0)))

/-- Text appended by `vs_body`. -/
def vs_body_text (f : CCFeatures) : List Char :=
  line ") : POSITION\n\x7b"
  ++ ((if f.used_textures0 || f.used_textures1 then line "vTexCoord = aTexCoord;" else [])
  ++ ((if f.opt_fog then line "vFog = aFog;" else [])
  ++ (loop_text vs_copy_input_text f.num_inputs 0
  ++ (line "return aVtxPos;" ++ line "\x7d"))))

/-- The vertex shader source that `build_vertex_source` leaves in an empty
buffer. -/
def vs_text (f : CCFeatures) : List Char :=
  set_back2 (vs_params_text f) ' ' ++ vs_body_text f

/-- Text appended by `fs_params`. -/
def fs_params_text (f : CCFeatures) : List Char :=
  (if f.opt_alpha && f.opt_noise then
    line "float random(float3 value) \x7b"
    ++ (line "    float r = dot(sin(value), float3(12.9898, 78.233, 37.719));"
    ++ (line "    return frac(sin(r) * 143758.5453);" ++ line "\x7d")) else [])
  ++ (line "float4 main("
  ++ ((if f.used_textures0 || f.used_textures1 then line "float2 vTexCoord : TEXCOORD0," else [])
  ++ ((if f.opt_fog then line "float4 vFog : TEXCOORD1," else [])
  ++ (loop_text (fs_declare_input_text f) f.num_inputs 0
  ++ ((if f.used_textures0 then line "uniform sampler2D uTex0 : TEXUNIT0," else [])
  ++ ((if f.used_textures1 then line "uniform sampler2D uTex1 : TEXUNIT1," else [])
  ++ (if f.opt_alpha && f.opt_noise then
        line "uniform int frame_count," ++ (line "uniform int window_height,"
        ++ line "float2 gl_FragCoord : WPOS,") else [])))))))

/-- Text appended by `fs_body` when the right-hand side of the `texel`
assignment is the text `value`. -/
def fs_body_text_with (f : CCFeatures) (value : List Char) : List Char :=
  (if f.used_textures0 then line "float4 texVal0 = tex2D(uTex0, vTexCoord);" else [])
  ++ ((if f.used_textures1 then line "float4 texVal1 = tex2D(uTex1, vTexCoord);" else [])
  ++ ((if f.opt_alpha then "float4 texel = " else "float3 texel = ").data
  ++ (value
  ++ (line ";"
  ++ ((if f.opt_texture_edge && f.opt_alpha then
        line "if (texel.a > 0.3) texel.a = 1.0; else discard;" else [])
  ++ ((if f.opt_fog then
        (if f.opt_alpha then line "texel = float4(lerp(texel.rgb, vFog.rgb, vFog.a), texel.a);"
         else line "texel = lerp(texel, vFog.rgb, vFog.a);") else [])
  ++ ((if f.opt_alpha && f.opt_noise then
        line ("texel.a *= floor(random(float3(floor(gl_FragCoord.xy * (240.0 / "
          ++ "float(window_height))), float(frame_count))) + 0.5);") else [])
  ++ ((if f.opt_alpha then line "return texel;" else line "return float4(texel, 1.0);")
  ++ line "\x7d"))))))))

/-- Text appended by `fs_body`. -/
def fs_body_text (f : CCFeatures) : List Char :=
  fs_body_text_with f (pieces_text (texel_value_pieces f))

/-- The fragment shader source with `value` as the right-hand side of the
`texel` assignment. -/
def fs_text_with (f : CCFeatures) (value : List Char) : List Char :=
  set_back2 (fs_params_text f) ' ' ++ (line ") : COLOR\n\x7b" ++ fs_body_text_with f value)

/-- The fragment shader source that `build_fragment_source` leaves in an empty
buffer. -/
def fs_text (f : CCFeatures) : List Char :=
  fs_text_with f (pieces_text (texel_value_pieces f))

/-- The fragment shader source up to the right-hand side of the `texel`
assignment. -/
def fs_before_value (f : CCFeatures) : List Char :=
  set_back2 (fs_params_text f) ' ' ++ (line ") : COLOR\n\x7b"
  ++ ((if f.used_textures0 then line "float4 texVal0 = tex2D(uTex0, vTexCoord);" else [])
  ++ ((if f.used_textures1 then line "float4 texVal1 = tex2D(uTex1, vTexCoord);" else [])
  ++ (if f.opt_alpha then "float4 texel = " else "float3 texel = ").data)))

/-- The fragment shader source after the right-hand side of the `texel`
assignment. -/
def fs_after_value (f : CCFeatures) : List Char :=
  line ";"
  ++ ((if f.opt_texture_edge && f.opt_alpha then
        line "if (texel.a > 0.3) texel.a = 1.0; else discard;" else [])
  ++ ((if f.opt_fog then
        (if f.opt_alpha then line "texel = float4(lerp(texel.rgb, vFog.rgb, vFog.a), texel.a);"
         else line "texel = lerp(texel, vFog.rgb, vFog.a);") else [])
  ++ ((if f.opt_alpha && f.opt_noise then
        line ("texel.a *= floor(random(float3(floor(gl_FragCoord.xy * (240.0 / "
          ++ "float(window_height))), float(frame_count))) + 0.5);") else [])
  ++ ((if f.opt_alpha then line "return texel;" else line "return float4(texel, 1.0);")
  ++ line "\x7d"))))

/-- The descriptor with the given input count and options and with no formula:
all operands zero, no shape flag set.  The text around the `texel` value
depends on a descriptor only through these seven fields. -/
def skeleton (num_inputs : Nat) (used_textures0 used_textures1 opt_fog opt_alpha opt_noise
    opt_texture_edge : Bool) : CCFeatures :=
  { c := fun _ _ => 0, opt_alpha := opt_alpha, opt_fog := opt_fog,
    opt_texture_edge := opt_texture_edge, opt_noise := opt_noise,
    used_textures0 := used_textures0, used_textures1 := used_textures1,
    num_inputs := num_inputs, do_single0 := false, do_single1 := false,
    do_multiply0 := false, do_multiply1 := false, do_mix0 := false, do_mix1 := false,
    color_alpha_same := false }

/-- The skeleton of a descriptor. -/
def skeleton_of (f : CCFeatures) : CCFeatures :=
  skeleton f.num_inputs f.used_textures0 f.used_textures1 f.opt_fog f.opt_alpha f.opt_noise
    f.opt_texture_edge

instance (f : CCFeatures) : Decidable (operands_recognised f) := by
  unfold operands_recognised
  infer_instance

/-- A descriptor with a multiply-shape colour formula whose first operand is
texel-0-alpha: texel 0 alpha times texel 0, one texture, no inputs, no
options. -/
def texel0a_descriptor : CCFeatures :=
  { c := fun _ j => if j = 0 then SHADER_TEXEL0A else if j = 2 then SHADER_TEXEL0 else SHADER_0,
    opt_alpha := false, opt_fog := false, opt_texture_edge := false, opt_noise := false,
    used_textures0 := true, used_textures1 := false, num_inputs := 0,
    do_single0 := false, do_single1 := false, do_multiply0 := true, do_multiply1 := true,
    do_mix0 := true, do_mix1 := true, color_alpha_same := true }

/-- The descriptor of the end-to-end scenario: one colour input, texture
stage 0 only, no options, single-term colour formula selecting texel 0. -/
def single_texel0_descriptor : CCFeatures :=
  { c := fun _ _ => SHADER_TEXEL0,
    opt_alpha := false, opt_fog := false, opt_texture_edge := false, opt_noise := false,
    used_textures0 := true, used_textures1 := false, num_inputs := 1,
    do_single0 := true, do_single1 := true, do_multiply0 := false, do_multiply1 := false,
    do_mix0 := false, do_mix1 := false, color_alpha_same := true }

/-- The attribute arrays of the entry have their seven elements. -/
def arrays_of_seven (prg : ShaderProgram) : Prop :=
  prg.attrib_locations.length = 7 ∧ prg.attrib_sizes.length = 7

/-- The number of attribute slots of a descriptor: position, texture
coordinate if a texture is used, fog if set, and one per colour input. -/
def slot_count (f : CCFeatures) : Nat :=
  1 + (if f.used_textures0 || f.used_textures1 then 1 else 0) + (if f.opt_fog then 1 else 0)
    + f.num_inputs

/-- The pool entry that a successful create call leaves in its slot, given
the attribute state `a` after binding, the program object and the driver trace
`gl` after loading. -/
def created_entry (d : Driver) (shader_id program : Nat) (a : AttribState) (gl : List GLCall) :
    ShaderProgram :=
  (record_noise d (d.gfx_cc_get_features shader_id) program
    (fill_entry (d.gfx_cc_get_features shader_id) shader_id program
      (vertex_num_floats (d.gfx_cc_get_features shader_id)) a) gl).1

/-- The colour formula is the full four-term shape with texel-0-alpha as
operands 0, 1 and 3. -/
def three_broadcasts (f : CCFeatures) : Prop :=
  f.do_single0 = false ∧ f.do_multiply0 = false ∧ f.do_mix0 = false
    ∧ f.c 0 0 = SHADER_TEXEL0A ∧ f.c 0 1 = SHADER_TEXEL0A ∧ f.c 0 3 = SHADER_TEXEL0A

/-- A descriptor with four inputs, both textures and every option set, whose
colour formula is the full shape (texel0.a - texel0.a) * 0 + texel0.a and whose
alpha formula is the full shape over input 1. -/
def longest_descriptor : CCFeatures :=
  { c := fun i j => if i = 0 then (if j = 2 then SHADER_0 else SHADER_TEXEL0A) else SHADER_INPUT_1,
    opt_alpha := true, opt_fog := true, opt_texture_edge := true, opt_noise := true,
    used_textures0 := true, used_textures1 := true, num_inputs := 4,
    do_single0 := false, do_single1 := false, do_multiply0 := false, do_multiply1 := false,
    do_mix0 := false, do_mix1 := false, color_alpha_same := false }

/-- A driver for examples: every formula id has the descriptor `f`, every
compilation succeeds, and handles and locations are taken from the length of
the call trace. -/
def sample_driver (f : CCFeatures) : Driver :=
  { gfx_cc_get_features := fun _ => f,
    glCreateShader := fun gl => gl.length + 1,
    compile_status := fun _ _ => true,
    glCreateProgram := fun gl => gl.length + 1,
    glGetUniformLocation := fun gl _ _ => (gl.length : Int) }

/-- The lines of a text, with `cur` the part of the current line read so far:
every newline ends a line; a last line without newline counts when it is not
empty. -/
def lines_from (cur : List Char) : List Char → List (List Char)
  | [] => if cur = [] then [] else [cur]
  | ch :: rest => if ch = '\n' then cur :: lines_from [] rest else lines_from (cur ++ [ch]) rest

/-- The lines of a text. -/
def lines_of (t : List Char) : List (List Char) := lines_from [] t

/-- The fragment shader source before the line of the `texel` assignment. -/
def fs_head (f : CCFeatures) : List Char :=
  set_back2 (fs_params_text f) ' ' ++ (line ") : COLOR\n\x7b"
  ++ ((if f.used_textures0 then line "float4 texVal0 = tex2D(uTex0, vTexCoord);" else [])
  ++ (if f.used_textures1 then line "float4 texVal1 = tex2D(uTex1, vTexCoord);" else [])))

/-- The line of the `texel` assignment, without its newline. -/
def texel_line (f : CCFeatures) (value : List Char) : List Char :=
  (if f.opt_alpha then "float4 texel = " else "float3 texel = ").data ++ (value ++ [';'])

/-- The fragment shader source after the line of the `texel` assignment. -/
def fs_tail (f : CCFeatures) : List Char :=
  (if f.opt_texture_edge && f.opt_alpha then
        line "if (texel.a > 0.3) texel.a = 1.0; else discard;" else [])
  ++ ((if f.opt_fog then
        (if f.opt_alpha then line "texel = float4(lerp(texel.rgb, vFog.rgb, vFog.a), texel.a);"
         else line "texel = lerp(texel, vFog.rgb, vFog.a);") else [])
  ++ ((if f.opt_alpha && f.opt_noise then
        line ("texel.a *= floor(random(float3(floor(gl_FragCoord.xy * (240.0 / "
          ++ "float(window_height))), float(frame_count))) + 0.5);") else [])
  ++ ((if f.opt_alpha then line "return texel;" else line "return float4(texel, 1.0);")
  ++ line "\x7d")))

/-- The fog statement of a fragment shader with alpha. -/
def fog_line_alpha : List Char :=
  "texel = float4(lerp(texel.rgb, vFog.rgb, vFog.a), texel.a);".data

/-- The fog statement of a fragment shader without alpha. -/
def fog_line_plain : List Char := "texel = lerp(texel, vFog.rgb, vFog.a);".data

/-- A descriptor with fog and alpha: one input, texture stage 0, multiply
shape texel 0 times input 1 for colour and alpha alike. -/
def fog_alpha_descriptor : CCFeatures :=
  { c := fun _ j => if j = 0 then SHADER_TEXEL0 else if j = 2 then SHADER_INPUT_1 else SHADER_0,
    opt_alpha := true, opt_fog := true, opt_texture_edge := false, opt_noise := false,
    used_textures0 := true, used_textures1 := false, num_inputs := 1,
    do_single0 := false, do_single1 := false, do_multiply0 := true, do_multiply1 := true,
    do_mix0 := true, do_mix1 := true, color_alpha_same := true }

/-- The descriptor without any parameter for the fragment shader: no inputs,
no textures, no options, single-term colour formula selecting constant zero. -/
def bare_descriptor : CCFeatures :=
  { c := fun _ _ => SHADER_0,
    opt_alpha := false, opt_fog := false, opt_texture_edge := false, opt_noise := false,
    used_textures0 := false, used_textures1 := false, num_inputs := 0,
    do_single0 := true, do_single1 := true, do_multiply0 := true, do_multiply1 := true,
    do_mix0 := true, do_mix1 := true, color_alpha_same := true }

/-- The text made of the given lines, each followed by a newline. -/
def unlines : List (List Char) → List Char
  | [] => []
  | l :: ls => l ++ '\n' :: unlines ls

/-- The lines with the last character of the last line replaced by a blank. -/
def blank_last : List (List Char) → List (List Char)
  | [] => []
  | l :: ls => if ls = [] then [l.dropLast ++ [' ']] else l :: blank_last ls

/-- The line that iteration `i` of the loop of lines 258-261 writes. -/
def fs_declare_input_line (f : CCFeatures) (i : Nat) : List Char :=
  ("float" ++ fmt_d (input_width f) ++ " vInput" ++ fmt_d (i + 1)
    ++ " : TEXCOORD" ++ fmt_d (i + 2) ++ ",").data

/-- The lines that `count` iterations of the loop of lines 258-261 write,
starting at index `i`. -/
def fs_input_lines (f : CCFeatures) : Nat → Nat → List (List Char)
  | 0, _ => []
  | count + 1, i => fs_declare_input_line f i :: fs_input_lines f count (i + 1)

/-- The lines that `fs_params` writes. -/
def fs_param_lines (f : CCFeatures) : List (List Char) :=
  (if f.opt_alpha && f.opt_noise then
    ["float random(float3 value) \x7b".data,
     "    float r = dot(sin(value), float3(12.9898, 78.233, 37.719));".data,
     "    return frac(sin(r) * 143758.5453);".data,
     "\x7d".data] else [])
  ++ (["float4 main(".data]
  ++ ((if f.used_textures0 || f.used_textures1 then ["float2 vTexCoord : TEXCOORD0,".data] else [])
  ++ ((if f.opt_fog then ["float4 vFog : TEXCOORD1,".data] else [])
  ++ (fs_input_lines f f.num_inputs 0
  ++ ((if f.used_textures0 then ["uniform sampler2D uTex0 : TEXUNIT0,".data] else [])
  ++ ((if f.used_textures1 then ["uniform sampler2D uTex1 : TEXUNIT1,".data] else [])
  ++ (if f.opt_alpha && f.opt_noise then
        ["uniform int frame_count,".data, "uniform int window_height,".data,
         "float2 gl_FragCoord : WPOS,".data] else [])))))))

/-- The lines of the fragment shader after the `texel` assignment. -/
def fs_tail_lines (f : CCFeatures) : List (List Char) :=
  (if f.opt_texture_edge && f.opt_alpha then
        ["if (texel.a > 0.3) texel.a = 1.0; else discard;".data] else [])
  ++ ((if f.opt_fog then
        (if f.opt_alpha then [fog_line_alpha] else [fog_line_plain]) else [])
  ++ ((if f.opt_alpha && f.opt_noise then
        [("texel.a *= floor(random(float3(floor(gl_FragCoord.xy * (240.0 / "
          ++ "float(window_height))), float(frame_count))) + 0.5);").data] else [])
  ++ ((if f.opt_alpha then ["return texel;".data] else ["return float4(texel, 1.0);".data])
  ++ ["\x7d".data])))

/-- The lines of the fragment shader source, for the right-hand side `value`
of the `texel` assignment. -/
def fs_lines_with (f : CCFeatures) (value : List Char) : List (List Char) :=
  blank_last (fs_param_lines f)
  ++ ([") : COLOR".data, "\x7b".data]
  ++ ((if f.used_textures0 then ["float4 texVal0 = tex2D(uTex0, vTexCoord);".data] else [])
  ++ ((if f.used_textures1 then ["float4 texVal1 = tex2D(uTex1, vTexCoord);".data] else [])
  ++ (texel_line f value :: fs_tail_lines f))))

/-- The lines of the fragment shader source of a descriptor. -/
def fs_lines (f : CCFeatures) : List (List Char) :=
  fs_lines_with f (pieces_text (texel_value_pieces f))

/-! ## Example states, drivers and descriptors for the cache and the attribute layout -/

/-- The values the five constants have in the N64 and OpenGL headers: mirror
is bit 0, clamp is bit 1. -/
def header_constants : WrapConstants :=
  { G_TX_CLAMP := 2, G_TX_MIRROR := 1, GL_CLAMP_TO_EDGE := 0x812F,
    GL_MIRRORED_REPEAT := 0x8370, GL_REPEAT := 0x2901 }

/-- A full pool: 64 entries with the formula ids 1 to 64. -/
def full_pool_state : GfxState :=
  { shader_program_pool :=
      (List.range 64).map fun i => { ShaderProgram.zero with shader_id := i + 1 },
    shader_program_pool_size := 64, cur_shader := none, frame_count := 0,
    window_height := 0, gl := [] }

/-- A pool with three programs, the second and third with the same formula
id. -/
def three_entry_state : GfxState :=
  { GfxState.init with
    shader_program_pool :=
      [{ ShaderProgram.zero with shader_id := 4 }, { ShaderProgram.zero with shader_id := 9 },
       { ShaderProgram.zero with shader_id := 9 }] ++ List.replicate 61 ShaderProgram.zero,
    shader_program_pool_size := 3 }

/-- A descriptor with two inputs and both textures: the colour and alpha are
the blend of texel 0 and texel 1 by input 1, with fog and alpha. -/
def two_texture_descriptor : CCFeatures :=
  { c := fun _ j => if j = 0 then SHADER_TEXEL0 else if j = 1 then SHADER_TEXEL1
      else if j = 2 then SHADER_INPUT_1 else SHADER_0,
    opt_alpha := true, opt_fog := true, opt_texture_edge := false, opt_noise := false,
    used_textures0 := true, used_textures1 := true, num_inputs := 2,
    do_single0 := false, do_single1 := false, do_multiply0 := false, do_multiply1 := false,
    do_mix0 := true, do_mix1 := true, color_alpha_same := true }

/-- A driver for examples with two formulas: the id 7 has the single-texel
descriptor, every other id the two-texture descriptor; otherwise as
`sample_driver`. -/
def two_formula_driver : Driver :=
  { sample_driver single_texel0_descriptor with
    gfx_cc_get_features := fun shader_id =>
      if shader_id = 7 then single_texel0_descriptor else two_texture_descriptor }

/-! ## Descriptions of the attribute layout and of the driver calls -/

/-- The attribute slots of a descriptor in the order of lines 371-400, each
with the name bound to it and its component width: position, texture
coordinate, fog, colour inputs. -/
def attrib_layout (f : CCFeatures) : List (String × Nat) :=
  [("aVtxPos", 4)]
  ++ ((if f.used_textures0 || f.used_textures1 then [("aTexCoord", 2)] else [])
  ++ ((if f.opt_fog then [("aFog", 4)] else [])
  ++ (List.range f.num_inputs).map fun i => ("aInput" ++ fmt_d (i + 1), input_width f)))

/-- The calls `glBindAttribLocation(program, i, name)` for the given names,
the first at slot `i`. -/
def bind_calls (program : Nat) : Nat → List (String × Nat) → List GLCall
  | _, [] => []
  | i, item :: rest => GLCall.bindAttribLocation program i item.1 :: bind_calls program (i + 1) rest

/-- The attribute state `a` is the one that lines 371-400 reach from the pool
entry `entry` and the trace `gl` by binding the slots `items`: the counter,
the trace, the first elements of the two arrays, and nothing else changed. -/
def Bound (program : Nat) (entry : ShaderProgram) (gl : List GLCall) (items : List (String × Nat))
    (a : AttribState) : Prop :=
  a.cnt = items.length ∧
  a.gl = gl ++ bind_calls program 0 items ∧
  items.length ≤ entry.attrib_locations.length ∧
  items.length ≤ entry.attrib_sizes.length ∧
  a.prg = { entry with
    attrib_locations := (List.range items.length).map (fun (i : Nat) => (i : Int))
      ++ entry.attrib_locations.drop items.length
    attrib_sizes := items.map (fun item => to_uint8 item.2)
      ++ entry.attrib_sizes.drop items.length }

/-- The two calls that `gfx_vitagl_vertex_array_set_attribs` makes for
attribute `i`: the byte stride is `num_floats` floats, the byte offset the
widths of the attributes before `i`. -/
def attrib_pointer_calls (prg : ShaderProgram) (i : Nat) : List GLCall :=
  [GLCall.enableVertexAttribArray (prg.attrib_locations.getD i 0),
   GLCall.vertexAttribPointer (prg.attrib_locations.getD i 0) (prg.attrib_sizes.getD i 0)
     (prg.num_floats * 4) ((prg.attrib_sizes.take i).sum * 4)]

/-- All calls that `gfx_vitagl_vertex_array_set_attribs` makes. -/
def set_attribs_calls (prg : ShaderProgram) : List GLCall :=
  (List.range prg.num_attribs).flatMap (attrib_pointer_calls prg)

/-- The driver calls of a create call up to the end of `gfx_vitagl_load_shader`
(line 417), in order: compile both stages, create the program and attach
them, bind the attribute slots, link, then load the entry `filled` as it is
at that point. -/
def creation_calls (f : CCFeatures) (vertex_shader fragment_shader program : Nat)
    (vs fs : List Char) (filled : ShaderProgram) (frame_count window_height : Nat) :
    List GLCall :=
  [GLCall.createShader ShaderKind.vertex, GLCall.shaderSource vertex_shader vs,
    GLCall.compileShader vertex_shader,
    GLCall.createShader ShaderKind.fragment, GLCall.shaderSource fragment_shader fs,
    GLCall.compileShader fragment_shader,
    GLCall.createProgram, GLCall.attachShader program vertex_shader,
    GLCall.attachShader program fragment_shader]
  ++ (bind_calls program 0 (attrib_layout f)
  ++ ([GLCall.linkProgram program, GLCall.useProgram program]
  ++ (set_attribs_calls filled
  ++ (if filled.used_noise then
        [GLCall.uniform1i filled.frame_count_location (to_GLint frame_count),
         GLCall.uniform1i filled.window_height_location (to_GLint window_height)]
      else []))))

/-- Whether a driver call is a `glBindAttribLocation`. -/
def is_bind_call : GLCall → Bool
  | GLCall.bindAttribLocation _ _ _ => true
  | _ => false

/-- The parameter lines of a vertex shader source: the lines after the header
line and before the line that closes the parameter list. -/
def vs_parameter_lines (t : List Char) : List (List Char) :=
  (lines_of t).tail.takeWhile fun l => l ≠ ") : POSITION".data

/-- Whether a parameter line `floatN out ...` declares an output: the word
after the seven characters of the type is `out`. -/
def is_out_parameter (l : List Char) : Bool := (l.drop 7).take 4 = "out ".data

/-- The inputs that a vertex shader source declares, in order: its parameter
lines that are not outputs, each without its last character (the comma, or
the blank that line 230 puts in its place). -/
def vs_declared_inputs (t : List Char) : List (List Char) :=
  ((vs_parameter_lines t).filter fun l => !is_out_parameter l).map List.dropLast

/-- The declaration `floatN name` of an attribute of the layout. -/
def attrib_declaration (item : String × Nat) : List Char :=
  ("float" ++ fmt_d item.2 ++ " " ++ item.1).data

/-! ## Descriptions of the statements of the fragment source -/

/-- Whether a line starts with `float3` or `float4`: in the fragment source
these are the declarations of the colour inputs, of the fog input and of
`texel`, and the header `float4 main(`. -/
def is_vector_line (l : List Char) : Bool :=
  decide (l.take 6 = "float3".data) || decide (l.take 6 = "float4".data)

/-- The lines of the fragment source of a descriptor without inputs and with
an empty `texel` value that do not start with `float3` or `float4`. -/
def fs_fixed_lines (used_textures0 used_textures1 opt_fog opt_alpha opt_noise
    opt_texture_edge : Bool) : List (List Char) :=
  (fs_lines_with (skeleton 0 used_textures0 used_textures1 opt_fog opt_alpha opt_noise
    opt_texture_edge) []).filter fun l => !is_vector_line l

/-- The edge-discard statement. -/
def discard_line : List Char := "if (texel.a > 0.3) texel.a = 1.0; else discard;".data

/-- The noise-dither statement. -/
def dither_line : List Char :=
  ("texel.a *= floor(random(float3(floor(gl_FragCoord.xy * (240.0 / "
    ++ "float(window_height))), float(frame_count))) + 0.5);").data

/-- The lines by which a fragment source uses noise, in the order in which
they are written: the first three lines of the helper `random` (its closing
brace is a line like the one that ends `main`), the two uniforms, the fragment
coordinate (the last parameter, whose comma line 275 has replaced by a blank)
and the dither statement. -/
def noise_lines : List (List Char) :=
  ["float random(float3 value) \x7b".data,
   "    float r = dot(sin(value), float3(12.9898, 78.233, 37.719));".data,
   "    return frac(sin(r) * 143758.5453);".data,
   "uniform int frame_count,".data,
   "uniform int window_height,".data,
   "float2 gl_FragCoord : WPOS ".data,
   dither_line]

/-- The statements that can follow the `texel` assignment, up to the
`return`. -/
def post_statements : List (List Char) :=
  [discard_line, fog_line_alpha, fog_line_plain, dither_line, "return texel;".data,
   "return float4(texel, 1.0);".data]

/-- A descriptor with noise but without alpha: one input, no texture, single
colour formula selecting input 1. -/
def noise_without_alpha_descriptor : CCFeatures :=
  { c := fun _ _ => SHADER_INPUT_1,
    opt_alpha := false, opt_fog := false, opt_texture_edge := false, opt_noise := true,
    used_textures0 := false, used_textures1 := false, num_inputs := 1,
    do_single0 := true, do_single1 := true, do_multiply0 := false, do_multiply1 := false,
    do_mix0 := false, do_mix1 := false, color_alpha_same := true }

/-- A descriptor with noise and alpha: one input, texture stage 0, colour and
alpha the product of texel 0 and input 1. -/
def noise_descriptor : CCFeatures :=
  { c := fun _ j => if j = 0 then SHADER_TEXEL0 else if j = 2 then SHADER_INPUT_1 else SHADER_0,
    opt_alpha := true, opt_fog := false, opt_texture_edge := true, opt_noise := true,
    used_textures0 := true, used_textures1 := false, num_inputs := 1,
    do_single0 := false, do_single1 := false, do_multiply0 := true, do_multiply1 := true,
    do_mix0 := false, do_mix1 := false, color_alpha_same := true }

/-! ## Descriptions of the driver state: uniforms and enabled attribute arrays -/

/-- Whether a driver call is a `glUniform1i`. -/
def is_uniform_call : GLCall → Bool
  | GLCall.uniform1i _ _ => true
  | _ => false

/-- The calls that `gfx_vitagl_unload_shader` makes for a program. -/
def unload_calls (prg : ShaderProgram) : List GLCall :=
  (List.range prg.num_attribs).map fun i =>
    GLCall.disableVertexAttribArray (prg.attrib_locations.getD i 0)

/-- Whether the characters `p` stand somewhere in the line `l`. -/
def line_contains (p l : List Char) : Bool := l.tails.any fun s => p.isPrefixOf s

/-- The outputs that a vertex shader source declares, in order: its parameter
lines `T out N : S,`, each without the word `out` and without its last
character (the comma, or the blank that line 230 puts in its place). -/
def vs_declared_outputs (t : List Char) : List (List Char) :=
  ((vs_parameter_lines t).filter is_out_parameter).map fun l => (l.take 7 ++ l.drop 11).dropLast

/-- The varying inputs among the lines of a fragment shader source: the lines
after the header `float4 main(` and before the line that closes the parameter
list which carry a `TEXCOORD` semantic, each without its last character (the
comma, or the blank that line 275 puts in its place). -/
def fs_varyings_of_lines (ls : List (List Char)) : List (List Char) :=
  ((((ls.takeWhile fun l => l ≠ ") : COLOR".data).dropWhile
      fun l => l ≠ "float4 main(".data).tail).filter
    (line_contains " : TEXCOORD".data)).map List.dropLast

/-- The varying inputs that a fragment shader source declares, in order. -/
def fs_declared_varyings (t : List Char) : List (List Char) :=
  fs_varyings_of_lines (lines_of t)

/-- The declarations `T N : S` of the varyings of a descriptor: the texture
coordinate, the fog and the colour inputs. -/
def varying_declarations (f : CCFeatures) : List (List Char) :=
  (if f.used_textures0 || f.used_textures1 then ["float2 vTexCoord : TEXCOORD0".data] else [])
  ++ ((if f.opt_fog then ["float4 vFog : TEXCOORD1".data] else [])
  ++ (List.range f.num_inputs).map fun i =>
      ("float" ++ fmt_d (if f.opt_alpha then 4 else 3) ++ " vInput" ++ fmt_d (i + 1)
        ++ " : TEXCOORD" ++ fmt_d (i + 2)).data)

/-! ## The meaning of the blend shape -/

/-- Modelled from the spec: the expressions that a blend formula denotes: an
operand of the formula, named by its position 0..3 in the operand row, or the
linear-interpolation builtin `lerp` of the shading language applied to three
expressions. -/
inductive FormulaExpr
  | operand (k : Fin 4)
  | lerp (x y s : FormulaExpr)

/-- The source text of an expression, given the texts of the four operands: a
call is written `lerp(x, y, s)`. -/
def FormulaExpr.text (d : Fin 4 → String) : FormulaExpr → String
  | FormulaExpr.operand k => d k
  | FormulaExpr.lerp x y s => "lerp(" ++ x.text d ++ ", " ++ y.text d ++ ", " ++ s.text d ++ ")"

/-- Modelled from the spec: the value of an expression, given the values of
the four operands (one component each, as exact rationals): `lerp(x, y, s)` is
the linear interpolation from `x` to `y` by the factor `s`, which is `x` at
`s = 0` and `y` at `s = 1`. -/
def FormulaExpr.value (v : Fin 4 → ℚ) : FormulaExpr → ℚ
  | FormulaExpr.operand k => v k
  | FormulaExpr.lerp x y s => x.value v + s.value v * (y.value v - x.value v)

/-- An operand table whose two rows differ: the colour row is (texel 0,
input 1, input 2, zero), the alpha row is (input 3, texel 1, texel 0 alpha,
input 4). -/
def two_row_table : Fin 2 → Fin 4 → Nat := fun i j =>
  if i = 0 then
    (if j = 0 then SHADER_TEXEL0 else if j = 1 then SHADER_INPUT_1
      else if j = 2 then SHADER_INPUT_2 else SHADER_0)
  else
    (if j = 0 then SHADER_INPUT_3 else if j = 1 then SHADER_TEXEL1
      else if j = 2 then SHADER_TEXEL0A else SHADER_INPUT_4)

/-! ## Descriptors whose fragment text outgrows the buffer -/

/-- The descriptor has four inputs, both textures and all four options, and
the right-hand side of its `texel` assignment (lines 286-298) has 204
characters or more. -/
def overlong (f : CCFeatures) : Prop :=
  f.num_inputs = 4 ∧ f.used_textures0 = true ∧ f.used_textures1 = true ∧ f.opt_fog = true
    ∧ f.opt_alpha = true ∧ f.opt_noise = true ∧ f.opt_texture_edge = true
    ∧ 204 ≤ (pieces_text (texel_value_pieces f)).length

instance (f : CCFeatures) : Decidable (overlong f) := by
  unfold overlong
  infer_instance

/-- The longest descriptor that still fits: as `longest_descriptor`, with the
alpha formula a single term, so that the `texel` value has 186 characters. -/
def longest_fitting_descriptor : CCFeatures :=
  { longest_descriptor with do_single1 := true }

/-- A driver for examples whose compiler rejects every shader; otherwise as
`sample_driver`. -/
def rejecting_driver (f : CCFeatures) : Driver :=
  { sample_driver f with compile_status := fun _ _ => false }

/-! # Theorems -/

/-! ## Lists and single stores -/

theorem take_set_succ (l : List Char) (n : Nat) (ch : Char) (h : n < l.length) :
    (l.set n ch).take (n + 1) = l.take n ++ [ch] := by
  induction l generalizing n with
  | nil => simp at h
  | cons x xs ih =>
    cases n with
    | zero => simp
    | succ k =>
      simp only [List.length_cons, Nat.add_lt_add_iff_right] at h
      simp [List.set, ih k h]

theorem take_set_ge (l : List Char) (n i : Nat) (ch : Char) (h : n ≤ i) :
    (l.set i ch).take n = l.take n := by
  induction l generalizing n i with
  | nil => simp
  | cons x xs ih =>
    cases n with
    | zero => simp
    | succ k =>
      cases i with
      | zero => omega
      | succ j => simp [List.set, ih k j (by omega)]

theorem take_set_lt (l : List Char) (n i : Nat) (ch : Char) (h : i < n) :
    (l.set i ch).take n = (l.take n).set i ch := by
  induction l generalizing n i with
  | nil => simp
  | cons x xs ih =>
    cases n with
    | zero => omega
    | succ k =>
      cases i with
      | zero => simp
      | succ j => simp [List.set, ih k j (by omega)]

theorem text_length (b : CharBuf) (h : b.len ≤ b.bytes.length) : b.text.length = b.len := by
  simp [CharBuf.text, h]

theorem holds_len_eq {b b1 : CharBuf} {t : List Char} (h : Holds b b1 t) :
    b1.len = t.length := by
  rw [← h.2.2, text_length b1 h.2.1]

theorem put_ok (b : CharBuf) (ch : Char) (h : b.len < b.bytes.length) :
    b.put ch = .ok { bytes := b.bytes.set b.len ch, len := b.len + 1 } := by
  simp [CharBuf.put, h]

theorem put_fault (b : CharBuf) (ch : Char) (h : ¬ b.len < b.bytes.length) :
    b.put ch = .error .out_of_bounds := by
  simp [CharBuf.put, h]

theorem bind_ok_right (x : Except Fault CharBuf) : x.bind (fun b => Except.ok b) = x := by
  cases x <;> rfl

/-! ## Exact effect of the append functions -/

theorem extend_length (b : CharBuf) (s : List Char) (h : b.len + s.length ≤ b.bytes.length) :
    (b.extend s).bytes.length = b.bytes.length := by
  simp [CharBuf.extend]; omega

theorem extend_text (b : CharBuf) (s : List Char) (h : b.len + s.length ≤ b.bytes.length) :
    (b.extend s).text = b.text ++ s := by
  have h1 : (b.bytes.take b.len ++ s).length = b.len + s.length := by simp; omega
  simp only [CharBuf.extend, CharBuf.text]
  rw [← h1, List.take_left]

theorem extend_extend (b : CharBuf) (s s1 : List Char)
    (h : b.len + s.length ≤ b.bytes.length) :
    (b.extend s).extend s1 = b.extend (s ++ s1) := by
  have h1 : (b.bytes.take b.len ++ s).length = b.len + s.length := by simp; omega
  have e1 : ((b.bytes.take b.len ++ s) ++ b.bytes.drop (b.len + s.length)).take (b.len + s.length)
      = b.bytes.take b.len ++ s := by
    rw [← h1, List.take_left]
  have e2 : ((b.bytes.take b.len ++ s) ++ b.bytes.drop (b.len + s.length)).drop
      (b.len + s.length + s1.length) = b.bytes.drop (b.len + (s.length + s1.length)) := by
    rw [List.drop_append_eq_append_drop, h1]
    have : (b.bytes.take b.len ++ s).drop (b.len + s.length + s1.length) = [] := by
      apply List.drop_eq_nil_of_le; omega
    rw [this, List.nil_append, List.drop_drop]
    congr 1; omega
  simp only [CharBuf.extend, List.length_append]
  rw [e1, e2]
  simp [Nat.add_assoc]

theorem writes_ok : Writes (fun b => Except.ok b) [] := by
  intro b hb
  have : b.extend [] = b := by
    simp [CharBuf.extend]
  simp [this, hb]

theorem writes_put (ch : Char) : Writes (fun b => b.put ch) [ch] := by
  intro b hb
  by_cases h : b.len < b.bytes.length
  · have h1 : b.len + [ch].length ≤ b.bytes.length := by simp; omega
    show b.put ch = _
    rw [if_pos h1, put_ok b ch h]
    simp [CharBuf.extend, List.set_eq_take_append_cons_drop, h]
  · have h1 : ¬ b.len + [ch].length ≤ b.bytes.length := by simp; omega
    show b.put ch = _
    rw [if_neg h1, put_fault b ch h]

theorem writes_bind {m k : CharBuf → Except Fault CharBuf} {s s1 : List Char}
    (h : Writes m s) (h1 : Writes k s1) : Writes (fun b => (m b).bind k) (s ++ s1) := by
  intro b hb
  simp only [h b hb]
  by_cases hfit : b.len + s.length ≤ b.bytes.length
  · have hb1 : (b.extend s).len ≤ (b.extend s).bytes.length := by
      rw [extend_length b s hfit]; exact hfit
    simp only [if_pos hfit, Except.bind, h1 _ hb1, extend_length b s hfit,
      extend_extend b s s1 hfit]
    simp [CharBuf.extend, Nat.add_assoc]
  · have : ¬ b.len + (s ++ s1).length ≤ b.bytes.length := by simp; omega
    rw [if_neg hfit, if_neg this]
    rfl

theorem writes_put_chars (s : List Char) : Writes (fun b => put_chars b s) s := by
  induction s with
  | nil => exact writes_ok
  | cons ch s ih =>
    have := writes_bind (writes_put ch) ih
    simpa [GfxVitaGL.put_chars] using this

theorem writes_append_str (str : String) : Writes (fun b => append_str b str) str.data :=
  writes_put_chars str.data

theorem writes_append_line (str : String) : Writes (fun b => append_line b str) (line str) :=
  writes_bind (writes_put_chars str.data) (writes_put '\n')

theorem writes_append_pieces (ps : List (Option String)) (h : ∀ p ∈ ps, p.isSome = true) :
    Writes (fun b => append_pieces b ps) (pieces_text ps) := by
  induction ps with
  | nil => exact writes_ok
  | cons p ps ih =>
    have hp : p.isSome = true := h p (List.mem_cons_self _ _)
    obtain ⟨str, rfl⟩ := Option.isSome_iff_exists.mp hp
    have := writes_bind (writes_append_str str)
      (ih (fun q hq => h q (List.mem_cons_of_mem _ hq)))
    simpa [GfxVitaGL.append_pieces, append_item, pieces_text] using this

/-! ## Steps that always fault -/

theorem fails_bind_left {m k : CharBuf → Except Fault CharBuf} (h : Fails m) :
    Fails (fun b => (m b).bind k) := by
  intro b
  obtain ⟨e, he⟩ := h b
  exact ⟨e, by simp [he, Except.bind]⟩

theorem fails_bind_right {m k : CharBuf → Except Fault CharBuf} (h : Fails k) :
    Fails (fun b => (m b).bind k) := by
  intro b
  cases hm : m b with
  | error e => exact ⟨e, by simp [hm, Except.bind]⟩
  | ok b1 =>
    obtain ⟨e, he⟩ := h b1
    exact ⟨e, by simp [hm, Except.bind, he]⟩

theorem fails_append_pieces (ps : List (Option String)) (h : ¬ ∀ p ∈ ps, p.isSome = true) :
    Fails (fun b => append_pieces b ps) := by
  induction ps with
  | nil => simp at h
  | cons p ps ih =>
    cases p with
    | none =>
      intro b
      exact ⟨.no_return_value, by simp [GfxVitaGL.append_pieces, append_item, Except.bind]⟩
    | some str =>
      have h1 : ¬ ∀ q ∈ ps, q.isSome = true := by
        intro hall
        apply h
        intro q hq
        rcases List.mem_cons.mp hq with rfl | hq
        · rfl
        · exact hall q hq
      have := fails_bind_right (m := fun b => append_item b (some str)) (ih h1)
      simpa [GfxVitaGL.append_pieces] using this

/-! ## `append_formula` as a sequence of pieces -/

theorem except_bind_assoc (x : Except Fault CharBuf) (k k1 : CharBuf → Except Fault CharBuf) :
    (x.bind k).bind k1 = x.bind (fun b => (k b).bind k1) := by
  cases x <;> rfl

theorem append_pieces_append (b : CharBuf) (ps qs : List (Option String)) :
    append_pieces b (ps ++ qs) = (append_pieces b ps).bind (fun b1 => append_pieces b1 qs) := by
  induction ps generalizing b with
  | nil => rfl
  | cons p ps ih =>
    simp only [List.cons_append, GfxVitaGL.append_pieces, except_bind_assoc]
    congr 1
    funext b1
    exact ih b1

theorem append_pieces_single (b : CharBuf) (p : Option String) :
    append_pieces b [p] = append_item b p := by
  simp [GfxVitaGL.append_pieces, bind_ok_right]

theorem append_formula_eq (b : CharBuf) (c : Fin 2 → Fin 4 → Nat)
    (do_single do_multiply do_mix with_alpha only_alpha opt_alpha : Bool) :
    append_formula b c do_single do_multiply do_mix with_alpha only_alpha opt_alpha
      = append_pieces b
          (formula_pieces c do_single do_multiply do_mix with_alpha only_alpha opt_alpha) := by
  cases do_single <;> cases do_multiply <;> cases do_mix <;>
    simp [append_formula, formula_pieces, GfxVitaGL.append_pieces, append_item, bind_ok_right]

theorem fs_texel_value_eq (f : CCFeatures) (b : CharBuf) :
    fs_texel_value f b = append_pieces b (texel_value_pieces f) := by
  unfold fs_texel_value texel_value_pieces
  split
  · simp only [append_pieces_append, append_formula_eq, append_pieces_single, append_item,
      except_bind_assoc]
  · rw [append_formula_eq]

/-! ## Composition of steps -/

theorem emits_congr {R : Prop} {m : CharBuf → Except Fault CharBuf} {g g1 : List Char → List Char}
    (h : Emits R m g) (e : ∀ t, g t = g1 t) : Emits R m g1 := by
  have : g = g1 := funext e
  rw [← this]; exact h

theorem appends_congr {R : Prop} {m : CharBuf → Except Fault CharBuf} {s s1 : List Char}
    (h : Appends R m s) (e : s = s1) : Appends R m s1 := by
  rw [← e]; exact h

theorem emits_bind {R : Prop} {m k : CharBuf → Except Fault CharBuf}
    {g g1 : List Char → List Char} (h : Emits R m g) (h1 : Emits R k g1) :
    Emits R (fun b => (m b).bind k) (fun t => g1 (g t)) := by
  refine ⟨fun t => le_trans (h.grow t) (h1.grow _), ?_, ?_, ?_⟩
  · intro hR b hb hfit
    have hfit0 : (g b.text).length < b.bytes.length := lt_of_le_of_lt (h1.grow _) hfit
    obtain ⟨b1, e1, hh1⟩ := h.run hR b hb hfit0
    have hfit1 : (g1 b1.text).length < b1.bytes.length := by
      rw [hh1.2.2, hh1.1]; exact hfit
    obtain ⟨b2, e2, hh2⟩ := h1.run hR b1 hh1.2.1 hfit1
    refine ⟨b2, by simp [e1, Except.bind, e2], ?_⟩
    exact ⟨hh2.1.trans hh1.1, hh2.2.1, by rw [hh2.2.2, hh1.2.2]⟩
  · intro b b2 hb e
    cases e1 : m b with
    | error x => simp [e1, Except.bind] at e
    | ok b1 =>
      simp only [e1, Except.bind] at e
      have hh1 := h.sound b b1 hb e1
      have hh2 := h1.sound b1 b2 hh1.2.1 e
      exact ⟨hh2.1.trans hh1.1, hh2.2.1, by rw [hh2.2.2, hh1.2.2]⟩
  · intro hR b e hb he
    cases e1 : m b with
    | error x =>
      simp only [e1, Except.bind, Except.error.injEq] at he
      subst he
      exact h.fault hR b x hb e1
    | ok b1 =>
      simp only [e1, Except.bind] at he
      exact h1.fault hR b1 e (h.sound b b1 hb e1).2.1 he

theorem appends_bind {R : Prop} {m k : CharBuf → Except Fault CharBuf}
    {s s1 : List Char} (h : Appends R m s) (h1 : Appends R k s1) :
    Appends R (fun b => (m b).bind k) (s ++ s1) :=
  emits_congr (emits_bind h h1) (fun t => by simp)

theorem appends_then {R : Prop} {m k : CharBuf → Except Fault CharBuf}
    {g : List Char → List Char} {s : List Char} (h : Emits R m g) (h1 : Appends R k s) :
    Emits R (fun b => (m b).bind k) (fun t => g t ++ s) :=
  emits_bind h h1

theorem writes_appends {R : Prop} {m : CharBuf → Except Fault CharBuf} {s : List Char}
    (h : Writes m s) : Appends R m s := by
  refine ⟨fun t => by simp, ?_, ?_, ?_⟩
  · intro _ b hb hfit
    have hfit1 : b.len + s.length ≤ b.bytes.length := by
      have := text_length b hb
      simp at hfit; omega
    refine ⟨b.extend s, by rw [h b hb, if_pos hfit1], extend_length b s hfit1, ?_,
      extend_text b s hfit1⟩
    rw [extend_length b s hfit1]; exact hfit1
  · intro b b1 hb e
    rw [h b hb] at e
    by_cases hfit1 : b.len + s.length ≤ b.bytes.length
    · rw [if_pos hfit1] at e
      cases e
      refine ⟨extend_length b s hfit1, ?_, extend_text b s hfit1⟩
      rw [extend_length b s hfit1]; exact hfit1
    · rw [if_neg hfit1] at e
      cases e
  · intro _ b e hb he
    rw [h b hb] at he
    by_cases hfit1 : b.len + s.length ≤ b.bytes.length
    · rw [if_pos hfit1] at he
      cases he
    · rw [if_neg hfit1] at he
      cases he
      rfl

theorem appends_ok {R : Prop} : Appends R (fun b => Except.ok b) [] :=
  writes_appends writes_ok

theorem appends_ite {R : Prop} {c : Bool} {m k : CharBuf → Except Fault CharBuf}
    {s s1 : List Char} (h : Appends R m s) (h1 : Appends R k s1) :
    Appends R (fun b => if c = true then m b else k b) (if c = true then s else s1) := by
  cases c <;> simpa

theorem appends_append_str {R : Prop} (str : String) :
    Appends R (fun b => append_str b str) str.data :=
  writes_appends (writes_append_str str)

theorem appends_append_line {R : Prop} (str : String) :
    Appends R (fun b => append_line b str) (line str) :=
  writes_appends (writes_append_line str)

/-- Storing at the cursor without moving it leaves the text as it is, and
succeeds only when the cursor is inside the array. -/
theorem store_at_len (b : CharBuf) (ch : Char) :
    (b.len < b.bytes.length →
      b.store b.len ch = .ok { b with bytes := b.bytes.set b.len ch }) ∧
    (∀ b1, b.store b.len ch = .ok b1 →
      b.len < b.bytes.length ∧ b1 = { b with bytes := b.bytes.set b.len ch }) := by
  constructor
  · intro h
    simp [CharBuf.store, h]
  · intro b1 e
    by_cases h : b.len < b.bytes.length
    · simp only [CharBuf.store, h, if_true] at e
      cases e
      exact ⟨h, rfl⟩
    · simp [CharBuf.store, h] at e

theorem appends_store_at_len {R : Prop} (ch : Char) :
    Appends R (fun b => b.store b.len ch) [] := by
  refine ⟨fun t => by simp, ?_, ?_, ?_⟩
  · intro _ b hb hfit
    have hlt : b.len < b.bytes.length := by
      have := text_length b hb
      simp at hfit; omega
    refine ⟨_, (store_at_len b ch).1 hlt, by simp, by simpa using hb, ?_⟩
    simp [CharBuf.text, take_set_ge]
  · intro b b1 hb e
    obtain ⟨_, rfl⟩ := (store_at_len b ch).2 b1 e
    refine ⟨by simp, by simpa using hb, ?_⟩
    simp [CharBuf.text, take_set_ge]
  · intro _ b e _ he
    unfold CharBuf.store at he
    split at he
    · cases he
    · cases he
      rfl

theorem appends_sprintf_at {R : Prop} (out : String) :
    Appends R (fun b => sprintf_at b out) out.data :=
  appends_congr (appends_bind (writes_appends (writes_put_chars out.data))
    (appends_store_at_len (Char.ofNat 0))) (by simp)

theorem appends_for_loop {R : Prop} {body : Nat → CharBuf → Except Fault CharBuf}
    {txt : Nat → List Char} (h : ∀ i, Appends R (body i) (txt i)) (count i : Nat) :
    Appends R (fun b => for_loop body count i b) (loop_text txt count i) := by
  induction count generalizing i with
  | zero => exact appends_ok
  | succ n ih =>
    have := appends_bind (h i) (ih (i + 1))
    simpa [GfxVitaGL.for_loop, loop_text] using this

theorem emits_store_back2 {R : Prop} {m : CharBuf → Except Fault CharBuf}
    {g : List Char → List Char} (ch : Char) (h : Emits R m g) (hlen : ∀ t, 2 ≤ (g t).length) :
    Emits R (fun b => (m b).bind fun b1 => b1.store_back2 ch) (fun t => set_back2 (g t) ch) := by
  have key : ∀ b b1 : CharBuf, Holds b b1 (g b.text) →
      b1.store_back2 ch = .ok { b1 with bytes := b1.bytes.set (b1.len - 2) ch } ∧
      Holds b { b1 with bytes := b1.bytes.set (b1.len - 2) ch } (set_back2 (g b.text) ch) := by
    intro b b1 hh
    have hl := (holds_len_eq hh)
    have h2 := hlen b.text
    have hlt : b1.len - 2 < b1.bytes.length := by have := hh.2.1; omega
    have h3 : 2 ≤ b1.len := by omega
    refine ⟨by simp [CharBuf.store_back2, CharBuf.store, h3, hlt], by simp [hh.1],
      by simpa using hh.2.1, ?_⟩
    have e3 := hh.2.2
    unfold CharBuf.text at e3
    show List.take b1.len (b1.bytes.set (b1.len - 2) ch) = set_back2 (g b.text) ch
    rw [take_set_lt _ _ _ _ (by omega), e3, hl]
    rfl
  refine ⟨fun t => by simpa [set_back2] using h.grow t, ?_, ?_, ?_⟩
  · intro hR b hb hfit
    have hfit0 : (g b.text).length < b.bytes.length := by simpa [set_back2] using hfit
    obtain ⟨b1, e1, hh1⟩ := h.run hR b hb hfit0
    obtain ⟨e2, hh2⟩ := key b b1 hh1
    exact ⟨_, by simp [e1, Except.bind, e2], hh2⟩
  · intro b b2 hb e
    cases e1 : m b with
    | error x => simp [e1, Except.bind] at e
    | ok b1 =>
      simp only [e1, Except.bind] at e
      have hh1 := h.sound b b1 hb e1
      obtain ⟨e2, hh2⟩ := key b b1 hh1
      rw [e2] at e
      cases e
      exact hh2
  · intro hR b e hb he
    cases e1 : m b with
    | error x =>
      simp only [e1, Except.bind, Except.error.injEq] at he
      subst he
      exact h.fault hR b x hb e1
    | ok b1 =>
      simp only [e1, Except.bind] at he
      obtain ⟨e2, _⟩ := key b b1 (h.sound b b1 hb e1)
      rw [e2] at he
      cases he

theorem appends_append_pieces (ps : List (Option String)) :
    Appends (∀ p ∈ ps, p.isSome = true) (fun b => append_pieces b ps) (pieces_text ps) := by
  by_cases h : ∀ p ∈ ps, p.isSome = true
  · refine ⟨fun t => by simp, fun _ => ?_, ?_, fun _ => ?_⟩
    · exact (writes_appends (R := True) (writes_append_pieces ps h)).run trivial
    · exact (writes_appends (R := True) (writes_append_pieces ps h)).sound
    · exact (writes_appends (R := True) (writes_append_pieces ps h)).fault trivial
  · refine ⟨fun t => by simp, fun hR => absurd hR h, ?_, fun hR => absurd hR h⟩
    intro b b1 _ e
    obtain ⟨x, hx⟩ := fails_append_pieces ps h b
    simp only [hx] at e
    cases e

/-! ## The text written by the shader source builders -/

theorem appends_vs_declare_input {R : Prop} (f : CCFeatures) (i : Nat) :
    Appends R (vs_declare_input f i) (vs_declare_input_text f i) :=
  appends_bind (appends_sprintf_at _) (appends_sprintf_at _)

theorem appends_vs_copy_input {R : Prop} (i : Nat) :
    Appends R (vs_copy_input i) (vs_copy_input_text i) :=
  appends_sprintf_at _

theorem appends_fs_declare_input {R : Prop} (f : CCFeatures) (i : Nat) :
    Appends R (fs_declare_input f i) (fs_declare_input_text f i) :=
  appends_sprintf_at _

theorem appends_vs_params {R : Prop} (f : CCFeatures) :
    Appends R (vs_params f) (vs_params_text f) :=
  appends_bind (appends_append_line _) <|
  appends_bind (appends_append_line _) <|
  appends_bind (appends_ite (appends_bind (appends_append_line _) (appends_append_line _))
    appends_ok) <|
  appends_bind (appends_ite (appends_bind (appends_append_line _) (appends_append_line _))
    appends_ok) <|
  appends_for_loop (appends_vs_declare_input f) _ _

theorem appends_vs_body {R : Prop} (f : CCFeatures) :
    Appends R (vs_body f) (vs_body_text f) :=
  appends_bind (appends_append_line _) <|
  appends_bind (appends_ite (appends_append_line _) appends_ok) <|
  appends_bind (appends_ite (appends_append_line _) appends_ok) <|
  appends_bind (appends_for_loop appends_vs_copy_input _ _) <|
  appends_bind (appends_append_line _) (appends_append_line _)

theorem appends_fs_params {R : Prop} (f : CCFeatures) :
    Appends R (fs_params f) (fs_params_text f) :=
  appends_bind (appends_ite
    (appends_bind (appends_append_line _) <| appends_bind (appends_append_line _) <|
      appends_bind (appends_append_line _) (appends_append_line _)) appends_ok) <|
  appends_bind (appends_append_line _) <|
  appends_bind (appends_ite (appends_append_line _) appends_ok) <|
  appends_bind (appends_ite (appends_append_line _) appends_ok) <|
  appends_bind (appends_for_loop (appends_fs_declare_input f) _ _) <|
  appends_bind (appends_ite (appends_append_line _) appends_ok) <|
  appends_bind (appends_ite (appends_append_line _) appends_ok) <|
  appends_ite
    (appends_bind (appends_append_line _) <| appends_bind (appends_append_line _)
      (appends_append_line _)) appends_ok

theorem appends_fs_texel_value (f : CCFeatures) :
    Appends (operands_recognised f) (fs_texel_value f) (pieces_text (texel_value_pieces f)) := by
  have h := appends_append_pieces (texel_value_pieces f)
  have e : GfxVitaGL.fs_texel_value f = fun b => GfxVitaGL.append_pieces b (texel_value_pieces f) :=
    funext (fs_texel_value_eq f)
  rw [e]
  exact h

theorem appends_fs_body (f : CCFeatures) :
    Appends (operands_recognised f) (fs_body f) (fs_body_text f) :=
  appends_bind (appends_ite (appends_append_line _) appends_ok) <|
  appends_bind (appends_ite (appends_append_line _) appends_ok) <|
  appends_bind (appends_append_str _) <|
  appends_bind (appends_fs_texel_value f) <|
  appends_bind (appends_append_line _) <|
  appends_bind (appends_ite (appends_append_line _) appends_ok) <|
  appends_bind (appends_ite (appends_ite (appends_append_line _) (appends_append_line _))
    appends_ok) <|
  appends_bind (appends_ite (appends_append_line _) appends_ok) <|
  appends_bind (appends_ite (appends_append_line _) (appends_append_line _))
    (appends_append_line _)

theorem line_length (str : String) : (line str).length = str.length + 1 := by
  unfold line
  rw [List.length_append]
  rfl

theorem bind_eq_ok {α β : Type} (x : Except Fault α) (k : α → Except Fault β) (r : β)
    (e : x.bind k = .ok r) : ∃ a, x = .ok a ∧ k a = .ok r := by
  cases x with
  | error err => cases e
  | ok a => exact ⟨a, rfl, e⟩

theorem bind_of_ok {α β : Type} (x : Except Fault α) (k : α → Except Fault β) (a : α)
    (e : x = .ok a) : x.bind k = k a := by
  subst e; rfl

theorem two_le_vs_params_text (f : CCFeatures) (t : List Char) :
    2 ≤ (t ++ vs_params_text f).length := by
  simp only [vs_params_text, List.length_append, line_length]
  have : ("float4 main(" : String).length = 12 := by decide
  omega

theorem two_le_fs_params_text (f : CCFeatures) (t : List Char) :
    2 ≤ (t ++ fs_params_text f).length := by
  simp only [fs_params_text, List.length_append, line_length]
  have : ("float4 main(" : String).length = 12 := by decide
  omega

theorem emits_build_vertex_source {R : Prop} (f : CCFeatures) :
    Emits R (build_vertex_source f)
      (fun t => set_back2 (t ++ vs_params_text f) ' ' ++ vs_body_text f) :=
  appends_then (emits_store_back2 ' ' (appends_vs_params f) (two_le_vs_params_text f))
    (appends_vs_body f)

theorem emits_build_fragment_source (f : CCFeatures) :
    Emits (operands_recognised f) (build_fragment_source f)
      (fun t => set_back2 (t ++ fs_params_text f) ' ' ++ line ") : COLOR\n\x7b"
        ++ fs_body_text f) :=
  appends_then
    (appends_then (emits_store_back2 ' ' (appends_fs_params f) (two_le_fs_params_text f))
      (appends_append_line _))
    (appends_fs_body f)

theorem empty_text (b : CharBuf) (h : b.len = 0) : b.text = [] := by
  simp [CharBuf.text, h]

/-- On an empty buffer in which the vertex source and a terminator fit,
`build_vertex_source` succeeds and leaves exactly `vs_text f`. -/
theorem build_vertex_source_run (f : CCFeatures) (b : CharBuf) (h0 : b.len = 0)
    (hfit : (vs_text f).length < b.bytes.length) :
    ∃ b1, build_vertex_source f b = .ok b1 ∧ Holds b b1 (vs_text f) := by
  have h := (emits_build_vertex_source (R := True) f).run trivial b (by omega)
  rw [empty_text b h0] at h
  exact h hfit

/-- Whenever `build_vertex_source` succeeds on an empty buffer it leaves
exactly `vs_text f`. -/
theorem build_vertex_source_sound (f : CCFeatures) (b b1 : CharBuf) (h0 : b.len = 0)
    (e : build_vertex_source f b = .ok b1) : Holds b b1 (vs_text f) := by
  have h := (emits_build_vertex_source (R := True) f).sound b b1 (by omega) e
  rw [empty_text b h0] at h
  exact h

/-- On an empty buffer in which the fragment source and a terminator fit,
`build_fragment_source` succeeds and leaves exactly `fs_text f`. -/
theorem build_fragment_source_run (f : CCFeatures) (b : CharBuf) (h0 : b.len = 0)
    (hR : operands_recognised f) (hfit : (fs_text f).length < b.bytes.length) :
    ∃ b1, build_fragment_source f b = .ok b1 ∧ Holds b b1 (fs_text f) := by
  have h := (emits_build_fragment_source f).run hR b (by omega)
  rw [empty_text b h0] at h
  simp only [List.nil_append, List.append_assoc] at h
  exact h (by simpa [fs_text, fs_text_with, fs_body_text] using hfit)

/-- Whenever `build_fragment_source` succeeds on an empty buffer it leaves
exactly `fs_text f`. -/
theorem build_fragment_source_sound (f : CCFeatures) (b b1 : CharBuf) (h0 : b.len = 0)
    (e : build_fragment_source f b = .ok b1) : Holds b b1 (fs_text f) := by
  have h := (emits_build_fragment_source f).sound b b1 (by omega) e
  rw [empty_text b h0] at h
  simpa [fs_text, fs_text_with, fs_body_text] using h

theorem terminate_ok (b : CharBuf) (h : b.len < b.bytes.length) :
    ∃ b1, b.terminate = .ok b1 ∧ b1.text = b.text ∧ b1.len = b.len
      ∧ b1.bytes.length = b.bytes.length := by
  refine ⟨_, (store_at_len b _).1 h, ?_, rfl, by simp⟩
  simp [CharBuf.text, take_set_ge]

theorem terminate_sound (b b1 : CharBuf) (e : b.terminate = .ok b1) :
    b.len < b.bytes.length ∧ b1.text = b.text ∧ b1.len = b.len
      ∧ b1.bytes.length = b.bytes.length := by
  obtain ⟨h, rfl⟩ := (store_at_len b _).2 b1 e
  refine ⟨h, ?_, rfl, by simp⟩
  simp [CharBuf.text, take_set_ge]

theorem fresh_buf_length : fresh_buf.bytes.length = 1024 := by
  simp only [fresh_buf, List.length_replicate]

/-- Both sources are produced whenever the operands are recognised and each
text leaves room for its terminator in 1024 bytes. -/
theorem generate_sources_run (f : CCFeatures) (hR : operands_recognised f)
    (hv : (vs_text f).length < 1024) (hf : (fs_text f).length < 1024) :
    ∃ vs fs, generate_sources f = .ok (vs, fs) ∧ vs.text = vs_text f ∧ fs.text = fs_text f := by
  obtain ⟨v1, ev, hv1⟩ := build_vertex_source_run f fresh_buf rfl
    (by rw [fresh_buf_length]; exact hv)
  obtain ⟨f1, ef, hf1⟩ := build_fragment_source_run f fresh_buf rfl hR
    (by rw [fresh_buf_length]; exact hf)
  have hvl : v1.len < v1.bytes.length := by
    rw [(holds_len_eq hv1), hv1.1, fresh_buf_length]; exact hv
  have hfl : f1.len < f1.bytes.length := by
    rw [(holds_len_eq hf1), hf1.1, fresh_buf_length]; exact hf
  obtain ⟨v2, ev2, hv2, _⟩ := terminate_ok v1 hvl
  obtain ⟨f2, ef2, hf2, _⟩ := terminate_ok f1 hfl
  refine ⟨v2, f2, ?_, by rw [hv2, hv1.2.2], by rw [hf2, hf1.2.2]⟩
  unfold generate_sources
  rw [bind_of_ok _ _ _ ev, bind_of_ok _ _ _ ef, bind_of_ok _ _ _ ev2, bind_of_ok _ _ _ ef2]

/-- Whenever both sources are produced, they are `vs_text f` and `fs_text f`
and each was shorter than its 1024-byte buffer. -/
theorem generate_sources_sound (f : CCFeatures) (vs fs : CharBuf)
    (e : generate_sources f = .ok (vs, fs)) :
    vs.text = vs_text f ∧ fs.text = fs_text f
      ∧ (vs_text f).length < 1024 ∧ (fs_text f).length < 1024
      ∧ vs.len = (vs_text f).length ∧ fs.len = (fs_text f).length
      ∧ vs.bytes.length = 1024 ∧ fs.bytes.length = 1024 := by
  unfold generate_sources at e
  obtain ⟨v1, ev, e⟩ := bind_eq_ok _ _ _ e
  obtain ⟨f1, ef, e⟩ := bind_eq_ok _ _ _ e
  obtain ⟨v2, ev2, e⟩ := bind_eq_ok _ _ _ e
  obtain ⟨f2, ef2, e⟩ := bind_eq_ok _ _ _ e
  simp only [Except.ok.injEq, Prod.mk.injEq] at e
  obtain ⟨rfl, rfl⟩ := e
  have hv1 := build_vertex_source_sound f fresh_buf v1 rfl ev
  have hf1 := build_fragment_source_sound f fresh_buf f1 rfl ef
  obtain ⟨a1, a2, a3, a4⟩ := terminate_sound v1 v2 ev2
  obtain ⟨c1, c2, c3, c4⟩ := terminate_sound f1 f2 ef2
  have l1 := (holds_len_eq hv1)
  have l2 := (holds_len_eq hf1)
  have k1 := hv1.1
  have k2 := hf1.1
  rw [fresh_buf_length] at k1 k2
  refine ⟨by rw [a2, hv1.2.2], by rw [c2, hf1.2.2], by omega, by omega, by omega,
    by omega, by omega, by omega⟩

/-! ## The text around the `texel` value -/

theorem fs_text_with_split (f : CCFeatures) (value : List Char) :
    fs_text_with f value = fs_before_value f ++ value ++ fs_after_value f := by
  simp only [fs_text_with, fs_body_text_with, fs_before_value, fs_after_value,
    List.append_assoc]

theorem fs_before_value_skeleton (f : CCFeatures) :
    fs_before_value f = fs_before_value (skeleton_of f) := rfl

theorem fs_after_value_skeleton (f : CCFeatures) :
    fs_after_value f = fs_after_value (skeleton_of f) := rfl

theorem vs_text_skeleton (f : CCFeatures) : vs_text f = vs_text (skeleton_of f) := rfl

/-! ## Counting loops -/

/-- A loop whose body keeps an invariant on the indices below `bound` runs to
completion and the invariant holds at the end. -/
theorem for_loop_invariant {σ : Type} (body : Nat → σ → Except Fault σ) (I : Nat → σ → Prop)
    (bound : Nat)
    (step : ∀ i st, i < bound → I i st → ∃ st1, body i st = .ok st1 ∧ I (i + 1) st1)
    (count i : Nat) (st : σ) (hi : i + count ≤ bound) (h : I i st) :
    ∃ st1, for_loop body count i st = .ok st1 ∧ I (i + count) st1 := by
  induction count generalizing i st with
  | zero => exact ⟨st, rfl, h⟩
  | succ n ih =>
    obtain ⟨st1, e1, h1⟩ := step i st (by omega) h
    obtain ⟨st2, e2, h2⟩ := ih (i + 1) st1 (by omega) h1
    refine ⟨st2, ?_, ?_⟩
    · show (body i st).bind (for_loop body n (i + 1)) = _
      rw [bind_of_ok _ _ _ e1, e2]
    · have : i + (n + 1) = i + 1 + n := by omega
      rw [this]; exact h2

/-- Whatever a loop returns satisfies an invariant that its body keeps. -/
theorem for_loop_sound {σ : Type} (body : Nat → σ → Except Fault σ) (I : Nat → σ → Prop)
    (step : ∀ i st st1, I i st → body i st = .ok st1 → I (i + 1) st1)
    (count i : Nat) (st st1 : σ) (h : I i st) (e : for_loop body count i st = .ok st1) :
    I (i + count) st1 := by
  induction count generalizing i st with
  | zero =>
    simp only [for_loop, Except.ok.injEq] at e
    subst e; exact h
  | succ n ih =>
    obtain ⟨st2, e1, e2⟩ := bind_eq_ok _ _ _ e
    have h2 := ih (i + 1) st2 (step i st st2 h e1) e2
    have : i + (n + 1) = i + 1 + n := by omega
    rw [this]; exact h2

/-! ## The stride -/

theorem add_input_floats_eq (f : CCFeatures) (count acc : Nat) :
    add_input_floats f count acc = acc + count * input_width f := by
  induction count generalizing acc with
  | zero => simp [add_input_floats]
  | succ n ih =>
    simp only [add_input_floats, ih]
    rw [Nat.succ_mul]
    omega

theorem vertex_num_floats_eq (f : CCFeatures) :
    vertex_num_floats f
      = 4 + 2 * (if f.used_textures0 || f.used_textures1 then 1 else 0)
        + 4 * (if f.opt_fog then 1 else 0)
        + f.num_inputs * (if f.opt_alpha then 4 else 3) := by
  unfold vertex_num_floats
  simp only [add_input_floats_eq, input_width]
  split <;> split <;> omega

/-! ## Attribute slots -/

theorem bind_attrib_ok (program : Nat) (name : String) (size : Nat) (a : AttribState)
    (h7 : arrays_of_seven a.prg) (hc : a.cnt < 7) :
    ∃ a1, bind_attrib program name size a = .ok a1 ∧ arrays_of_seven a1.prg
      ∧ a1.cnt = a.cnt + 1 := by
  have hcond : a.cnt < a.prg.attrib_locations.length ∧ a.cnt < a.prg.attrib_sizes.length := by
    rw [h7.1, h7.2]; exact ⟨hc, hc⟩
  unfold bind_attrib
  rw [if_pos hcond]
  exact ⟨_, rfl, ⟨by simp [h7.1], by simp [h7.2]⟩, rfl⟩

theorem input_name_fits (i : Nat) (h : i < 4) : ("aInput" ++ fmt_d (i + 1)).length < 16 := by
  interval_cases i <;> decide

theorem bind_input_attrib_ok (f : CCFeatures) (program i : Nat) (a : AttribState)
    (h7 : arrays_of_seven a.prg) (hc : a.cnt < 7) (hi : i < 4) :
    ∃ a1, bind_input_attrib f program i a = .ok a1 ∧ arrays_of_seven a1.prg
      ∧ a1.cnt = a.cnt + 1 := by
  unfold bind_input_attrib
  simp only [input_name_fits i hi, if_true]
  exact bind_attrib_ok _ _ _ a h7 hc

theorem bind_attribs_run (f : CCFeatures) (program : Nat) (entry : ShaderProgram)
    (gl : List GLCall) (h7 : arrays_of_seven entry) (hn : f.num_inputs ≤ 4) :
    ∃ a, bind_attribs f program { prg := entry, cnt := 0, gl := gl } = .ok a
      ∧ arrays_of_seven a.prg ∧ a.cnt = slot_count f := by
  obtain ⟨a1, e1, k1, c1⟩ := bind_attrib_ok program "aVtxPos" 4
    { prg := entry, cnt := 0, gl := gl } h7 (by simp)
  have step2 : ∃ a2, (if (f.used_textures0 || f.used_textures1) = true
      then bind_attrib program "aTexCoord" 2 a1 else .ok a1) = .ok a2 ∧ arrays_of_seven a2.prg
      ∧ a2.cnt = 1 + (if (f.used_textures0 || f.used_textures1) = true then 1 else 0) := by
    by_cases ht : (f.used_textures0 || f.used_textures1) = true
    · obtain ⟨a2, e2, k2, c2⟩ := bind_attrib_ok program "aTexCoord" 2 a1 k1 (by simp at c1; omega)
      exact ⟨a2, by rw [if_pos ht]; exact e2, k2, by rw [if_pos ht, c2, c1]⟩
    · exact ⟨a1, by rw [if_neg ht], k1, by rw [if_neg ht, c1]⟩
  obtain ⟨a2, e2, k2, c2⟩ := step2
  have step3 : ∃ a3, (if f.opt_fog = true then bind_attrib program "aFog" 4 a2 else .ok a2)
      = .ok a3 ∧ arrays_of_seven a3.prg
      ∧ a3.cnt = a2.cnt + (if f.opt_fog = true then 1 else 0) := by
    by_cases hf : f.opt_fog = true
    · obtain ⟨a3, e3, k3, c3⟩ := bind_attrib_ok program "aFog" 4 a2 k2
        (by rw [c2]; split <;> omega)
      exact ⟨a3, by rw [if_pos hf]; exact e3, k3, by rw [if_pos hf, c3]⟩
    · exact ⟨a2, by rw [if_neg hf], k2, by rw [if_neg hf]; rfl⟩
  obtain ⟨a3, e3, k3, c3⟩ := step3
  have hc3 : a3.cnt ≤ 3 := by
    rw [c3, c2]; split <;> split <;> omega
  obtain ⟨a4, e4, k4, c4⟩ := for_loop_invariant (bind_input_attrib f program)
    (fun i a => arrays_of_seven a.prg ∧ a.cnt = a3.cnt + i) f.num_inputs
    (fun i st hi hI => by
      obtain ⟨st1, es, ks, cs⟩ := bind_input_attrib_ok f program i st hI.1
        (by rw [hI.2]; omega) (by omega)
      exact ⟨st1, es, ks, by rw [cs, hI.2]; omega⟩)
    f.num_inputs 0 a3 (by omega) ⟨k3, by simp⟩
  refine ⟨a4, ?_, k4, ?_⟩
  · unfold bind_attribs
    rw [bind_of_ok _ _ _ e1, bind_of_ok _ _ _ e2, bind_of_ok _ _ _ e3]
    exact e4
  · rw [c4, c3, c2]
    unfold slot_count
    omega

theorem slot_count_le (f : CCFeatures) (hn : f.num_inputs ≤ 4) : slot_count f ≤ 7 := by
  unfold slot_count
  split <;> split <;> omega

theorem set_attribs_run (prg : ShaderProgram) (gl : List GLCall) (h7 : arrays_of_seven prg)
    (hc : prg.num_attribs ≤ 7) :
    ∃ gl1, gfx_vitagl_vertex_array_set_attribs prg gl = .ok gl1 := by
  obtain ⟨a, e, _⟩ := for_loop_invariant (set_attrib prg) (fun _ _ => True) prg.num_attribs
    (fun i st hi _ => by
      have h1 : i < prg.attrib_locations.length := by rw [h7.1]; omega
      have h2 : i < prg.attrib_sizes.length := by rw [h7.2]; omega
      unfold set_attrib
      rw [List.get?_eq_get h1, List.get?_eq_get h2]
      exact ⟨_, rfl, trivial⟩)
    prg.num_attribs 0 { pos := 0, gl := gl } (by omega) trivial
  exact ⟨a.gl, by unfold gfx_vitagl_vertex_array_set_attribs; rw [bind_of_ok _ _ _ e]⟩

theorem load_shader_run (s : GfxState) (prg : ShaderProgram) (h7 : arrays_of_seven prg)
    (hc : prg.num_attribs ≤ 7) : ∃ s1, gfx_vitagl_load_shader s prg = .ok s1 := by
  obtain ⟨gl1, e⟩ := set_attribs_run prg (s.gl ++ [GLCall.useProgram prg.opengl_program_id]) h7 hc
  exact ⟨_, by unfold gfx_vitagl_load_shader; rw [bind_of_ok _ _ _ e]⟩

/-! ## `gfx_vitagl_create_and_load_new_shader` as a whole -/

/-- The call succeeds as soon as the sources are generated, both stages
compile, the next pool entry exists and the descriptor has at most four
inputs. -/
theorem create_run (d : Driver) (s : GfxState) (shader_id : Nat) (src : CharBuf × CharBuf)
    (vertex fragment : Nat × List GLCall) (entry : ShaderProgram)
    (hgen : generate_sources (d.gfx_cc_get_features shader_id) = .ok src)
    (hv : compile_stage d ShaderKind.vertex src.1 s.gl = .ok vertex)
    (hf : compile_stage d ShaderKind.fragment src.2 vertex.2 = .ok fragment)
    (hslot : s.shader_program_pool.get? s.shader_program_pool_size = some entry)
    (h7 : arrays_of_seven entry)
    (hn : (d.gfx_cc_get_features shader_id).num_inputs ≤ 4) :
    ∃ s1, gfx_vitagl_create_and_load_new_shader d s shader_id
      = .ok (s.shader_program_pool_size, s1) := by
  obtain ⟨a, ea, ka, ca⟩ := bind_attribs_run (d.gfx_cc_get_features shader_id)
    (attach_stages d vertex.1 fragment.1 fragment.2).1 entry
    (attach_stages d vertex.1 fragment.1 fragment.2).2 h7 hn
  have hcnt : a.cnt ≤ 7 := by rw [ca]; exact slot_count_le _ hn
  obtain ⟨s2, e2⟩ := load_shader_run
    { s with
      shader_program_pool := s.shader_program_pool.set s.shader_program_pool_size
        (fill_entry (d.gfx_cc_get_features shader_id) shader_id
          (attach_stages d vertex.1 fragment.1 fragment.2).1
          (vertex_num_floats (d.gfx_cc_get_features shader_id)) a)
      shader_program_pool_size := to_uint8 (s.shader_program_pool_size + 1)
      gl := a.gl ++ [GLCall.linkProgram (attach_stages d vertex.1 fragment.1 fragment.2).1] }
    (fill_entry (d.gfx_cc_get_features shader_id) shader_id
      (attach_stages d vertex.1 fragment.1 fragment.2).1
      (vertex_num_floats (d.gfx_cc_get_features shader_id)) a)
    ka (by show to_uint8 a.cnt ≤ 7; unfold to_uint8; omega)
  unfold gfx_vitagl_create_and_load_new_shader
  simp only
  rw [bind_of_ok _ _ _ hgen, bind_of_ok _ _ _ hv, bind_of_ok _ _ _ hf, hslot]
  simp only
  rw [bind_of_ok _ _ _ ea, bind_of_ok _ _ _ e2]
  exact ⟨_, rfl⟩

theorem load_shader_inv (s s1 : GfxState) (prg : ShaderProgram)
    (e : gfx_vitagl_load_shader s prg = .ok s1) :
    ∃ gl, gfx_vitagl_vertex_array_set_attribs prg
        (s.gl ++ [GLCall.useProgram prg.opengl_program_id]) = .ok gl ∧
      s1 = { s with gl := gfx_vitagl_set_uniforms s.frame_count s.window_height prg gl } := by
  unfold gfx_vitagl_load_shader at e
  obtain ⟨gl, e1, e2⟩ := bind_eq_ok _ _ _ e
  simp only [Except.ok.injEq] at e2
  exact ⟨gl, e1, e2.symm⟩

/-- What a successful call of `gfx_vitagl_create_and_load_new_shader` went
through and what it returns. -/
theorem create_inv (d : Driver) (s : GfxState) (shader_id p : Nat) (s1 : GfxState)
    (e : gfx_vitagl_create_and_load_new_shader d s shader_id = .ok (p, s1)) :
    ∃ (src : CharBuf × CharBuf) (vertex fragment : Nat × List GLCall) (entry : ShaderProgram)
      (a : AttribState) (gl : List GLCall),
      generate_sources (d.gfx_cc_get_features shader_id) = .ok src ∧
      compile_stage d ShaderKind.vertex src.1 s.gl = .ok vertex ∧
      compile_stage d ShaderKind.fragment src.2 vertex.2 = .ok fragment ∧
      s.shader_program_pool.get? s.shader_program_pool_size = some entry ∧
      bind_attribs (d.gfx_cc_get_features shader_id)
        (attach_stages d vertex.1 fragment.1 fragment.2).1
        { prg := entry, cnt := 0, gl := (attach_stages d vertex.1 fragment.1 fragment.2).2 }
        = .ok a ∧
      gfx_vitagl_vertex_array_set_attribs
        (fill_entry (d.gfx_cc_get_features shader_id) shader_id
          (attach_stages d vertex.1 fragment.1 fragment.2).1
          (vertex_num_floats (d.gfx_cc_get_features shader_id)) a)
        (a.gl ++ [GLCall.linkProgram (attach_stages d vertex.1 fragment.1 fragment.2).1]
          ++ [GLCall.useProgram (attach_stages d vertex.1 fragment.1 fragment.2).1]) = .ok gl ∧
      p = s.shader_program_pool_size ∧
      s1.shader_program_pool = s.shader_program_pool.set s.shader_program_pool_size
        (created_entry d shader_id (attach_stages d vertex.1 fragment.1 fragment.2).1 a
          (gfx_vitagl_set_uniforms s.frame_count s.window_height
            (fill_entry (d.gfx_cc_get_features shader_id) shader_id
              (attach_stages d vertex.1 fragment.1 fragment.2).1
              (vertex_num_floats (d.gfx_cc_get_features shader_id)) a) gl)) ∧
      s1.shader_program_pool_size = to_uint8 (s.shader_program_pool_size + 1) ∧
      s1.cur_shader = s.cur_shader ∧ s1.frame_count = s.frame_count ∧
      s1.window_height = s.window_height := by
  unfold gfx_vitagl_create_and_load_new_shader at e
  simp only at e
  obtain ⟨src, e1, e⟩ := bind_eq_ok _ _ _ e
  obtain ⟨vertex, e2, e⟩ := bind_eq_ok _ _ _ e
  obtain ⟨fragment, e3, e⟩ := bind_eq_ok _ _ _ e
  cases hslot : s.shader_program_pool.get? s.shader_program_pool_size with
  | none => rw [hslot] at e; cases e
  | some entry =>
    rw [hslot] at e
    simp only at e
    obtain ⟨a, e4, e⟩ := bind_eq_ok _ _ _ e
    obtain ⟨s2, e5, e⟩ := bind_eq_ok _ _ _ e
    obtain ⟨gl, e6, rfl⟩ := load_shader_inv _ _ _ e5
    simp only [Except.ok.injEq, Prod.mk.injEq] at e
    obtain ⟨rfl, rfl⟩ := e
    refine ⟨src, vertex, fragment, entry, a, gl, e1, e2, e3, rfl, e4, e6, rfl, ?_, rfl, rfl,
      rfl, rfl⟩
    simp [created_entry, fill_entry]

theorem created_entry_fields (d : Driver) (shader_id program : Nat) (a : AttribState)
    (gl : List GLCall) :
    (created_entry d shader_id program a gl).shader_id = shader_id ∧
    (created_entry d shader_id program a gl).opengl_program_id = program ∧
    (created_entry d shader_id program a gl).num_inputs
      = to_uint8 (d.gfx_cc_get_features shader_id).num_inputs ∧
    (created_entry d shader_id program a gl).used_textures0
      = (d.gfx_cc_get_features shader_id).used_textures0 ∧
    (created_entry d shader_id program a gl).used_textures1
      = (d.gfx_cc_get_features shader_id).used_textures1 ∧
    (created_entry d shader_id program a gl).num_floats
      = to_uint8 (vertex_num_floats (d.gfx_cc_get_features shader_id)) ∧
    (created_entry d shader_id program a gl).num_attribs = to_uint8 a.cnt ∧
    (created_entry d shader_id program a gl).attrib_locations = a.prg.attrib_locations ∧
    (created_entry d shader_id program a gl).attrib_sizes = a.prg.attrib_sizes ∧
    (created_entry d shader_id program a gl).used_noise
      = ((d.gfx_cc_get_features shader_id).opt_alpha
          && (d.gfx_cc_get_features shader_id).opt_noise) := by
  unfold created_entry record_noise fill_entry
  split
  · rename_i h
    simp [h]
  · rename_i h
    simp at h
    simpa using h

/-! ## Lengths of the generated texts -/

theorem vs_text_skeleton_length :
    ∀ n, n < 5 → ∀ t0 t1 fog alpha : Bool,
      (vs_text (skeleton n t0 t1 fog alpha false false)).length ≤ 460 := by
  decide!

theorem vs_text_length_le (f : CCFeatures) (hn : f.num_inputs ≤ 4) :
    (vs_text f).length ≤ 460 := by
  rw [vs_text_skeleton f]
  have h := vs_text_skeleton_length f.num_inputs (by omega) f.used_textures0 f.used_textures1
    f.opt_fog f.opt_alpha
  exact h

theorem fs_before_skeleton_length :
    ∀ n, n < 5 → ∀ t0 t1 fog alpha noise : Bool,
      (fs_before_value (skeleton n t0 t1 fog alpha noise false)).length
        ≤ if alpha = true then 577 else 363 := by
  decide!

theorem fs_after_skeleton_length :
    ∀ fog alpha noise edge : Bool,
      (fs_after_value (skeleton 0 false false fog alpha noise edge)).length
        ≤ if alpha = true then 243 else 70 := by
  decide!

theorem fs_text_length (f : CCFeatures) :
    (fs_text f).length = (fs_before_value f).length + (fs_after_value f).length
      + (pieces_text (texel_value_pieces f)).length := by
  unfold fs_text
  rw [fs_text_with_split]
  simp only [List.length_append]
  omega

theorem fs_frame_length_le (f : CCFeatures) (hn : f.num_inputs ≤ 4) :
    (fs_before_value f).length + (fs_after_value f).length
      ≤ if f.opt_alpha = true then 820 else 433 := by
  have e1 : fs_before_value f = fs_before_value (skeleton f.num_inputs f.used_textures0
      f.used_textures1 f.opt_fog f.opt_alpha f.opt_noise false) := rfl
  have e2 : fs_after_value f = fs_after_value (skeleton 0 false false f.opt_fog f.opt_alpha
      f.opt_noise f.opt_texture_edge) := rfl
  have h1 := fs_before_skeleton_length f.num_inputs (by omega) f.used_textures0
    f.used_textures1 f.opt_fog f.opt_alpha f.opt_noise
  have h2 := fs_after_skeleton_length f.opt_fog f.opt_alpha f.opt_noise f.opt_texture_edge
  rw [e1, e2]
  split
  · rename_i h
    rw [if_pos h] at h1 h2
    omega
  · rename_i h
    rw [if_neg h] at h1 h2
    omega

/-- Length of the text that `shader_item_to_str` returns; 0 when it returns
none.  Outside alpha-only mode only texel-0-alpha without the single-element
hint is longer than the zero constant. -/
theorem item_length_le (item : Nat) (with_alpha only_alpha inputs_have_alpha hint : Bool) :
    ((shader_item_to_str item with_alpha only_alpha inputs_have_alpha hint).getD "").length
      ≤ if only_alpha = true then 9
        else if item = SHADER_TEXEL0A ∧ hint = false then (if with_alpha = true then 59 else 45)
        else (if with_alpha = true then 26 else 21) := by
  by_cases h : item < 8
  · interval_cases item <;> revert with_alpha only_alpha inputs_have_alpha hint <;> decide!
  · have e : shader_item_to_str item with_alpha only_alpha inputs_have_alpha hint = none := by
      unfold shader_item_to_str SHADER_0 SHADER_INPUT_1 SHADER_INPUT_2 SHADER_INPUT_3
        SHADER_INPUT_4 SHADER_TEXEL0 SHADER_TEXEL0A SHADER_TEXEL1
      have h0 : ¬ item = 0 := by omega
      have h1 : ¬ item = 1 := by omega
      have h2 : ¬ item = 2 := by omega
      have h3 : ¬ item = 3 := by omega
      have h4 : ¬ item = 4 := by omega
      have h5 : ¬ item = 5 := by omega
      have h6 : ¬ item = 6 := by omega
      have h7 : ¬ item = 7 := by omega
      simp only [h0, h1, h2, h3, h4, h5, h6, h7, if_false, ite_self]
    rw [e]
    simp only [Option.getD_none]
    split
    · decide
    · split <;> split <;> decide

theorem item_length_hint_le (item : Nat) (with_alpha inputs_have_alpha : Bool) :
    ((shader_item_to_str item with_alpha false inputs_have_alpha true).getD "").length
      ≤ if with_alpha = true then 26 else 21 := by
  have h := item_length_le item with_alpha false inputs_have_alpha true
  simpa using h

theorem formula_length_alpha_only (c : Fin 2 → Fin 4 → Nat) (ds dm dx : Bool) :
    (pieces_text (formula_pieces c ds dm dx true true true)).length ≤ 47 := by
  have h0 := item_length_le (operand_row c true 0) true true true false
  have h1 := item_length_le (operand_row c true 1) true true true false
  have h2 := item_length_le (operand_row c true 2) true true true true
  have h3 := item_length_le (operand_row c true 3) true true true false
  simp only [if_true] at h0 h1 h2 h3
  cases ds <;> cases dm <;> cases dx <;> simp [formula_pieces, pieces_text] <;> omega

theorem formula_length_colour (c : Fin 2 → Fin 4 → Nat) (ds dm dx wa iha : Bool) :
    (pieces_text (formula_pieces c ds dm dx wa false iha)).length
      ≤ (if wa = true then 214 else 167) ∧
    (¬ (ds = false ∧ dm = false ∧ dx = false ∧ c 0 0 = SHADER_TEXEL0A ∧ c 0 1 = SHADER_TEXEL0A
        ∧ c 0 3 = SHADER_TEXEL0A) →
      (pieces_text (formula_pieces c ds dm dx wa false iha)).length
        ≤ (if wa = true then 181 else 143)) := by
  have h0 := item_length_le (operand_row c false 0) wa false iha false
  have h1 := item_length_le (operand_row c false 1) wa false iha false
  have h2 := item_length_hint_le (operand_row c false 2) wa iha
  have h3 := item_length_le (operand_row c false 3) wa false iha false
  have r0 : operand_row c false 0 = c 0 0 := rfl
  have r1 : operand_row c false 1 = c 0 1 := rfl
  have r3 : operand_row c false 3 = c 0 3 := rfl
  rw [r0] at h0
  rw [r1] at h1
  rw [r3] at h3
  simp only [Bool.false_eq_true, if_false, and_true, and_false] at h0 h1 h2 h3
  by_cases e0 : c 0 0 = SHADER_TEXEL0A <;> by_cases e1 : c 0 1 = SHADER_TEXEL0A <;>
    by_cases e3 : c 0 3 = SHADER_TEXEL0A <;>
    simp only [e0, e1, e3, if_true, if_false] at h0 h1 h3 <;>
    cases wa <;> simp only [Bool.false_eq_true, if_true, if_false] at h0 h1 h2 h3 <;>
    cases ds <;> cases dm <;> cases dx <;>
    simp [formula_pieces, pieces_text, r0, r1, r3, e0, e1, e3] <;> omega

theorem pieces_text_append (ps qs : List (Option String)) :
    pieces_text (ps ++ qs) = pieces_text ps ++ pieces_text qs := by
  induction ps with
  | nil => rfl
  | cons p ps ih => simp [pieces_text, ih]

theorem texel_value_length_separate (f : CCFeatures)
    (h : (!f.color_alpha_same && f.opt_alpha) = true) :
    (pieces_text (texel_value_pieces f)).length
      = 10 + (pieces_text (formula_pieces f.c f.do_single0 f.do_multiply0 f.do_mix0
            false false true)).length
          + (pieces_text (formula_pieces f.c f.do_single1 f.do_multiply1 f.do_mix1
            true true true)).length := by
  unfold texel_value_pieces
  rw [if_pos h]
  simp [pieces_text_append, pieces_text]
  omega

theorem texel_value_length (f : CCFeatures) :
    (pieces_text (texel_value_pieces f)).length ≤ 224 ∧
    (¬ three_broadcasts f → (pieces_text (texel_value_pieces f)).length ≤ 200) ∧
    (f.opt_alpha = false → (pieces_text (texel_value_pieces f)).length ≤ 167) := by
  have hs := formula_length_colour f.c f.do_single0 f.do_multiply0 f.do_mix0 false true
  have ha := formula_length_alpha_only f.c f.do_single1 f.do_multiply1 f.do_mix1
  have hj := formula_length_colour f.c f.do_single0 f.do_multiply0 f.do_mix0 f.opt_alpha
    f.opt_alpha
  simp only [Bool.false_eq_true, if_false] at hs
  by_cases h : (!f.color_alpha_same && f.opt_alpha) = true
  · rw [texel_value_length_separate f h]
    have hal : f.opt_alpha = true := by
      simp only [Bool.and_eq_true] at h
      exact h.2
    refine ⟨by omega, fun hb => ?_, fun hf => ?_⟩
    · have := hs.2 hb
      omega
    · rw [hal] at hf
      cases hf
  · have e : texel_value_pieces f = formula_pieces f.c f.do_single0 f.do_multiply0 f.do_mix0
        f.opt_alpha false f.opt_alpha := by
      unfold texel_value_pieces
      rw [if_neg h]
    rw [e]
    refine ⟨?_, fun hb => ?_, fun hf => ?_⟩
    · have := hj.1
      split at this <;> omega
    · have := hj.2 hb
      split at this <;> omega
    · have := hj.1
      rw [hf] at this ⊢
      simpa using this

theorem item_recognised (item : Nat) (h : item < 8) (with_alpha only_alpha inputs_have_alpha
    hint : Bool) :
    (shader_item_to_str item with_alpha only_alpha inputs_have_alpha hint).isSome = true := by
  interval_cases item <;> revert with_alpha only_alpha inputs_have_alpha hint <;> decide

theorem operands_recognised_of_lt (f : CCFeatures) (h : ∀ i j, f.c i j < 8) :
    operands_recognised f := by
  have hi : ∀ oa k wa iha hint,
      (shader_item_to_str (operand_row f.c oa k) wa oa iha hint).isSome = true :=
    fun oa k wa iha hint => item_recognised _ (h _ _) _ _ _ _
  have hf : ∀ ds dm dx wa oa iha, ∀ p ∈ formula_pieces f.c ds dm dx wa oa iha,
      p.isSome = true := by
    intro ds dm dx wa oa iha p hp
    cases ds <;> cases dm <;> cases dx <;>
      simp [formula_pieces] at hp <;>
      rcases hp with rfl | hp <;> (try rcases hp with rfl | hp) <;>
      (try rcases hp with rfl | hp) <;> (try rcases hp with rfl | hp) <;>
      (try rcases hp with rfl | hp) <;> (try rcases hp with rfl | hp) <;>
      (try rcases hp with rfl | hp) <;> (try subst hp) <;>
      first | rfl | exact hi _ _ _ _ _
  intro p hp
  unfold texel_value_pieces at hp
  split at hp
  · simp only [List.mem_append, List.mem_singleton] at hp
    rcases hp with (((rfl | hp) | rfl) | hp) | rfl
    · rfl
    · exact hf _ _ _ _ _ _ p hp
    · rfl
    · exact hf _ _ _ _ _ _ p hp
    · rfl
  · exact hf _ _ _ _ _ _ p hp
theorem build_fragment_source_fault (f : CCFeatures) (b : CharBuf) (e : Fault) (h0 : b.len = 0)
    (hR : operands_recognised f) (he : build_fragment_source f b = .error e) :
    e = Fault.out_of_bounds :=
  (emits_build_fragment_source f).fault hR b e (by omega) he

theorem build_vertex_source_fault (f : CCFeatures) (b : CharBuf) (e : Fault) (h0 : b.len = 0)
    (he : build_vertex_source f b = .error e) : e = Fault.out_of_bounds :=
  (emits_build_vertex_source (R := True) f).fault trivial b e (by omega) he

theorem longest_descriptor_length : (fs_text longest_descriptor).length = 1044 := by
  decide!


theorem fs_text_length_le (f : CCFeatures) (hn : f.num_inputs ≤ 4)
    (hnb : ¬ three_broadcasts f) : (fs_text f).length ≤ 1020 := by
  rw [fs_text_length]
  have h1 := fs_frame_length_le f hn
  have h2 := texel_value_length f
  cases hal : f.opt_alpha with
  | false =>
    rw [hal] at h1
    have := h2.2.2 hal
    simp only [Bool.false_eq_true, if_false] at h1
    omega
  | true =>
    rw [hal] at h1
    have := h2.2.1 hnb
    simp only [if_true] at h1
    omega

/-- For a descriptor with at most four inputs and recognised operands whose
colour formula is not the full shape over three texel-0-alpha broadcasts, both
sources are generated and fit in their buffers. -/
theorem generate_sources_fits (f : CCFeatures) (hn : f.num_inputs ≤ 4)
    (hc : ∀ i j, f.c i j < 8) (hnb : ¬ three_broadcasts f) :
    ∃ vs fs, generate_sources f = .ok (vs, fs) ∧ vs.text = vs_text f ∧ fs.text = fs_text f
      ∧ vs.bytes.length = 1024 ∧ fs.bytes.length = 1024 ∧ vs.len ≤ 460 ∧ fs.len ≤ 1020 := by
  have hv := vs_text_length_le f hn
  have hf := fs_text_length_le f hn hnb
  obtain ⟨vs, fs, e, _, _⟩ := generate_sources_run f (operands_recognised_of_lt f hc)
    (by omega) (by omega)
  obtain ⟨t1, t2, _, _, l1, l2, k1, k2⟩ := generate_sources_sound f vs fs e
  exact ⟨vs, fs, e, t1, t2, k1, k2, by omega, by omega⟩

/-! ## Creating and finding programs -/

theorem compile_stage_ok (d : Driver) (kind : ShaderKind) (src : CharBuf) (gl : List GLCall)
    (h : ∀ gl1 sh, d.compile_status gl1 sh = true) :
    ∃ r, compile_stage d kind src gl = .ok r := by
  unfold compile_stage
  simp only [h, if_true]
  exact ⟨_, rfl⟩

/-- The call succeeds for a descriptor whose sources fit, when the driver
compiles both stages and the next pool entry exists. -/
theorem create_succeeds (d : Driver) (s : GfxState) (shader_id : Nat) (entry : ShaderProgram)
    (hn : (d.gfx_cc_get_features shader_id).num_inputs ≤ 4)
    (hc : ∀ i j, (d.gfx_cc_get_features shader_id).c i j < 8)
    (hnb : ¬ three_broadcasts (d.gfx_cc_get_features shader_id))
    (hcomp : ∀ gl sh, d.compile_status gl sh = true)
    (hslot : s.shader_program_pool.get? s.shader_program_pool_size = some entry)
    (h7 : arrays_of_seven entry) :
    ∃ s1, gfx_vitagl_create_and_load_new_shader d s shader_id
      = .ok (s.shader_program_pool_size, s1) := by
  obtain ⟨vs, fs, e, _⟩ := generate_sources_fits _ hn hc hnb
  obtain ⟨v, ev⟩ := compile_stage_ok d ShaderKind.vertex vs s.gl hcomp
  obtain ⟨fr, ef⟩ := compile_stage_ok d ShaderKind.fragment fs v.2 hcomp
  exact create_run d s shader_id (vs, fs) v fr entry e ev ef hslot h7 hn

theorem init_slot : GfxState.init.shader_program_pool.get? GfxState.init.shader_program_pool_size
    = some ShaderProgram.zero := by
  decide

theorem zero_arrays_of_seven : arrays_of_seven ShaderProgram.zero := by
  constructor <;> decide

theorem vertex_num_floats_lt (f : CCFeatures) (hn : f.num_inputs ≤ 4) :
    vertex_num_floats f ≤ 26 := by
  rw [vertex_num_floats_eq]
  split <;> split <;> split <;> omega

theorem get?_set_same {α : Type} (l : List α) (n : Nat) (a : α) (h : n < l.length) :
    (l.set n a).get? n = some a := by
  induction l generalizing n with
  | nil => simp at h
  | cons x xs ih =>
    cases n with
    | zero => rfl
    | succ k => exact ih k (by simpa using h)

theorem get?_set_other {α : Type} (l : List α) (n i : Nat) (a : α) (h : i ≠ n) :
    (l.set n a).get? i = l.get? i := by
  induction l generalizing n i with
  | nil => rfl
  | cons x xs ih =>
    cases n with
    | zero =>
      cases i with
      | zero => exact absurd rfl h
      | succ j => rfl
    | succ k =>
      cases i with
      | zero => rfl
      | succ j => exact ih k j (by omega)

theorem lookup_from_miss (pool : List ShaderProgram) (shader_id count i : Nat)
    (h : ∀ j, i ≤ j → j < i + count → ∃ e, pool.get? j = some e ∧ e.shader_id ≠ shader_id) :
    lookup_from pool shader_id count i = .ok none := by
  induction count generalizing i with
  | zero => rfl
  | succ n ih =>
    obtain ⟨e, he, hne⟩ := h i (le_refl _) (by omega)
    unfold lookup_from
    rw [he]
    simp only [hne, if_false]
    exact ih (i + 1) (fun j h1 h2 => h j (by omega) (by omega))

theorem lookup_from_hit (pool : List ShaderProgram) (shader_id count i p : Nat)
    (entry : ShaderProgram) (hp : pool.get? p = some entry) (hid : entry.shader_id = shader_id)
    (hip : i ≤ p) (hpc : p < i + count)
    (hmiss : ∀ j, i ≤ j → j < p → ∃ e, pool.get? j = some e ∧ e.shader_id ≠ shader_id) :
    lookup_from pool shader_id count i = .ok (some p) := by
  induction count generalizing i with
  | zero => omega
  | succ n ih =>
    unfold lookup_from
    by_cases hi : i = p
    · subst hi
      rw [hp]
      simp only [hid, if_true]
    · obtain ⟨e, he, hne⟩ := hmiss i (le_refl _) (by omega)
      rw [he]
      simp only [hne, if_false]
      exact ih (i + 1) (by omega) (by omega) (fun j h1 h2 => hmiss j (by omega) h2)

theorem lookup_shader_state (s s1 : GfxState) (shader_id : Nat) (r : Option Nat)
    (e : gfx_vitagl_lookup_shader s shader_id = .ok (r, s1)) : s1 = s := by
  unfold gfx_vitagl_lookup_shader at e
  obtain ⟨r1, _, e2⟩ := bind_eq_ok _ _ _ e
  simp only [Except.ok.injEq, Prod.mk.injEq] at e2
  exact e2.2.symm

/-! ## Generated texts of particular descriptors -/

theorem fs_text_eq (f : CCFeatures) :
    fs_text f = fs_before_value (skeleton_of f) ++ pieces_text (texel_value_pieces f)
      ++ fs_after_value (skeleton_of f) := by
  unfold fs_text
  rw [fs_text_with_split, ← fs_before_value_skeleton, ← fs_after_value_skeleton]

theorem single_texel0_frame :
    fs_before_value (skeleton 1 true false false false false false) ++ "texVal0.rgb".data
      ++ fs_after_value (skeleton 1 true false false false false false)
    = ("float4 main(\n"
        ++ "float2 vTexCoord : TEXCOORD0,\n"
        ++ "float3 vInput1 : TEXCOORD2,\n"
        ++ "uniform sampler2D uTex0 : TEXUNIT0 \n"
        ++ ") : COLOR\n"
        ++ "\x7b\n"
        ++ "float4 texVal0 = tex2D(uTex0, vTexCoord);\n"
        ++ "float3 texel = texVal0.rgb;\n"
        ++ "return float4(texel, 1.0);\n"
        ++ "\x7d\n").data := by
  decide!

/-! ## Lines of the fragment source -/

theorem lines_from_cons (cur : List Char) (x : Char) (rest : List Char) :
    lines_from cur (x :: rest)
      = if x = '\n' then cur :: lines_from [] rest else lines_from (cur ++ [x]) rest := rfl

theorem lines_from_line (cur l rest : List Char) (h : ∀ ch ∈ l, ch ≠ '\n') :
    lines_from cur (l ++ '\n' :: rest) = (cur ++ l) :: lines_from [] rest := by
  induction l generalizing cur with
  | nil =>
    rw [List.nil_append, lines_from_cons, if_pos rfl, List.append_nil]
  | cons x xs ih =>
    have hx : x ≠ '\n' := h x (List.mem_cons_self _ _)
    rw [List.cons_append, lines_from_cons, if_neg hx,
      ih (cur ++ [x]) (fun ch hch => h ch (List.mem_cons_of_mem _ hch))]
    simp

theorem fs_text_with_lines (f : CCFeatures) (value : List Char) :
    fs_text_with f value = fs_head f ++ (texel_line f value ++ '\n' :: fs_tail f) := by
  simp only [fs_text_with, fs_body_text_with, fs_head, texel_line, fs_tail, line,
    List.append_assoc, List.singleton_append, List.cons_append, List.nil_append]

theorem texel_value_pieces_all (f : CCFeatures) (Q : Option String → Prop)
    (hitem : ∀ oa k wa iha hint, Q (shader_item_to_str (operand_row f.c oa k) wa oa iha hint))
    (hlit : ∀ s ∈ ["float4(", ", ", ")", " * ", "lerp(", "(", " - ", ") * ", " + "],
      Q (some s)) :
    ∀ p ∈ texel_value_pieces f, Q p := by
  have hf : ∀ ds dm dx wa oa iha, ∀ p ∈ formula_pieces f.c ds dm dx wa oa iha, Q p := by
    intro ds dm dx wa oa iha p hp
    cases ds <;> cases dm <;> cases dx <;>
      simp only [formula_pieces, Bool.false_eq_true, if_false, if_true, List.mem_cons,
        List.mem_singleton, List.not_mem_nil, or_false] at hp <;>
      rcases hp with rfl | hp <;> (try rcases hp with rfl | hp) <;>
      (try rcases hp with rfl | hp) <;> (try rcases hp with rfl | hp) <;>
      (try rcases hp with rfl | hp) <;> (try rcases hp with rfl | hp) <;>
      (try rcases hp with rfl | hp) <;> (try subst hp) <;>
      first | exact hlit _ (by simp) | exact hitem _ _ _ _ _
  intro p hp
  unfold texel_value_pieces at hp
  split at hp
  · simp only [List.mem_append, List.mem_singleton] at hp
    rcases hp with (((rfl | hp) | rfl) | hp) | rfl
    · exact hlit _ (by simp)
    · exact hf _ _ _ _ _ _ p hp
    · exact hlit _ (by simp)
    · exact hf _ _ _ _ _ _ p hp
    · exact hlit _ (by simp)
  · exact hf _ _ _ _ _ _ p hp

theorem item_no_newline (item : Nat) (with_alpha only_alpha inputs_have_alpha hint : Bool) :
    ∀ ch ∈ ((shader_item_to_str item with_alpha only_alpha inputs_have_alpha hint).getD "").data,
      ch ≠ '\n' := by
  by_cases h : item < 8
  · interval_cases item <;> revert with_alpha only_alpha inputs_have_alpha hint <;> decide!
  · have e : shader_item_to_str item with_alpha only_alpha inputs_have_alpha hint = none := by
      unfold shader_item_to_str SHADER_0 SHADER_INPUT_1 SHADER_INPUT_2 SHADER_INPUT_3
        SHADER_INPUT_4 SHADER_TEXEL0 SHADER_TEXEL0A SHADER_TEXEL1
      have h0 : ¬ item = 0 := by omega
      have h1 : ¬ item = 1 := by omega
      have h2 : ¬ item = 2 := by omega
      have h3 : ¬ item = 3 := by omega
      have h4 : ¬ item = 4 := by omega
      have h5 : ¬ item = 5 := by omega
      have h6 : ¬ item = 6 := by omega
      have h7 : ¬ item = 7 := by omega
      simp only [h0, h1, h2, h3, h4, h5, h6, h7, if_false, ite_self]
    rw [e]
    intro ch hch
    cases hch

theorem pieces_text_no_newline (ps : List (Option String))
    (h : ∀ p ∈ ps, ∀ ch ∈ (p.getD "").data, ch ≠ '\n') :
    ∀ ch ∈ pieces_text ps, ch ≠ '\n' := by
  induction ps with
  | nil => intro ch hch; cases hch
  | cons p ps ih =>
    intro ch hch
    rcases List.mem_append.mp hch with h1 | h1
    · exact h p (List.mem_cons_self _ _) ch h1
    · exact ih (fun q hq => h q (List.mem_cons_of_mem _ hq)) ch h1

theorem texel_value_no_newline (f : CCFeatures) :
    ∀ ch ∈ pieces_text (texel_value_pieces f), ch ≠ '\n' :=
  pieces_text_no_newline _ (texel_value_pieces_all f
    (fun p => ∀ ch ∈ (p.getD "").data, ch ≠ '\n')
    (fun _ _ _ _ _ => item_no_newline _ _ _ _ _)
    (by decide))

theorem texel_line_head (f : CCFeatures) (value : List Char) :
    (texel_line f value).head? = some 'f' := by
  unfold texel_line
  cases f.opt_alpha <;> rfl

theorem digitChar_ne_newline (d : Nat) (h : d < 10) : Nat.digitChar d ≠ '\n' := by
  interval_cases d <;> decide

theorem toDigitsCore_no_newline (fuel n : Nat) (ds : List Char) (h : ∀ ch ∈ ds, ch ≠ '\n') :
    ∀ ch ∈ Nat.toDigitsCore 10 fuel n ds, ch ≠ '\n' := by
  induction fuel generalizing n ds with
  | zero => exact h
  | succ k ih =>
    have hd : ∀ ch ∈ Nat.digitChar (n % 10) :: ds, ch ≠ '\n' := by
      intro ch hch
      rcases List.mem_cons.mp hch with rfl | h1
      · exact digitChar_ne_newline _ (Nat.mod_lt _ (by decide))
      · exact h ch h1
    unfold Nat.toDigitsCore
    simp only
    split
    · exact hd
    · exact ih _ _ hd

theorem fmt_d_no_newline (n : Nat) : ∀ ch ∈ (fmt_d n).data, ch ≠ '\n' := by
  unfold fmt_d Nat.repr Nat.toDigits
  exact toDigitsCore_no_newline _ _ _ (fun ch hch => by cases hch)

theorem unlines_append (a b : List (List Char)) : unlines (a ++ b) = unlines a ++ unlines b := by
  induction a with
  | nil => rfl
  | cons l ls ih => simp [unlines, ih]

theorem unlines_single (s : String) : unlines [s.data] = line s := by
  simp [unlines, line]

theorem lines_of_unlines (ls : List (List Char)) (rest : List Char)
    (h : ∀ l ∈ ls, ∀ ch ∈ l, ch ≠ '\n') :
    lines_of (unlines ls ++ rest) = ls ++ lines_of rest := by
  induction ls with
  | nil => rfl
  | cons l ls ih =>
    have hl := h l (List.mem_cons_self _ _)
    have ih1 := ih (fun m hm => h m (List.mem_cons_of_mem _ hm))
    unfold lines_of at ih1 ⊢
    simp only [unlines, List.append_assoc, List.cons_append]
    rw [lines_from_line [] l _ hl, ih1]
    rfl

theorem unlines_length_ge (ls : List (List Char)) (h : ls ≠ [])
    (hne : ∀ l ∈ ls, l ≠ []) : 2 ≤ (unlines ls).length := by
  cases ls with
  | nil => exact absurd rfl h
  | cons l ls =>
    have hl : 1 ≤ l.length := List.length_pos.mpr (hne l (List.mem_cons_self _ _))
    simp only [unlines, List.length_append, List.length_cons]
    omega

/-- Replacing the last character but one of a text made of non-empty lines
blanks the last character of the last line. -/
theorem set_back2_unlines (ls : List (List Char)) (h : ls ≠ [])
    (hne : ∀ l ∈ ls, l ≠ []) :
    set_back2 (unlines ls) ' ' = unlines (blank_last ls) := by
  induction ls with
  | nil => exact absurd rfl h
  | cons l ls ih =>
    by_cases hls : ls = []
    · subst hls
      have hl : l ≠ [] := hne l (List.mem_cons_self _ _)
      simp only [unlines, blank_last, if_true, set_back2, List.length_append, List.length_cons,
        List.length_nil]
      have hlen : 1 ≤ l.length := List.length_pos.mpr hl
      have e1 : l.length + (0 + 1) - 2 = l.length - 1 := by omega
      rw [e1, List.set_append_left _ _ (by omega)]
      congr 1
      rw [List.set_eq_take_append_cons_drop, if_pos (by omega)]
      have e2 : l.length - 1 + 1 = l.length := by omega
      rw [e2, List.drop_length, List.dropLast_eq_take]
    · have hne1 : ∀ m ∈ ls, m ≠ [] := fun m hm => hne m (List.mem_cons_of_mem _ hm)
      have ih1 := ih hls hne1
      have hU := unlines_length_ge ls hls hne1
      have e0 : unlines (l :: ls) = (l ++ ['\n']) ++ unlines ls := by
        simp [unlines]
      have e1 : blank_last (l :: ls) = l :: blank_last ls := by
        simp [blank_last, hls]
      rw [e1]
      have e2 : unlines (l :: blank_last ls) = (l ++ ['\n']) ++ unlines (blank_last ls) := by
        simp [unlines]
      rw [e2, ← ih1, e0]
      unfold set_back2
      rw [List.set_append_right _ _ (by simp; omega)]
      congr 2
      simp
      omega

theorem fs_declare_input_text_eq (f : CCFeatures) (i : Nat) :
    fs_declare_input_text f i = fs_declare_input_line f i ++ ['\n'] := by
  simp [fs_declare_input_text, fs_declare_input_line, String.data_append]

theorem loop_text_input_lines (f : CCFeatures) (count i : Nat) :
    loop_text (fs_declare_input_text f) count i = unlines (fs_input_lines f count i) := by
  induction count generalizing i with
  | zero => rfl
  | succ n ih =>
    simp only [loop_text, fs_input_lines, unlines, ih, fs_declare_input_text_eq,
      List.append_assoc, List.singleton_append]

theorem fs_params_text_lines (f : CCFeatures) :
    fs_params_text f = unlines (fs_param_lines f) := by
  unfold fs_params_text fs_param_lines
  rw [loop_text_input_lines]
  generalize fs_input_lines f f.num_inputs 0 = inputs
  cases (f.opt_alpha && f.opt_noise) <;> cases (f.used_textures0 || f.used_textures1) <;>
    cases f.opt_fog <;> cases f.used_textures0 <;> cases f.used_textures1 <;>
    simp [unlines_append, unlines, line]

theorem fs_tail_lines_eq (f : CCFeatures) : fs_tail f = unlines (fs_tail_lines f) := by
  unfold fs_tail fs_tail_lines fog_line_alpha fog_line_plain
  cases (f.opt_texture_edge && f.opt_alpha) <;> cases (f.opt_alpha && f.opt_noise) <;>
    cases f.opt_fog <;> cases f.opt_alpha <;>
    simp [unlines_append, unlines, line]

theorem no_newline_append (a b : List Char) (ha : ∀ ch ∈ a, ch ≠ '\n')
    (hb : ∀ ch ∈ b, ch ≠ '\n') : ∀ ch ∈ a ++ b, ch ≠ '\n' := by
  intro ch hch
  rcases List.mem_append.mp hch with h | h
  · exact ha ch h
  · exact hb ch h

theorem fs_declare_input_line_eq (f : CCFeatures) (i : Nat) :
    fs_declare_input_line f i
      = "float".data ++ (fmt_d (input_width f)).data ++ " vInput".data
          ++ (fmt_d (i + 1)).data ++ " : TEXCOORD".data ++ (fmt_d (i + 2)).data ++ ",".data := by
  simp only [fs_declare_input_line, String.data_append]

theorem fs_declare_input_line_no_newline (f : CCFeatures) (i : Nat) :
    ∀ ch ∈ fs_declare_input_line f i, ch ≠ '\n' := by
  rw [fs_declare_input_line_eq]
  exact no_newline_append _ _ (no_newline_append _ _ (no_newline_append _ _
    (no_newline_append _ _ (no_newline_append _ _ (no_newline_append _ _ (by decide)
    (fmt_d_no_newline _)) (by decide)) (fmt_d_no_newline _)) (by decide))
    (fmt_d_no_newline _)) (by decide)

theorem fs_declare_input_line_head (f : CCFeatures) (i : Nat) :
    (fs_declare_input_line f i).head? = some 'f' ∧ 2 ≤ (fs_declare_input_line f i).length := by
  rw [fs_declare_input_line_eq]
  simp only [List.append_assoc]
  constructor
  · rfl
  · have : ("float".data).length = 5 := rfl
    simp only [List.length_append, this]
    omega

theorem fs_input_lines_mem (f : CCFeatures) (count i : Nat) :
    ∀ l ∈ fs_input_lines f count i, ∃ k, l = fs_declare_input_line f k := by
  induction count generalizing i with
  | zero => intro l hl; cases hl
  | succ n ih =>
    intro l hl
    rcases List.mem_cons.mp hl with rfl | h1
    · exact ⟨i, rfl⟩
    · exact ih (i + 1) l h1

/-- Every line of the parameter list is either an input declaration or one of
the fixed lines. -/
theorem fs_param_lines_mem (f : CCFeatures) :
    ∀ l ∈ fs_param_lines f, (∃ k, l = fs_declare_input_line f k) ∨
      l ∈ ["float random(float3 value) \x7b".data,
        "    float r = dot(sin(value), float3(12.9898, 78.233, 37.719));".data,
        "    return frac(sin(r) * 143758.5453);".data,
        "\x7d".data, "float4 main(".data, "float2 vTexCoord : TEXCOORD0,".data,
        "float4 vFog : TEXCOORD1,".data, "uniform sampler2D uTex0 : TEXUNIT0,".data,
        "uniform sampler2D uTex1 : TEXUNIT1,".data, "uniform int frame_count,".data,
        "uniform int window_height,".data, "float2 gl_FragCoord : WPOS,".data] := by
  intro l hl
  unfold fs_param_lines at hl
  simp only [List.mem_append] at hl
  rcases hl with h | h | h | h | h | h | h | h
  · right
    split at h
    · simp only [List.mem_cons, List.mem_singleton, List.not_mem_nil, or_false] at h
      rcases h with rfl | rfl | rfl | rfl <;> simp
    · cases h
  · right
    rw [List.mem_singleton.mp h]
    simp
  · right
    split at h
    · rw [List.mem_singleton.mp h]
      simp
    · cases h
  · right
    split at h
    · rw [List.mem_singleton.mp h]
      simp
    · cases h
  · left
    exact fs_input_lines_mem f _ _ l h
  · right
    split at h
    · rw [List.mem_singleton.mp h]
      simp
    · cases h
  · right
    split at h
    · rw [List.mem_singleton.mp h]
      simp
    · cases h
  · right
    split at h
    · simp only [List.mem_cons, List.mem_singleton, List.not_mem_nil, or_false] at h
      rcases h with rfl | rfl | rfl <;> simp
    · cases h

theorem blank_last_mem (ls : List (List Char)) :
    ∀ l ∈ blank_last ls, l ∈ ls ∨ ∃ m ∈ ls, l = m.dropLast ++ [' '] := by
  induction ls with
  | nil => intro l hl; cases hl
  | cons x xs ih =>
    intro l hl
    unfold blank_last at hl
    split at hl
    · rw [List.mem_singleton.mp hl]
      exact Or.inr ⟨x, List.mem_cons_self _ _, rfl⟩
    · rcases List.mem_cons.mp hl with rfl | h1
      · exact Or.inl (List.mem_cons_self _ _)
      · rcases ih l h1 with h2 | ⟨m, hm, e⟩
        · exact Or.inl (List.mem_cons_of_mem _ h2)
        · exact Or.inr ⟨m, List.mem_cons_of_mem _ hm, e⟩

theorem param_line_no_newline (f : CCFeatures) :
    ∀ l ∈ fs_param_lines f, (∀ ch ∈ l, ch ≠ '\n') ∧ l ≠ [] := by
  intro l hl
  rcases fs_param_lines_mem f l hl with ⟨k, rfl⟩ | h
  · refine ⟨fs_declare_input_line_no_newline f k, ?_⟩
    intro e
    have := (fs_declare_input_line_head f k).2
    rw [e] at this
    simp at this
  · clear hl
    revert l
    decide

theorem blank_last_no_newline (f : CCFeatures) :
    ∀ l ∈ blank_last (fs_param_lines f), ∀ ch ∈ l, ch ≠ '\n' := by
  intro l hl
  rcases blank_last_mem _ l hl with h | ⟨m, hm, rfl⟩
  · exact (param_line_no_newline f l h).1
  · apply no_newline_append
    · intro ch hch
      exact (param_line_no_newline f m hm).1 ch (List.mem_of_mem_dropLast hch)
    · decide

theorem fs_param_lines_ne_nil (f : CCFeatures) : fs_param_lines f ≠ [] := by
  unfold fs_param_lines
  intro h
  have := congrArg List.length h
  simp at this

theorem fs_head_lines (f : CCFeatures) :
    fs_head f = unlines (blank_last (fs_param_lines f)
      ++ ([") : COLOR".data, "\x7b".data]
      ++ ((if f.used_textures0 then ["float4 texVal0 = tex2D(uTex0, vTexCoord);".data] else [])
      ++ (if f.used_textures1 then ["float4 texVal1 = tex2D(uTex1, vTexCoord);".data]
          else [])))) := by
  unfold fs_head
  rw [fs_params_text_lines, set_back2_unlines _ (fs_param_lines_ne_nil f)
    (fun l hl => (param_line_no_newline f l hl).2)]
  generalize blank_last (fs_param_lines f) = ps
  cases f.used_textures0 <;> cases f.used_textures1 <;>
    simp [unlines_append, unlines, line]

theorem fs_tail_lines_no_newline (f : CCFeatures) :
    ∀ l ∈ fs_tail_lines f, ∀ ch ∈ l, ch ≠ '\n' := by
  unfold fs_tail_lines
  cases (f.opt_texture_edge && f.opt_alpha) <;> cases (f.opt_alpha && f.opt_noise) <;>
    cases f.opt_fog <;> cases f.opt_alpha <;> decide

theorem texel_line_no_newline (f : CCFeatures) (value : List Char)
    (h : ∀ ch ∈ value, ch ≠ '\n') : ∀ ch ∈ texel_line f value, ch ≠ '\n' := by
  unfold texel_line
  apply no_newline_append
  · cases f.opt_alpha <;> decide
  · exact no_newline_append _ _ h (by decide)

/-- The lines of the fragment source with a given `texel` value. -/
theorem lines_of_fs_text_with_eq (f : CCFeatures) (value : List Char)
    (h : ∀ ch ∈ value, ch ≠ '\n') :
    lines_of (fs_text_with f value) = fs_lines_with f value := by
  rw [fs_text_with_lines, fs_head_lines, fs_tail_lines_eq, lines_of_unlines]
  · unfold fs_lines_with
    simp only [List.append_assoc]
    congr 4
    unfold lines_of
    rw [lines_from_line [] _ _ (texel_line_no_newline f value h)]
    have := lines_of_unlines (fs_tail_lines f) [] (fs_tail_lines_no_newline f)
    rw [List.append_nil] at this
    unfold lines_of at this
    simp only [List.nil_append]
    rw [this]
    simp [lines_from]
  · intro l hl
    rcases List.mem_append.mp hl with h1 | h1
    · exact blank_last_no_newline f l h1
    · clear hl
      revert l
      cases f.used_textures0 <;> cases f.used_textures1 <;> decide

/-- The lines of the fragment source of any descriptor. -/
theorem lines_of_fs_text (f : CCFeatures) : lines_of (fs_text f) = fs_lines f :=
  lines_of_fs_text_with_eq f _ (texel_value_no_newline f)

theorem param_line_head (f : CCFeatures) :
    ∀ l ∈ fs_param_lines f, l.head? ≠ some 't' := by
  intro l hl
  rcases fs_param_lines_mem f l hl with ⟨k, rfl⟩ | h
  · rw [(fs_declare_input_line_head f k).1]
    decide
  · clear hl
    revert l
    decide

theorem getLast?_append_single (m : List Char) (c : Char) : (m ++ [c]).getLast? = some c := by
  simp

/-- Which of the two fog statements are lines of the fragment source. -/
theorem fog_lines_of_fs_text (f : CCFeatures) :
    (fog_line_alpha ∈ lines_of (fs_text f) ↔ (f.opt_fog = true ∧ f.opt_alpha = true)) ∧
    (fog_line_plain ∈ lines_of (fs_text f) ↔ (f.opt_fog = true ∧ f.opt_alpha = false)) := by
  have hparams : ∀ x : List Char, x.head? = some 't' → x.getLast? = some ';' →
      x ∉ blank_last (fs_param_lines f) := by
    intro x hx1 hx2 hmem
    rcases blank_last_mem _ x hmem with h | ⟨m, _, rfl⟩
    · exact param_line_head f x h hx1
    · rw [getLast?_append_single] at hx2
      revert hx2
      decide
  have htexel : ∀ x : List Char, x.head? = some 't' →
      x ≠ texel_line f (pieces_text (texel_value_pieces f)) := by
    intro x hx e
    rw [e, texel_line_head] at hx
    revert hx
    decide
  have ha := hparams fog_line_alpha (by decide) (by decide)
  have hp := hparams fog_line_plain (by decide) (by decide)
  have ta := htexel fog_line_alpha (by decide)
  have tp := htexel fog_line_plain (by decide)
  rw [lines_of_fs_text]
  unfold fs_lines fs_lines_with
  simp only [List.mem_append, List.mem_cons, ha, hp, ta, tp, false_or]
  generalize hal : f.opt_alpha = alpha
  generalize hfog : f.opt_fog = fog
  have e1 : ∀ x : List Char, x ∈ fs_tail_lines f ↔ x ∈ fs_tail_lines
      (skeleton 0 false false fog alpha f.opt_noise f.opt_texture_edge) := by
    intro x
    unfold fs_tail_lines
    simp only [hal, hfog, skeleton]
  rw [e1, e1]
  clear ha hp ta tp hparams htexel e1 hal hfog
  revert alpha fog
  cases f.used_textures0 <;> cases f.used_textures1 <;> cases f.opt_noise <;>
    cases f.opt_texture_edge <;> decide

/-! ## The vertex stride -/

/-- C1: for every descriptor with at most four inputs, the stride that a
successful `gfx_vitagl_create_and_load_new_shader` stores in the `num_floats`
field of the returned entry is 4 + 2*(used_textures[0] or used_textures[1])
+ 4*opt_fog + num_inputs*(4 if opt_alpha else 3), and it is the value of the
local `num_floats` itself: the narrowing to 8 bits loses nothing.  The call
does succeed whenever the operands are recognised (and not the one pattern
whose text outgrows the buffer), the driver compiles both stages and the next
pool entry exists with its seven-element arrays. -/
theorem create_stores_stride (d : Driver) (s : GfxState) (shader_id : Nat)
    (hn : (d.gfx_cc_get_features shader_id).num_inputs ≤ 4) :
    (∀ p s1, gfx_vitagl_create_and_load_new_shader d s shader_id = .ok (p, s1) →
      ∃ prg, s1.shader_program_pool.get? p = some prg ∧
        prg.num_floats = vertex_num_floats (d.gfx_cc_get_features shader_id) ∧
        prg.num_floats
          = 4 + 2 * (if (d.gfx_cc_get_features shader_id).used_textures0
                        || (d.gfx_cc_get_features shader_id).used_textures1 then 1 else 0)
            + 4 * (if (d.gfx_cc_get_features shader_id).opt_fog then 1 else 0)
            + (d.gfx_cc_get_features shader_id).num_inputs
              * (if (d.gfx_cc_get_features shader_id).opt_alpha then 4 else 3)) ∧
    ((∀ i j, (d.gfx_cc_get_features shader_id).c i j < 8) →
      ¬ three_broadcasts (d.gfx_cc_get_features shader_id) →
      (∀ gl sh, d.compile_status gl sh = true) →
      (∃ entry, s.shader_program_pool.get? s.shader_program_pool_size = some entry
        ∧ arrays_of_seven entry) →
      ∃ p s1, gfx_vitagl_create_and_load_new_shader d s shader_id = .ok (p, s1)) := by
  constructor
  · intro p s1 e
    obtain ⟨src, v, fr, entry, a, gl, _, _, _, hslot, _, _, rfl, hpool, _⟩ :=
      create_inv d s shader_id p s1 e
    have hlt : s.shader_program_pool_size < s.shader_program_pool.length := by
      rcases List.get?_eq_some.mp hslot with ⟨h, _⟩
      exact h
    have hf := (created_entry_fields d shader_id (attach_stages d v.1 fr.1 fr.2).1 a
      (gfx_vitagl_set_uniforms s.frame_count s.window_height
        (fill_entry (d.gfx_cc_get_features shader_id) shader_id
          (attach_stages d v.1 fr.1 fr.2).1
          (vertex_num_floats (d.gfx_cc_get_features shader_id)) a) gl)).2.2.2.2.2.1
    have hb := vertex_num_floats_lt _ hn
    have hnar : to_uint8 (vertex_num_floats (d.gfx_cc_get_features shader_id))
        = vertex_num_floats (d.gfx_cc_get_features shader_id) := by
      unfold to_uint8; omega
    refine ⟨_, by rw [hpool, get?_set_same _ _ _ hlt], ?_, ?_⟩
    · rw [hf, hnar]
    · rw [hf, hnar, vertex_num_floats_eq]
  · intro hc hnb hcomp hslot
    obtain ⟨entry, hslot, h7⟩ := hslot
    obtain ⟨s1, e⟩ := create_succeeds d s shader_id entry hn hc hnb hcomp hslot h7
    exact ⟨_, s1, e⟩

/-- Witness for C1: the single-texel descriptor created in the initial
state; its stride is 4 + 2 + 3 = 9. -/
theorem create_stores_stride_witness :
    ∃ p s1, gfx_vitagl_create_and_load_new_shader (sample_driver single_texel0_descriptor)
        GfxState.init 7 = .ok (p, s1) ∧
      ∃ prg, s1.shader_program_pool.get? p = some prg ∧ prg.num_floats = 9 := by
  obtain ⟨p, s1, e⟩ := (create_stores_stride (sample_driver single_texel0_descriptor)
    GfxState.init 7 (by decide)).2 (by decide) (fun h => absurd h.1 (by decide))
    (fun _ _ => rfl) ⟨ShaderProgram.zero, init_slot, zero_arrays_of_seven⟩
  obtain ⟨prg, h1, _, h3⟩ := (create_stores_stride (sample_driver single_texel0_descriptor)
    GfxState.init 7 (by decide)).1 p s1 e
  exact ⟨p, s1, e, prg, h1, h3⟩

/-! ## Formula shapes and operand texts -/

/-- What `append_formula` must return on the buffer `b` when the text it has to
append is `s`: the buffer with `s` stored at the old cursor and everything else
as before, or a fault when `s` does not fit. -/
theorem append_formula_stores (b : CharBuf) (c : Fin 2 → Fin 4 → Nat)
    (do_single do_multiply do_mix with_alpha only_alpha opt_alpha : Bool)
    (hb : b.len ≤ b.bytes.length)
    (hall : ∀ p ∈ formula_pieces c do_single do_multiply do_mix with_alpha only_alpha opt_alpha,
      p.isSome = true) :
    append_formula b c do_single do_multiply do_mix with_alpha only_alpha opt_alpha
      = if b.len + (pieces_text (formula_pieces c do_single do_multiply do_mix with_alpha
            only_alpha opt_alpha)).length ≤ b.bytes.length
        then .ok (b.extend (pieces_text (formula_pieces c do_single do_multiply do_mix with_alpha
            only_alpha opt_alpha)))
        else .error .out_of_bounds := by
  rw [append_formula_eq]
  exact writes_append_pieces _ hall b hb

/-- C2: with `d0..d3` the texts of `shader_item_to_str` for the operands
`c[only_alpha][0..3]`, that is row 1 of the table in alpha-only mode and row 0
otherwise (the third asked for as a single element, as `append_formula` does),
`append_formula` stores at the cursor exactly `d3` for the single shape,
`d0 * d2` for the multiply shape and `(d0 - d1) * d2 + d3` for the full shape;
the bytes before the old cursor and after the new one are unchanged, and the
call faults only when the text does not fit in the array. -/
theorem append_formula_single_multiply_full (b : CharBuf) (c : Fin 2 → Fin 4 → Nat)
    (do_single do_multiply do_mix with_alpha only_alpha opt_alpha : Bool)
    (d0 d1 d2 d3 : String)
    (hb : b.len ≤ b.bytes.length)
    (h0 : shader_item_to_str (c (if only_alpha = true then 1 else 0) 0) with_alpha only_alpha
      opt_alpha false = some d0)
    (h1 : shader_item_to_str (c (if only_alpha = true then 1 else 0) 1) with_alpha only_alpha
      opt_alpha false = some d1)
    (h2 : shader_item_to_str (c (if only_alpha = true then 1 else 0) 2) with_alpha only_alpha
      opt_alpha true = some d2)
    (h3 : shader_item_to_str (c (if only_alpha = true then 1 else 0) 3) with_alpha only_alpha
      opt_alpha false = some d3) :
    (do_single = true →
      append_formula b c do_single do_multiply do_mix with_alpha only_alpha opt_alpha
        = if b.len + d3.data.length ≤ b.bytes.length then .ok (b.extend d3.data)
          else .error .out_of_bounds) ∧
    (do_single = false → do_multiply = true →
      append_formula b c do_single do_multiply do_mix with_alpha only_alpha opt_alpha
        = if b.len + (d0.data ++ " * ".data ++ d2.data).length ≤ b.bytes.length
          then .ok (b.extend (d0.data ++ " * ".data ++ d2.data))
          else .error .out_of_bounds) ∧
    (do_single = false → do_multiply = false → do_mix = false →
      append_formula b c do_single do_multiply do_mix with_alpha only_alpha opt_alpha
        = if b.len + ("(".data ++ d0.data ++ " - ".data ++ d1.data ++ ") * ".data ++ d2.data
              ++ " + ".data ++ d3.data).length ≤ b.bytes.length
          then .ok (b.extend ("(".data ++ d0.data ++ " - ".data ++ d1.data ++ ") * ".data
              ++ d2.data ++ " + ".data ++ d3.data))
          else .error .out_of_bounds) := by
  have r0 : shader_item_to_str (operand_row c only_alpha 0) with_alpha only_alpha opt_alpha false
      = some d0 := h0
  have r1 : shader_item_to_str (operand_row c only_alpha 1) with_alpha only_alpha opt_alpha false
      = some d1 := h1
  have r2 : shader_item_to_str (operand_row c only_alpha 2) with_alpha only_alpha opt_alpha true
      = some d2 := h2
  have r3 : shader_item_to_str (operand_row c only_alpha 3) with_alpha only_alpha opt_alpha false
      = some d3 := h3
  refine ⟨?_, ?_, ?_⟩
  · rintro rfl
    have h := append_formula_stores b c true do_multiply do_mix with_alpha only_alpha opt_alpha hb
      (by simp [formula_pieces, r3])
    simpa [formula_pieces, pieces_text, r3] using h
  · rintro rfl rfl
    have h := append_formula_stores b c false true do_mix with_alpha only_alpha opt_alpha hb
      (by simp [formula_pieces, r0, r2])
    simpa [formula_pieces, pieces_text, r0, r2] using h
  · rintro rfl rfl rfl
    have h := append_formula_stores b c false false false with_alpha only_alpha opt_alpha hb
      (by simp [formula_pieces, r0, r1, r2, r3])
    simpa [formula_pieces, pieces_text, r0, r1, r2, r3] using h

/-- Witness for C2: the table with two different rows on a 64-byte buffer
whose cursor is at 2: the multiply shape in the colour path reads row 0, the
full shape in alpha-only mode reads row 1. -/
theorem append_formula_single_multiply_full_witness :
    append_formula { bytes := List.replicate 64 'x', len := 2 } two_row_table
        false true false false false false
      = .ok (CharBuf.extend { bytes := List.replicate 64 'x', len := 2 }
          "texVal0.rgb * vInput2".data) ∧
    append_formula { bytes := List.replicate 64 'x', len := 2 } two_row_table
        false false false true true true
      = .ok (CharBuf.extend { bytes := List.replicate 64 'x', len := 2 }
          "(vInput3.a - texVal1.a) * texVal0.a + vInput4.a".data) := by
  have h := (append_formula_single_multiply_full { bytes := List.replicate 64 'x', len := 2 }
    two_row_table false true false false false false
    "texVal0.rgb" "vInput1" "vInput2" "float3(0.0, 0.0, 0.0)" (by decide) rfl rfl rfl rfl).2.1
    rfl rfl
  have k := (append_formula_single_multiply_full { bytes := List.replicate 64 'x', len := 2 }
    two_row_table false false false true true true
    "vInput3.a" "texVal1.a" "texVal0.a" "vInput4.a" (by decide) rfl rfl rfl rfl).2.2
    rfl rfl rfl
  rw [if_pos (by decide)] at h k
  exact ⟨h, k⟩

/-- C3: for the blend shape, with A, B, C the operands `c[only_alpha][0]`,
`c[only_alpha][1]`, `c[only_alpha][2]` (row 1 of the table in alpha-only mode,
row 0 otherwise), `append_formula` stores one call `lerp(B, A, C)`: its
arguments are, in this order, the text of B, the text of A and the text of C.
The stored text is the text of the expression `lerp(operand 1, operand 0,
operand 2)`, the interpolation from B to A by C, whose value is
B + (A - B) * C.  For A = texel 0, B = input 1, C = input 2 in the colour path
without alpha the stored text is `lerp(vInput1, texVal0.rgb, vInput2)`. -/
theorem append_formula_blend (b : CharBuf) (c : Fin 2 → Fin 4 → Nat)
    (with_alpha only_alpha opt_alpha : Bool) (dA dB dC : String)
    (hb : b.len ≤ b.bytes.length)
    (hA : shader_item_to_str (c (if only_alpha = true then 1 else 0) 0) with_alpha only_alpha
      opt_alpha false = some dA)
    (hB : shader_item_to_str (c (if only_alpha = true then 1 else 0) 1) with_alpha only_alpha
      opt_alpha false = some dB)
    (hC : shader_item_to_str (c (if only_alpha = true then 1 else 0) 2) with_alpha only_alpha
      opt_alpha true = some dC) :
    (append_formula b c false false true with_alpha only_alpha opt_alpha
        = if b.len + ("lerp(".data ++ dB.data ++ ", ".data ++ dA.data ++ ", ".data ++ dC.data
              ++ ")".data).length ≤ b.bytes.length
          then .ok (b.extend ("lerp(".data ++ dB.data ++ ", ".data ++ dA.data ++ ", ".data
              ++ dC.data ++ ")".data))
          else .error .out_of_bounds) ∧
    (∀ d : Fin 4 → String, d 0 = dA → d 1 = dB → d 2 = dC →
      "lerp(".data ++ dB.data ++ ", ".data ++ dA.data ++ ", ".data ++ dC.data ++ ")".data
        = ((FormulaExpr.lerp (FormulaExpr.operand 1) (FormulaExpr.operand 0)
            (FormulaExpr.operand 2)).text d).data) ∧
    (∀ v : Fin 4 → ℚ,
      (FormulaExpr.lerp (FormulaExpr.operand 1) (FormulaExpr.operand 0)
          (FormulaExpr.operand 2)).value v
        = v 1 + (v 0 - v 1) * v 2) ∧
    (c 0 0 = SHADER_TEXEL0 → c 0 1 = SHADER_INPUT_1 → c 0 2 = SHADER_INPUT_2 →
      append_formula b c false false true false false false
        = if b.len + "lerp(vInput1, texVal0.rgb, vInput2)".data.length ≤ b.bytes.length
          then .ok (b.extend "lerp(vInput1, texVal0.rgb, vInput2)".data)
          else .error .out_of_bounds) := by
  have rA : shader_item_to_str (operand_row c only_alpha 0) with_alpha only_alpha opt_alpha false
      = some dA := hA
  have rB : shader_item_to_str (operand_row c only_alpha 1) with_alpha only_alpha opt_alpha false
      = some dB := hB
  have rC : shader_item_to_str (operand_row c only_alpha 2) with_alpha only_alpha opt_alpha true
      = some dC := hC
  refine ⟨?_, ?_, ?_, ?_⟩
  · have h := append_formula_stores b c false false true with_alpha only_alpha opt_alpha hb
      (by simp [formula_pieces, rA, rB, rC])
    simpa [formula_pieces, pieces_text, rA, rB, rC] using h
  · intro d e0 e1 e2
    simp only [FormulaExpr.text, String.data_append, e0, e1, e2]
  · intro v
    simp only [FormulaExpr.value]
    ring
  · intro e0 e1 e2
    have q0 : operand_row c false 0 = SHADER_TEXEL0 := e0
    have q1 : operand_row c false 1 = SHADER_INPUT_1 := e1
    have q2 : operand_row c false 2 = SHADER_INPUT_2 := e2
    have h := append_formula_stores b c false false true false false false hb
      (by simp [formula_pieces, q0, q1, q2, shader_item_to_str, SHADER_0, SHADER_INPUT_1,
        SHADER_INPUT_2, SHADER_INPUT_3, SHADER_INPUT_4, SHADER_TEXEL0])
    simpa [formula_pieces, pieces_text, q0, q1, q2, shader_item_to_str, SHADER_0, SHADER_INPUT_1,
      SHADER_INPUT_2, SHADER_INPUT_3, SHADER_INPUT_4, SHADER_TEXEL0] using h

/-- Witness for C3: the table with two different rows on a 64-byte buffer
whose cursor is at 0: the blend in the colour path without alpha reads row 0
(A = texel 0, B = input 1, C = input 2), the blend in alpha-only mode reads
row 1 (A = input 3, B = texel 1, C = texel 0 alpha). -/
theorem append_formula_blend_witness :
    append_formula { bytes := List.replicate 64 'x', len := 0 } two_row_table
        false false true false false false
      = .ok (CharBuf.extend { bytes := List.replicate 64 'x', len := 0 }
          "lerp(vInput1, texVal0.rgb, vInput2)".data) ∧
    append_formula { bytes := List.replicate 64 'x', len := 0 } two_row_table
        false false true true true true
      = .ok (CharBuf.extend { bytes := List.replicate 64 'x', len := 0 }
          "lerp(texVal1.a, vInput3.a, texVal0.a)".data) := by
  have h := (append_formula_blend { bytes := List.replicate 64 'x', len := 0 } two_row_table
    false false false "texVal0.rgb" "vInput1" "vInput2" (by decide) rfl rfl rfl).2.2.2
    rfl rfl rfl
  have k := (append_formula_blend { bytes := List.replicate 64 'x', len := 0 } two_row_table
    true true true "vInput3.a" "texVal1.a" "texVal0.a" (by decide) rfl rfl rfl).1
  rw [if_pos (by decide)] at h k
  exact ⟨h, k⟩

/-- C4: in alpha-only mode `shader_item_to_str` returns, whatever `with_alpha`,
`inputs_have_alpha` and `hint_single_element` are, `0.0` for constant zero,
`vInputK.a` for input K, `texVal0.a` for texel 0 and for texel-0-alpha and
`texVal1.a` for texel 1; so a single-term alpha formula whose operand is
texel 0 stores exactly `texVal0.a`, a text in which `vInput` does not occur. -/
theorem alpha_only_operands_are_scalars (with_alpha inputs_have_alpha hint_single_element : Bool) :
    shader_item_to_str SHADER_0 with_alpha true inputs_have_alpha hint_single_element
      = some "0.0" ∧
    shader_item_to_str SHADER_INPUT_1 with_alpha true inputs_have_alpha hint_single_element
      = some "vInput1.a" ∧
    shader_item_to_str SHADER_INPUT_2 with_alpha true inputs_have_alpha hint_single_element
      = some "vInput2.a" ∧
    shader_item_to_str SHADER_INPUT_3 with_alpha true inputs_have_alpha hint_single_element
      = some "vInput3.a" ∧
    shader_item_to_str SHADER_INPUT_4 with_alpha true inputs_have_alpha hint_single_element
      = some "vInput4.a" ∧
    shader_item_to_str SHADER_TEXEL0 with_alpha true inputs_have_alpha hint_single_element
      = some "texVal0.a" ∧
    shader_item_to_str SHADER_TEXEL0A with_alpha true inputs_have_alpha hint_single_element
      = some "texVal0.a" ∧
    shader_item_to_str SHADER_TEXEL1 with_alpha true inputs_have_alpha hint_single_element
      = some "texVal1.a" ∧
    (∀ (b : CharBuf) (c : Fin 2 → Fin 4 → Nat) (do_multiply do_mix : Bool),
      b.len ≤ b.bytes.length → c 1 3 = SHADER_TEXEL0 →
      append_formula b c true do_multiply do_mix with_alpha true inputs_have_alpha
        = if b.len + "texVal0.a".data.length ≤ b.bytes.length
          then .ok (b.extend "texVal0.a".data) else .error .out_of_bounds) ∧
    ¬ ("vInput".data <:+: "texVal0.a".data) := by
  refine ⟨rfl, rfl, rfl, rfl, rfl, rfl, rfl, rfl, ?_, by decide⟩
  intro b c do_multiply do_mix hb hc
  have hrow : operand_row c true 3 = SHADER_TEXEL0 := hc
  have h := append_formula_stores b c true do_multiply do_mix with_alpha true inputs_have_alpha hb
    (by simp [formula_pieces, hrow, shader_item_to_str, SHADER_0, SHADER_INPUT_1,
        SHADER_INPUT_2, SHADER_INPUT_3, SHADER_INPUT_4, SHADER_TEXEL0])
  simpa [formula_pieces, pieces_text, hrow, shader_item_to_str, SHADER_0, SHADER_INPUT_1,
    SHADER_INPUT_2, SHADER_INPUT_3, SHADER_INPUT_4, SHADER_TEXEL0] using h

/-- Witness for C4: alpha-only single-term formula on a 16-byte buffer whose
cursor is at 1, all operands texel 0. -/
theorem alpha_only_operands_are_scalars_witness :
    append_formula { bytes := List.replicate 16 'x', len := 1 } (fun _ _ => SHADER_TEXEL0)
        true false false true true true
      = (if 1 + "texVal0.a".data.length ≤ 16
          then .ok (CharBuf.extend { bytes := List.replicate 16 'x', len := 1 } "texVal0.a".data)
          else .error .out_of_bounds) :=
  (alpha_only_operands_are_scalars true true false).2.2.2.2.2.2.2.2.1
    { bytes := List.replicate 16 'x', len := 1 } (fun _ _ => SHADER_TEXEL0) false false
    (by decide) rfl

/-! ## The texel-0-alpha operand -/

/-- C5 (evaluation of the code): outside alpha-only mode and without the
single-element hint, the text returned for texel-0-alpha names `texelVal0`,
while with the hint it names `texVal0`; the fragment shader generated for a
formula with that operand declares only the local `texVal0`. -/
theorem texel0a_broadcast_names_texelVal0 :
    (∀ inputs_have_alpha, shader_item_to_str SHADER_TEXEL0A true false inputs_have_alpha false
      = some "float4(texelVal0.a, texelVal0.a, texelVal0.a, texelVal0.a)") ∧
    (∀ inputs_have_alpha, shader_item_to_str SHADER_TEXEL0A false false inputs_have_alpha false
      = some "float3(texelVal0.a, texelVal0.a, texelVal0.a)") ∧
    (∀ with_alpha inputs_have_alpha,
      shader_item_to_str SHADER_TEXEL0A with_alpha false inputs_have_alpha true
        = some "texVal0.a") ∧
    (∃ b, build_fragment_source texel0a_descriptor fresh_buf = .ok b ∧
      b.text = ("float4 main(\n"
        ++ "float2 vTexCoord : TEXCOORD0,\n"
        ++ "uniform sampler2D uTex0 : TEXUNIT0 \n"
        ++ ") : COLOR\n"
        ++ "\x7b\n"
        ++ "float4 texVal0 = tex2D(uTex0, vTexCoord);\n"
        ++ "float3 texel = float3(texelVal0.a, texelVal0.a, texelVal0.a) * texVal0.rgb;\n"
        ++ "return float4(texel, 1.0);\n"
        ++ "\x7d\n").data) := by
  refine ⟨fun _ => rfl, fun _ => rfl, fun _ _ => rfl, ?_⟩
  have hfit : (fs_text texel0a_descriptor).length < fresh_buf.bytes.length := by
    rw [fresh_buf_length]
    set_option maxRecDepth 100000 in decide
  obtain ⟨b, e, hh⟩ := build_fragment_source_run texel0a_descriptor fresh_buf rfl
    (by decide) hfit
  refine ⟨b, e, ?_⟩
  rw [hh.2.2]
  set_option maxRecDepth 100000 in decide

/-! ## The fragment shader text -/

/-- C6: for every descriptor with one input, texture stage 0 only, no alpha,
fog, noise or edge option and a single-term colour formula whose fourth operand
is texel 0, the fragment builder succeeds on the empty 1024-byte buffer and
leaves exactly the text below: one texture sample statement, the statement
`float3 texel = texVal0.rgb;`, then `return float4(texel, 1.0);` and the closing
brace, with no discard, fog or dither statement. -/
theorem single_texel0_fragment_source (f : CCFeatures)
    (h1 : f.num_inputs = 1) (h2 : f.used_textures0 = true) (h3 : f.used_textures1 = false)
    (h4 : f.opt_alpha = false) (h5 : f.opt_fog = false) (h6 : f.opt_noise = false)
    (h7 : f.opt_texture_edge = false) (h8 : f.do_single0 = true)
    (h9 : f.c 0 3 = SHADER_TEXEL0) :
    ∃ b, build_fragment_source f fresh_buf = .ok b ∧
      b.text = ("float4 main(\n"
        ++ "float2 vTexCoord : TEXCOORD0,\n"
        ++ "float3 vInput1 : TEXCOORD2,\n"
        ++ "uniform sampler2D uTex0 : TEXUNIT0 \n"
        ++ ") : COLOR\n"
        ++ "\x7b\n"
        ++ "float4 texVal0 = tex2D(uTex0, vTexCoord);\n"
        ++ "float3 texel = texVal0.rgb;\n"
        ++ "return float4(texel, 1.0);\n"
        ++ "\x7d\n").data := by
  have hrow : operand_row f.c false 3 = SHADER_TEXEL0 := h9
  have hp : texel_value_pieces f = [some "texVal0.rgb"] := by
    unfold texel_value_pieces formula_pieces
    simp only [h4, h8, hrow, Bool.and_false, Bool.false_eq_true, if_false, if_true]
    rfl
  have hsk : skeleton_of f = skeleton 1 true false false false false false := by
    unfold skeleton_of
    rw [h1, h2, h3, h4, h5, h6, h7]
  have htext := fs_text_eq f
  rw [hp, hsk] at htext
  have htext := htext.trans single_texel0_frame
  have hrec : operands_recognised f := by
    unfold operands_recognised
    rw [hp]
    intro p hp1
    rw [List.mem_singleton.mp hp1]
    rfl
  obtain ⟨b, e, hh⟩ := build_fragment_source_run f fresh_buf rfl hrec (by
    rw [htext, fresh_buf_length]
    decide!)
  exact ⟨b, e, hh.2.2.trans htext⟩

/-- Witness for C6: the single-texel descriptor. -/
theorem single_texel0_fragment_source_witness :
    ∃ b, build_fragment_source single_texel0_descriptor fresh_buf = .ok b ∧
      b.text = ("float4 main(\n"
        ++ "float2 vTexCoord : TEXCOORD0,\n"
        ++ "float3 vInput1 : TEXCOORD2,\n"
        ++ "uniform sampler2D uTex0 : TEXUNIT0 \n"
        ++ ") : COLOR\n"
        ++ "\x7b\n"
        ++ "float4 texVal0 = tex2D(uTex0, vTexCoord);\n"
        ++ "float3 texel = texVal0.rgb;\n"
        ++ "return float4(texel, 1.0);\n"
        ++ "\x7d\n").data :=
  single_texel0_fragment_source single_texel0_descriptor rfl rfl rfl rfl rfl rfl rfl rfl rfl

/-- C7: for every descriptor, a fragment source that the builder has written
contains a fog statement as one of its lines if and only if `opt_fog` is set;
with `opt_fog` and `opt_alpha` it is the line
`texel = float4(lerp(texel.rgb, vFog.rgb, vFog.a), texel.a);` and with
`opt_fog` alone it is `texel = lerp(texel, vFog.rgb, vFog.a);`, in each case
without the other. -/
theorem fog_statement_iff_opt_fog (f : CCFeatures) (b b1 : CharBuf)
    (h0 : b.len = 0) (e : build_fragment_source f b = .ok b1) :
    ((fog_line_alpha ∈ lines_of b1.text ∨ fog_line_plain ∈ lines_of b1.text)
      ↔ f.opt_fog = true) ∧
    (f.opt_fog = true → f.opt_alpha = true →
      fog_line_alpha ∈ lines_of b1.text ∧ fog_line_plain ∉ lines_of b1.text) ∧
    (f.opt_fog = true → f.opt_alpha = false →
      fog_line_plain ∈ lines_of b1.text ∧ fog_line_alpha ∉ lines_of b1.text) := by
  have ht := (build_fragment_source_sound f b b1 h0 e).2.2
  obtain ⟨ha, ho⟩ := fog_lines_of_fs_text f
  rw [ht, ha, ho]
  refine ⟨?_, ?_, ?_⟩
  · constructor
    · rintro (h | h) <;> exact h.1
    · intro h
      cases hal : f.opt_alpha
      · exact Or.inr ⟨h, rfl⟩
      · exact Or.inl ⟨h, rfl⟩
  · intro h1 h2
    exact ⟨⟨h1, h2⟩, fun h => by rw [h2] at h; exact absurd h.2 (by decide)⟩
  · intro h1 h2
    exact ⟨⟨h1, h2⟩, fun h => by rw [h2] at h; exact absurd h.2 (by decide)⟩

/-- Witness for C7: a descriptor with fog and alpha, built in the empty
1024-byte buffer. -/
theorem fog_statement_iff_opt_fog_witness :
    ∃ b1, build_fragment_source fog_alpha_descriptor fresh_buf = .ok b1 ∧
      fog_line_alpha ∈ lines_of b1.text ∧ fog_line_plain ∉ lines_of b1.text := by
  obtain ⟨b1, e, _⟩ := build_fragment_source_run fog_alpha_descriptor fresh_buf rfl
    (by decide) (by rw [fresh_buf_length]; decide!)
  exact ⟨b1, e, (fog_statement_iff_opt_fog fog_alpha_descriptor fresh_buf b1 rfl
    e).2.1 rfl rfl⟩

/-- C8 (evaluation of the code): for the descriptor without inputs, textures
and options the parameter list of the fragment shader is empty, so the
character that line 275 overwrites is the opening parenthesis of
`float4 main(`; the source handed to the compiler has two opening and three
closing parentheses. -/
theorem bare_descriptor_loses_parenthesis :
    (∃ b0, fs_params bare_descriptor fresh_buf = .ok b0 ∧ b0.text = "float4 main(\n".data) ∧
    (∃ b, build_fragment_source bare_descriptor fresh_buf = .ok b ∧
      b.text = ("float4 main \n"
        ++ ") : COLOR\n"
        ++ "\x7b\n"
        ++ "float3 texel = float3(0.0, 0.0, 0.0);\n"
        ++ "return float4(texel, 1.0);\n"
        ++ "\x7d\n").data ∧
      b.text.count '(' = 2 ∧ b.text.count ')' = 3) := by
  constructor
  · obtain ⟨b0, e, hh⟩ := (appends_fs_params (R := True) bare_descriptor).run trivial fresh_buf
      (Nat.zero_le _) (by rw [fresh_buf_length]; decide!)
    exact ⟨b0, e, hh.2.2⟩
  · obtain ⟨b, e, hh⟩ := build_fragment_source_run bare_descriptor fresh_buf rfl
      (by decide) (by rw [fresh_buf_length]; decide!)
    have ht : b.text = ("float4 main \n"
        ++ ") : COLOR\n"
        ++ "\x7b\n"
        ++ "float3 texel = float3(0.0, 0.0, 0.0);\n"
        ++ "return float4(texel, 1.0);\n"
        ++ "\x7d\n").data := hh.2.2.trans (by decide!)
    refine ⟨b, e, ht, ?_, ?_⟩
    · rw [ht]; decide!
    · rw [ht]; decide!

/-! ## Buffer sizes -/

/-- Counterexample to C9 as stated: a descriptor with four inputs and
recognised operands for which the fragment text outgrows `fs_buf`: the builder
stops with a store outside the 1024-byte array, and so does the generation as a
whole. -/
theorem longest_descriptor_overruns_fs_buf :
    longest_descriptor.num_inputs ≤ 4 ∧ (∀ i j, longest_descriptor.c i j < 8) ∧
    build_fragment_source longest_descriptor fresh_buf = .error .out_of_bounds ∧
    generate_sources longest_descriptor = .error .out_of_bounds := by
  have hrec : operands_recognised longest_descriptor :=
    operands_recognised_of_lt _ (by decide)
  have hfs : build_fragment_source longest_descriptor fresh_buf = .error .out_of_bounds := by
    cases h : build_fragment_source longest_descriptor fresh_buf with
    | ok b =>
      have hh := build_fragment_source_sound longest_descriptor fresh_buf b rfl h
      have h1 := holds_len_eq hh
      have h2 := hh.2.1
      rw [hh.1, fresh_buf_length, h1, longest_descriptor_length] at h2
      omega
    | error e =>
      rw [build_fragment_source_fault longest_descriptor fresh_buf e rfl hrec h]
  refine ⟨by decide, by decide, hfs, ?_⟩
  obtain ⟨v, ev, _⟩ := build_vertex_source_run longest_descriptor fresh_buf rfl
    (by rw [fresh_buf_length]
        exact lt_of_le_of_lt (vs_text_length_le longest_descriptor (by decide)) (by omega))
  unfold generate_sources
  rw [bind_of_ok _ _ _ ev, hfs]
  rfl

/-! ## Exact lengths of the text around the `texel` value -/

theorem fs_before_skeleton_le :
    ∀ n, n < 5 → ∀ t0 t1 fog alpha noise : Bool,
      (fs_before_value (skeleton n t0 t1 fog alpha noise false)).length
        ≤ (if (decide (n = 4) && t0 && t1 && fog && alpha && noise) = true
            then 577 else 552) := by
  decide!

theorem fs_before_skeleton_full :
    (fs_before_value (skeleton 4 true true true true true false)).length = 577 := by
  decide!

theorem fs_after_skeleton_le :
    ∀ fog alpha noise edge : Bool,
      (fs_after_value (skeleton 0 false false fog alpha noise edge)).length
        ≤ (if (fog && alpha && noise && edge) = true then 243 else 195) := by
  decide!

theorem fs_after_skeleton_full :
    (fs_after_value (skeleton 0 false false true true true true)).length = 243 := by
  decide!

/-- The text around the `texel` value has 820 characters for the descriptors
with four inputs, both textures and all four options, and at most 795 for all
others with at most four inputs. -/
theorem fs_frame_length_exact (f : CCFeatures) (hn : f.num_inputs ≤ 4) :
    ((f.num_inputs = 4 ∧ f.used_textures0 = true ∧ f.used_textures1 = true ∧ f.opt_fog = true
        ∧ f.opt_alpha = true ∧ f.opt_noise = true ∧ f.opt_texture_edge = true) →
      (fs_before_value f).length + (fs_after_value f).length = 820) ∧
    (¬ (f.num_inputs = 4 ∧ f.used_textures0 = true ∧ f.used_textures1 = true ∧ f.opt_fog = true
        ∧ f.opt_alpha = true ∧ f.opt_noise = true ∧ f.opt_texture_edge = true) →
      (fs_before_value f).length + (fs_after_value f).length ≤ 795) := by
  have e1 : fs_before_value f = fs_before_value (skeleton f.num_inputs f.used_textures0
      f.used_textures1 f.opt_fog f.opt_alpha f.opt_noise false) := rfl
  have e2 : fs_after_value f = fs_after_value (skeleton 0 false false f.opt_fog f.opt_alpha
      f.opt_noise f.opt_texture_edge) := rfl
  have h1 := fs_before_skeleton_le f.num_inputs (by omega) f.used_textures0
    f.used_textures1 f.opt_fog f.opt_alpha f.opt_noise
  have h2 := fs_after_skeleton_le f.opt_fog f.opt_alpha f.opt_noise f.opt_texture_edge
  rw [e1, e2]
  constructor
  · rintro ⟨a1, a2, a3, a4, a5, a6, a7⟩
    rw [a1, a2, a3, a4, a5, a6, a7, fs_before_skeleton_full, fs_after_skeleton_full]
  · intro hnot
    by_cases hb : (decide (f.num_inputs = 4) && f.used_textures0 && f.used_textures1
        && f.opt_fog && f.opt_alpha && f.opt_noise) = true
    · have hb1 := hb
      simp only [Bool.and_eq_true, decide_eq_true_eq] at hb1
      obtain ⟨⟨⟨⟨⟨a1, a2⟩, a3⟩, a4⟩, a5⟩, a6⟩ := hb1
      have ha : ¬ (f.opt_fog && f.opt_alpha && f.opt_noise && f.opt_texture_edge) = true := by
        intro h
        simp only [Bool.and_eq_true] at h
        exact hnot ⟨a1, a2, a3, a4, a5, a6, h.2⟩
      rw [if_pos hb] at h1
      rw [if_neg ha] at h2
      omega
    · rw [if_neg hb] at h1
      split at h2 <;> omega

/-- The fragment text of a descriptor with at most four inputs has at most
1023 characters exactly when the descriptor is not overlong. -/
theorem fs_text_length_overlong (f : CCFeatures) (hn : f.num_inputs ≤ 4) :
    (¬ overlong f → (fs_text f).length ≤ 1023) ∧ (overlong f → 1024 ≤ (fs_text f).length) := by
  rw [fs_text_length]
  have hf := fs_frame_length_exact f hn
  have hv := (texel_value_length f).1
  constructor
  · intro ho
    by_cases hfull : f.num_inputs = 4 ∧ f.used_textures0 = true ∧ f.used_textures1 = true
        ∧ f.opt_fog = true ∧ f.opt_alpha = true ∧ f.opt_noise = true
        ∧ f.opt_texture_edge = true
    · have h820 := hf.1 hfull
      have hlt : ¬ 204 ≤ (pieces_text (texel_value_pieces f)).length := by
        intro h204
        obtain ⟨a1, a2, a3, a4, a5, a6, a7⟩ := hfull
        exact ho ⟨a1, a2, a3, a4, a5, a6, a7, h204⟩
      omega
    · have := hf.2 hfull
      omega
  · rintro ⟨a1, a2, a3, a4, a5, a6, a7, h204⟩
    have h820 := hf.1 ⟨a1, a2, a3, a4, a5, a6, a7⟩
    omega

theorem overlong_three_broadcasts (f : CCFeatures) (h : overlong f) : three_broadcasts f := by
  by_contra hnb
  have := (texel_value_length f).2.1 hnb
  have h204 := h.2.2.2.2.2.2.2
  omega

/-- For a descriptor with at most four inputs and recognised operands,
generation succeeds exactly when the descriptor is not overlong, and otherwise
ends in a store outside `fs_buf`. -/
theorem generate_sources_overlong (f : CCFeatures) (hn : f.num_inputs ≤ 4)
    (hc : ∀ i j, f.c i j < 8) :
    (¬ overlong f → ∃ vs fs, generate_sources f = .ok (vs, fs)
      ∧ vs.bytes.length = 1024 ∧ fs.bytes.length = 1024 ∧ vs.len ≤ 1023 ∧ fs.len ≤ 1023) ∧
    (overlong f → generate_sources f = .error .out_of_bounds) := by
  have hv := vs_text_length_le f hn
  have hrec := operands_recognised_of_lt f hc
  obtain ⟨hfit, hover⟩ := fs_text_length_overlong f hn
  constructor
  · intro ho
    have hf := hfit ho
    obtain ⟨vs, fs, e, _, _⟩ := generate_sources_run f hrec (by omega) (by omega)
    obtain ⟨t1, t2, _, _, l1, l2, k1, k2⟩ := generate_sources_sound f vs fs e
    exact ⟨vs, fs, e, k1, k2, by omega, by omega⟩
  · intro ho
    have hlong := hover ho
    obtain ⟨v, ev, hv1⟩ := build_vertex_source_run f fresh_buf rfl
      (by rw [fresh_buf_length]; exact lt_of_le_of_lt hv (by omega))
    have hvl : v.len < v.bytes.length := by
      rw [holds_len_eq hv1, hv1.1, fresh_buf_length]
      exact lt_of_le_of_lt hv (by omega)
    obtain ⟨v2, ev2, _⟩ := terminate_ok v hvl
    unfold generate_sources
    rw [bind_of_ok _ _ _ ev]
    cases h : build_fragment_source f fresh_buf with
    | ok b =>
      have hh := build_fragment_source_sound f fresh_buf b rfl h
      have h1 := holds_len_eq hh
      have h2 := hh.2.1
      have h3 := hh.1
      rw [fresh_buf_length] at h3
      have hfull : ¬ b.len < b.bytes.length := by omega
      have hterm : b.terminate = .error .out_of_bounds := by
        unfold CharBuf.terminate CharBuf.store
        rw [if_neg hfull]
      show (Except.ok b).bind _ = _
      show (v.terminate).bind _ = _
      rw [bind_of_ok _ _ _ ev2, hterm]
      rfl
    | error e =>
      rw [build_fragment_source_fault f fresh_buf e rfl hrec h]
      rfl

/-- C9 (amended): for every descriptor with at most four inputs and operand
selectors among the eight recognised values, any shape flags and any options,
generation does not fault unless the descriptor has four inputs, both
textures, all four options and a `texel` value of 204 characters or more: both
texts are written into their 1024-byte buffers with final lengths of at most
1023, so that every store, the terminating NUL included, is in bounds.  The
exception is exact: for an excepted descriptor, whose colour formula is the
full shape with texel-0-alpha as operands 0, 1 and 3, the fragment text has
1024 characters or more and generation ends in a store outside `fs_buf`. -/
theorem sources_fit_unless_overlong (f : CCFeatures) (hn : f.num_inputs ≤ 4)
    (hc : ∀ i j, f.c i j < 8) :
    (¬ overlong f → ∃ vs fs, generate_sources f = .ok (vs, fs)
      ∧ vs.bytes.length = 1024 ∧ fs.bytes.length = 1024 ∧ vs.len ≤ 1023 ∧ fs.len ≤ 1023) ∧
    (overlong f → generate_sources f = .error .out_of_bounds ∧ three_broadcasts f
      ∧ 1024 ≤ (fs_text f).length) := by
  obtain ⟨h1, h2⟩ := generate_sources_overlong f hn hc
  exact ⟨h1, fun ho => ⟨h2 ho, overlong_three_broadcasts f ho,
    (fs_text_length_overlong f hn).2 ho⟩⟩

/-- Witness for C9 (amended): the descriptor with four inputs, both textures,
all options and three texel-0-alpha broadcasts in the colour formula whose
alpha formula is a single term is not overlong: both sources fit. -/
theorem sources_fit_unless_overlong_witness :
    three_broadcasts longest_fitting_descriptor ∧
    ∃ vs fs, generate_sources longest_fitting_descriptor = .ok (vs, fs)
      ∧ vs.bytes.length = 1024 ∧ fs.bytes.length = 1024 ∧ vs.len ≤ 1023 ∧ fs.len ≤ 1023 :=
  ⟨⟨rfl, rfl, rfl, rfl, rfl, rfl⟩,
    (sources_fit_unless_overlong longest_fitting_descriptor (by decide) (by decide)).1
      (fun h => absurd h.2.2.2.2.2.2.2 (by decide!))⟩

/-! ## The program cache -/

/-- C10: in a pool with fewer than 64 entries that does not hold the formula
id, after `gfx_vitagl_create_and_load_new_shader` has returned an entry,
`gfx_vitagl_lookup_shader` of the same id returns exactly that entry; a lookup
never changes the state (pool contents, pool size, driver trace); hence
get-or-create returns the created entry the first time, and the same entry
with the state untouched, so without another build, the second time. -/
theorem lookup_finds_created (d : Driver) (s : GfxState) (shader_id p : Nat) (s1 : GfxState)
    (hsize : s.shader_program_pool_size < 64)
    (hnew : ∀ j entry, j < s.shader_program_pool_size →
      s.shader_program_pool.get? j = some entry → entry.shader_id ≠ shader_id)
    (e : gfx_vitagl_create_and_load_new_shader d s shader_id = .ok (p, s1)) :
    gfx_vitagl_lookup_shader s1 shader_id = .ok (some p, s1) ∧
    (∀ (s0 s2 : GfxState) (id0 : Nat) (r : Option Nat),
      gfx_vitagl_lookup_shader s0 id0 = .ok (r, s2) → s2 = s0) ∧
    get_or_create d s shader_id = .ok (p, s1) ∧
    get_or_create d s1 shader_id = .ok (p, s1) := by
  obtain ⟨src, v, fr, entry, a, gl, _, _, _, hslot, _, _, rfl, hpool, hsz, _⟩ :=
    create_inv d s shader_id p s1 e
  have hlt : s.shader_program_pool_size < s.shader_program_pool.length :=
    (List.get?_eq_some.mp hslot).1
  have hold : ∀ j, j < s.shader_program_pool_size →
      ∃ e0, s.shader_program_pool.get? j = some e0 ∧ e0.shader_id ≠ shader_id := by
    intro j hj
    have hjl : j < s.shader_program_pool.length := by omega
    exact ⟨_, List.get?_eq_get hjl, hnew j _ hj (List.get?_eq_get hjl)⟩
  have hsz1 : s1.shader_program_pool_size = s.shader_program_pool_size + 1 := by
    rw [hsz]; unfold to_uint8; omega
  have hfind : gfx_vitagl_lookup_shader s1 shader_id
      = .ok (some s.shader_program_pool_size, s1) := by
    unfold gfx_vitagl_lookup_shader
    have hl := lookup_from_hit s1.shader_program_pool shader_id s1.shader_program_pool_size 0
      s.shader_program_pool_size _
      (by rw [hpool]; exact get?_set_same _ _ _ hlt)
      (created_entry_fields d shader_id _ a _).1 (by omega) (by omega)
      (fun j _ hj => by
        obtain ⟨e0, h0, h1⟩ := hold j hj
        exact ⟨e0, by rw [hpool, get?_set_other _ _ _ _ (by omega)]; exact h0, h1⟩)
    rw [hl]
    rfl
  have hmiss : gfx_vitagl_lookup_shader s shader_id = .ok (none, s) := by
    unfold gfx_vitagl_lookup_shader
    rw [lookup_from_miss s.shader_program_pool shader_id s.shader_program_pool_size 0
      (fun j _ hj => hold j (by omega))]
    rfl
  refine ⟨hfind, fun s0 s2 id0 r h => lookup_shader_state s0 s2 id0 r h, ?_, ?_⟩
  · unfold get_or_create
    rw [bind_of_ok _ _ _ hmiss]
    exact e
  · unfold get_or_create
    rw [bind_of_ok _ _ _ hfind]

/-- Witness for C10: the formula id 7 created in the initial, empty pool. -/
theorem lookup_finds_created_witness :
    ∃ p s1, gfx_vitagl_create_and_load_new_shader (sample_driver single_texel0_descriptor)
        GfxState.init 7 = .ok (p, s1) ∧
      gfx_vitagl_lookup_shader s1 7 = .ok (some p, s1) ∧
      get_or_create (sample_driver single_texel0_descriptor) GfxState.init 7 = .ok (p, s1) ∧
      get_or_create (sample_driver single_texel0_descriptor) s1 7 = .ok (p, s1) := by
  obtain ⟨s1, e⟩ := create_succeeds (sample_driver single_texel0_descriptor) GfxState.init 7
    ShaderProgram.zero (by decide) (by decide) (fun h => absurd h.1 (by decide))
    (fun _ _ => rfl) init_slot zero_arrays_of_seven
  obtain ⟨h1, _, h3, h4⟩ := lookup_finds_created (sample_driver single_texel0_descriptor)
    GfxState.init 7 _ s1 (by decide) (fun j _ hj => absurd hj (Nat.not_lt_zero j)) e
  exact ⟨_, s1, e, h1, h3, h4⟩

/-! # Theorems for the program cache, the attribute layout and the binding of programs -/

/-! ## The linear scan of `gfx_vitagl_lookup_shader` -/

/-- Within the pool array the scan always returns: nothing exactly when no
entry of its range has the id, and otherwise the first index that has it. -/
theorem lookup_from_total (pool : List ShaderProgram) (shader_id count i : Nat)
    (h : i + count ≤ pool.length) :
    ∃ r, lookup_from pool shader_id count i = .ok r ∧
      (r = none ↔ ∀ j entry, i ≤ j → j < i + count → pool.get? j = some entry →
        entry.shader_id ≠ shader_id) ∧
      (∀ p, r = some p → i ≤ p ∧ p < i + count ∧
        (∃ entry, pool.get? p = some entry ∧ entry.shader_id = shader_id) ∧
        ∀ j entry, i ≤ j → j < p → pool.get? j = some entry → entry.shader_id ≠ shader_id) := by
  induction count generalizing i with
  | zero =>
    refine ⟨none, rfl, ⟨fun _ j _ h1 h2 => (by omega), fun _ => rfl⟩, fun p hp => (by cases hp)⟩
  | succ n ih =>
    have hi : i < pool.length := by omega
    unfold lookup_from
    rw [List.get?_eq_get hi]
    simp only
    by_cases hid : (pool.get ⟨i, hi⟩).shader_id = shader_id
    · rw [if_pos hid]
      refine ⟨some i, rfl, ⟨fun hn => (by cases hn), fun hall => ?_⟩, fun p hp => ?_⟩
      · exact absurd hid (hall i _ (le_refl _) (by omega) (List.get?_eq_get hi))
      · simp only [Option.some.injEq] at hp
        subst hp
        exact ⟨le_refl _, by omega, ⟨_, List.get?_eq_get hi, hid⟩,
          fun j _ h1 h2 => by omega⟩
    · rw [if_neg hid]
      obtain ⟨r, er, hnone, hsome⟩ := ih (i + 1) (by omega)
      refine ⟨r, er, ⟨fun hn j entry h1 h2 hj => ?_, fun hall => ?_⟩, fun p hp => ?_⟩
      · by_cases hji : j = i
        · subst hji
          rw [List.get?_eq_get hi] at hj
          simp only [Option.some.injEq] at hj
          subst hj
          exact hid
        · exact (hnone.mp hn) j entry (by omega) (by omega) hj
      · exact hnone.mpr (fun j entry h1 h2 hj => hall j entry (by omega) (by omega) hj)
      · obtain ⟨h1, h2, h3, h4⟩ := hsome p hp
        refine ⟨by omega, by omega, h3, fun j entry hj1 hj2 hj => ?_⟩
        by_cases hji : j = i
        · subst hji
          rw [List.get?_eq_get hi] at hj
          simp only [Option.some.injEq] at hj
          subst hj
          exact hid
        · exact h4 j entry (by omega) hj2 hj

/-- C11: in every pool state whose size counter lies within the pool array,
`gfx_vitagl_lookup_shader` returns, leaving the state as it is: it returns
not-found exactly when none of the first `shader_program_pool_size` entries has
the id, and otherwise the entry of smallest index that has it.  On the initial
empty pool every id, 0 included, is not found. -/
theorem lookup_returns_first_match (s : GfxState) (shader_id : Nat)
    (hsize : s.shader_program_pool_size ≤ s.shader_program_pool.length) :
    (∃ r, gfx_vitagl_lookup_shader s shader_id = .ok (r, s) ∧
      (r = none ↔ ∀ j entry, j < s.shader_program_pool_size →
        s.shader_program_pool.get? j = some entry → entry.shader_id ≠ shader_id) ∧
      (∀ p, r = some p → p < s.shader_program_pool_size ∧
        (∃ entry, s.shader_program_pool.get? p = some entry ∧ entry.shader_id = shader_id) ∧
        ∀ j entry, j < p → s.shader_program_pool.get? j = some entry →
          entry.shader_id ≠ shader_id)) ∧
    (∀ id0, gfx_vitagl_lookup_shader GfxState.init id0 = .ok (none, GfxState.init)) := by
  constructor
  · obtain ⟨r, er, hnone, hsome⟩ := lookup_from_total s.shader_program_pool shader_id
      s.shader_program_pool_size 0 (by omega)
    refine ⟨r, ?_, ?_, ?_⟩
    · unfold gfx_vitagl_lookup_shader
      rw [bind_of_ok _ _ _ er]
    · rw [hnone]
      constructor
      · intro h j entry hj he
        exact h j entry (Nat.zero_le _) (by omega) he
      · intro h j entry _ hj he
        exact h j entry (by omega) he
    · intro p hp
      obtain ⟨_, h2, h3, h4⟩ := hsome p hp
      exact ⟨by omega, h3, fun j entry hj he => h4 j entry (Nat.zero_le _) hj he⟩
  · intro id0
    rfl

/-- Witness for C11: in a pool of three programs whose second and third have
the id 9, the lookup of 9 returns the second. -/
theorem lookup_returns_first_match_witness :
    gfx_vitagl_lookup_shader three_entry_state 9 = .ok (some 1, three_entry_state) ∧
    gfx_vitagl_lookup_shader GfxState.init 0 = .ok (none, GfxState.init) := by
  obtain ⟨⟨r, er, hnone, hsome⟩, hinit⟩ := lookup_returns_first_match three_entry_state 9
    (by decide)
  refine ⟨?_, hinit 0⟩
  have hr : r = some 1 := by
    cases r with
    | none =>
      exact absurd rfl (hnone.mp rfl 1 { ShaderProgram.zero with shader_id := 9 } (by decide) rfl)
    | some p =>
      obtain ⟨h1, _, h3⟩ := hsome p rfl
      have hp3 : p < 3 := h1
      have h0 : p ≠ 0 := by
        rintro rfl
        obtain ⟨_, ⟨entry, he, hid⟩, _⟩ := hsome 0 rfl
        have : entry = { ShaderProgram.zero with shader_id := 4 } := by
          have h : three_entry_state.shader_program_pool.get? 0
              = some { ShaderProgram.zero with shader_id := 4 } := rfl
          rw [h] at he
          exact (Option.some.inj he).symm
        rw [this] at hid
        exact absurd hid (by decide)
      have h2 : p ≠ 2 := by
        rintro rfl
        exact absurd rfl (h3 1 { ShaderProgram.zero with shader_id := 9 } (by decide) rfl)
      have : p = 1 := by omega
      rw [this]
  rw [hr] at er
  exact er

/-! ## The pool slot taken by `gfx_vitagl_create_and_load_new_shader` -/

/-- With the size counter at or past the end of the pool array the call never
returns a program; once both shaders are generated and compiled it ends in the
store outside the array. -/
theorem create_past_pool (d : Driver) (s : GfxState) (shader_id : Nat)
    (hfull : s.shader_program_pool.length ≤ s.shader_program_pool_size) :
    (∀ r, gfx_vitagl_create_and_load_new_shader d s shader_id ≠ .ok r) ∧
    (∀ src vertex fragment,
      generate_sources (d.gfx_cc_get_features shader_id) = .ok src →
      compile_stage d ShaderKind.vertex src.1 s.gl = .ok vertex →
      compile_stage d ShaderKind.fragment src.2 vertex.2 = .ok fragment →
      gfx_vitagl_create_and_load_new_shader d s shader_id = .error .out_of_bounds) := by
  have hnone : s.shader_program_pool.get? s.shader_program_pool_size = none :=
    List.get?_eq_none.mpr hfull
  constructor
  · rintro ⟨p, s1⟩ e
    obtain ⟨_, _, _, entry, _, _, _, _, _, hslot, _⟩ := create_inv d s shader_id p s1 e
    rw [hnone] at hslot
    cases hslot
  · intro src vertex fragment hgen hv hf
    unfold gfx_vitagl_create_and_load_new_shader
    simp only
    rw [bind_of_ok _ _ _ hgen, bind_of_ok _ _ _ hv, bind_of_ok _ _ _ hf, hnone]

/-- C12 (evaluation of the code as stated): with 64 programs in the pool, a
create call for the new id 100 whose shaders are generated and compiled does
not take a failure path of its own: the slot it takes is index 64, which is no
element of the pool, the size counter it writes back is 65, and the call ends
in a store outside the array, not in `abort()`. -/
theorem full_pool_create_stores_past_pool :
    full_pool_state.shader_program_pool.length = 64 ∧
    full_pool_state.shader_program_pool_size = 64 ∧
    (∀ j entry, full_pool_state.shader_program_pool.get? j = some entry →
      entry.shader_id ≠ 100) ∧
    full_pool_state.shader_program_pool.get? full_pool_state.shader_program_pool_size = none ∧
    to_uint8 (full_pool_state.shader_program_pool_size + 1) = 65 ∧
    gfx_vitagl_create_and_load_new_shader (sample_driver single_texel0_descriptor)
      full_pool_state 100 = .error .out_of_bounds ∧
    gfx_vitagl_create_and_load_new_shader (sample_driver single_texel0_descriptor)
      full_pool_state 100 ≠ .error .aborted := by
  have hrun : gfx_vitagl_create_and_load_new_shader (sample_driver single_texel0_descriptor)
      full_pool_state 100 = .error .out_of_bounds := by
    obtain ⟨vs, fs, e, _⟩ := generate_sources_fits single_texel0_descriptor (by decide)
      (by decide) (fun h => absurd h.1 (by decide))
    obtain ⟨v, ev⟩ := compile_stage_ok (sample_driver single_texel0_descriptor)
      ShaderKind.vertex vs full_pool_state.gl (fun _ _ => rfl)
    obtain ⟨fr, ef⟩ := compile_stage_ok (sample_driver single_texel0_descriptor)
      ShaderKind.fragment fs v.2 (fun _ _ => rfl)
    exact (create_past_pool (sample_driver single_texel0_descriptor) full_pool_state 100
      (by decide)).2 (vs, fs) v fr e ev ef
  refine ⟨by decide, rfl, ?_, by decide, by decide, hrun, ?_⟩
  · intro j entry he
    have hj : j < 64 := by
      have := (List.get?_eq_some.mp he).1
      simpa [full_pool_state] using this
    have : entry.shader_id = j + 1 := by
      obtain ⟨h, e1⟩ := List.get?_eq_some.mp he
      rw [← e1]
      simp [full_pool_state, ShaderProgram.zero]
    omega
  · rw [hrun]
    intro h
    cases h

/-! ## Source generation never calls `abort()` -/

theorem na_bind {α β : Type} {x : Except Fault α} {k : α → Except Fault β}
    (hx : x ≠ .error .aborted) (hk : ∀ a, k a ≠ .error .aborted) :
    x.bind k ≠ .error .aborted := by
  cases x with
  | error e =>
    intro h
    cases h
    exact hx rfl
  | ok a => exact hk a

theorem na_ite {α : Type} {c : Prop} [Decidable c] {x y : Except Fault α}
    (hx : x ≠ .error .aborted) (hy : y ≠ .error .aborted) :
    (if c then x else y) ≠ .error .aborted := by
  split
  · exact hx
  · exact hy

theorem na_ok {α : Type} (a : α) : (Except.ok a : Except Fault α) ≠ .error .aborted := by
  intro h
  cases h

theorem na_put (b : CharBuf) (ch : Char) : b.put ch ≠ .error .aborted := by
  unfold CharBuf.put
  split
  · exact na_ok _
  · intro h
    cases h

theorem na_put_chars (str : List Char) (b : CharBuf) : put_chars b str ≠ .error .aborted := by
  induction str generalizing b with
  | nil => exact na_ok _
  | cons ch str ih => exact na_bind (na_put b ch) (fun b1 => ih b1)

theorem na_store (b : CharBuf) (i : Nat) (ch : Char) : b.store i ch ≠ .error .aborted := by
  unfold CharBuf.store
  split
  · exact na_ok _
  · intro h
    cases h

theorem na_append_str (b : CharBuf) (str : String) : append_str b str ≠ .error .aborted :=
  na_put_chars _ b

theorem na_append_line (b : CharBuf) (str : String) : append_line b str ≠ .error .aborted :=
  na_bind (na_put_chars _ b) (fun b1 => na_put b1 _)

theorem na_sprintf_at (b : CharBuf) (out : String) : sprintf_at b out ≠ .error .aborted :=
  na_bind (na_put_chars _ b) (fun b1 => na_store b1 _ _)

theorem na_store_back2 (b : CharBuf) (ch : Char) : b.store_back2 ch ≠ .error .aborted := by
  unfold CharBuf.store_back2
  split
  · exact na_store _ _ _
  · intro h
    cases h

theorem na_append_item (b : CharBuf) (item : Option String) :
    append_item b item ≠ .error .aborted := by
  cases item with
  | none =>
    intro h
    cases h
  | some str => exact na_append_str b str

theorem na_append_pieces (ps : List (Option String)) (b : CharBuf) :
    append_pieces b ps ≠ .error .aborted := by
  induction ps generalizing b with
  | nil => exact na_ok _
  | cons p ps ih => exact na_bind (na_append_item b p) (fun b1 => ih b1)

theorem na_for_loop (body : Nat → CharBuf → Except Fault CharBuf)
    (h : ∀ i b, body i b ≠ .error .aborted) (count i : Nat) (b : CharBuf) :
    for_loop body count i b ≠ .error .aborted := by
  induction count generalizing i b with
  | zero => exact na_ok _
  | succ n ih => exact na_bind (h i b) (fun b1 => ih (i + 1) b1)

theorem na_build_vertex_source (f : CCFeatures) (b : CharBuf) :
    build_vertex_source f b ≠ .error .aborted := by
  unfold build_vertex_source vs_params vs_body vs_declare_input vs_copy_input
  repeat' first
    | exact na_ok _
    | exact na_append_line _ _
    | exact na_sprintf_at _ _
    | exact na_store_back2 _ _
    | apply na_for_loop
    | apply na_ite
    | apply na_bind
    | intro _

theorem na_build_fragment_source (f : CCFeatures) (b : CharBuf) :
    build_fragment_source f b ≠ .error .aborted := by
  unfold build_fragment_source fs_params fs_close_params fs_body fs_declare_input
  repeat' first
    | exact na_ok _
    | exact na_append_line _ _
    | exact na_append_str _ _
    | exact na_sprintf_at _ _
    | exact na_store_back2 _ _
    | (rw [fs_texel_value_eq]; exact na_append_pieces _ _)
    | apply na_for_loop
    | apply na_ite
    | apply na_bind
    | intro _

theorem na_terminate (b : CharBuf) : b.terminate ≠ .error .aborted :=
  na_store _ _ _

/-- Source generation stops only at a store outside a buffer or at an operand
that `shader_item_to_str` does not recognise, never in `abort()`. -/
theorem na_generate_sources (f : CCFeatures) : generate_sources f ≠ .error .aborted := by
  unfold generate_sources
  exact na_bind (na_build_vertex_source f fresh_buf) fun vs =>
    na_bind (na_build_fragment_source f fresh_buf) fun fs =>
    na_bind (na_terminate vs) fun vs1 =>
    na_bind (na_terminate fs) fun fs1 => na_ok _

/-! ## `gfx_vitagl_create_and_load_new_shader` around the slot taken at line 373 -/

/-- The create call is its first half, up to the slot taken at line 373,
followed by its second half. -/
theorem create_eq_halves (d : Driver) (s : GfxState) (shader_id : Nat) :
    gfx_vitagl_create_and_load_new_shader d s shader_id
      = (create_until_slot d s shader_id).bind fun r =>
          create_from_slot d shader_id r.1 r.2.1 r.2.2 := by
  unfold gfx_vitagl_create_and_load_new_shader create_until_slot
  simp only
  cases generate_sources (d.gfx_cc_get_features shader_id) with
  | error e => rfl
  | ok src =>
    show (compile_stage d ShaderKind.vertex src.1 s.gl).bind _
      = ((compile_stage d ShaderKind.vertex src.1 s.gl).bind _).bind _
    cases compile_stage d ShaderKind.vertex src.1 s.gl with
    | error e => rfl
    | ok vertex =>
      show (compile_stage d ShaderKind.fragment src.2 vertex.2).bind _
        = ((compile_stage d ShaderKind.fragment src.2 vertex.2).bind _).bind _
      cases compile_stage d ShaderKind.fragment src.2 vertex.2 with
      | error e => rfl
      | ok fragment => rfl

theorem compile_stage_cases (d : Driver) (kind : ShaderKind) (src : CharBuf) (gl : List GLCall) :
    (∃ r, compile_stage d kind src gl = .ok r) ∨ compile_stage d kind src gl = .error .aborted := by
  unfold compile_stage
  simp only
  split
  · exact Or.inl ⟨_, rfl⟩
  · exact Or.inr rfl

/-- The first half of the create call, once the sources are generated: it
aborts exactly when a stage fails to compile, and otherwise takes the slot at
the size counter and increments the counter, whatever the size of the pool. -/
theorem create_until_slot_cases (d : Driver) (s : GfxState) (shader_id : Nat)
    (src : CharBuf × CharBuf)
    (hgen : generate_sources (d.gfx_cc_get_features shader_id) = .ok src) :
    (create_until_slot d s shader_id = .error .aborted ∧
      (compile_stage d ShaderKind.vertex src.1 s.gl = .error .aborted ∨
        ∃ vertex, compile_stage d ShaderKind.vertex src.1 s.gl = .ok vertex ∧
          compile_stage d ShaderKind.fragment src.2 vertex.2 = .error .aborted)) ∨
    (∃ vertex fragment program s1,
      compile_stage d ShaderKind.vertex src.1 s.gl = .ok vertex ∧
      compile_stage d ShaderKind.fragment src.2 vertex.2 = .ok fragment ∧
      create_until_slot d s shader_id = .ok (program, s.shader_program_pool_size, s1) ∧
      s1.shader_program_pool_size = to_uint8 (s.shader_program_pool_size + 1) ∧
      s1.shader_program_pool = s.shader_program_pool) := by
  unfold create_until_slot
  simp only
  rw [bind_of_ok _ _ _ hgen]
  rcases compile_stage_cases d ShaderKind.vertex src.1 s.gl with ⟨vertex, ev⟩ | ev
  · rw [bind_of_ok _ _ _ ev]
    rcases compile_stage_cases d ShaderKind.fragment src.2 vertex.2 with ⟨fragment, ef⟩ | ef
    · rw [bind_of_ok _ _ _ ef]
      exact Or.inr ⟨vertex, fragment, _, _, ev, ef, rfl, rfl, rfl⟩
    · exact Or.inl ⟨by rw [ef]; rfl, Or.inr ⟨vertex, ev, ef⟩⟩
  · exact Or.inl ⟨by rw [ev]; rfl, Or.inl ev⟩

theorem create_from_slot_outside (d : Driver) (shader_id : Nat) (program : Nat × List GLCall)
    (slot : Nat) (s : GfxState) (h : s.shader_program_pool.length ≤ slot) :
    create_from_slot d shader_id program slot s = .error .out_of_bounds := by
  unfold create_from_slot
  simp only
  rw [List.get?_eq_none.mpr h]

theorem create_generation_fault (d : Driver) (s : GfxState) (shader_id : Nat) (e : Fault)
    (hgen : generate_sources (d.gfx_cc_get_features shader_id) = .error e) :
    gfx_vitagl_create_and_load_new_shader d s shader_id = .error e := by
  unfold gfx_vitagl_create_and_load_new_shader
  simp only
  rw [hgen]
  rfl

/-- C12 (amended): with 64 programs in the 64-element pool, a create call has
no capacity check and no failure path for a full pool.  It calls `abort()`
exactly when the sources are generated and a shader fails to compile.  When
both shaders compile, its first half takes, at line 373, the slot with index
64, which is no element of the pool, and writes 65 into the size counter,
leaving the pool untouched, and its second half stores through that slot,
outside the array: the call ends in that store. -/
theorem create_in_full_pool_has_no_check (d : Driver) (s : GfxState) (shader_id : Nat)
    (hlen : s.shader_program_pool.length = 64) (hsize : s.shader_program_pool_size = 64) :
    gfx_vitagl_create_and_load_new_shader d s shader_id
      = ((create_until_slot d s shader_id).bind fun r =>
          create_from_slot d shader_id r.1 r.2.1 r.2.2) ∧
    (gfx_vitagl_create_and_load_new_shader d s shader_id = .error .aborted ↔
      ∃ src, generate_sources (d.gfx_cc_get_features shader_id) = .ok src ∧
        (compile_stage d ShaderKind.vertex src.1 s.gl = .error .aborted ∨
          ∃ vertex, compile_stage d ShaderKind.vertex src.1 s.gl = .ok vertex ∧
            compile_stage d ShaderKind.fragment src.2 vertex.2 = .error .aborted)) ∧
    (∀ src vertex fragment,
      generate_sources (d.gfx_cc_get_features shader_id) = .ok src →
      compile_stage d ShaderKind.vertex src.1 s.gl = .ok vertex →
      compile_stage d ShaderKind.fragment src.2 vertex.2 = .ok fragment →
      ∃ program s1,
        create_until_slot d s shader_id = .ok (program, 64, s1) ∧
        s1.shader_program_pool_size = 65 ∧
        s1.shader_program_pool = s.shader_program_pool ∧
        s1.shader_program_pool.get? 64 = none ∧
        create_from_slot d shader_id program 64 s1 = .error .out_of_bounds ∧
        gfx_vitagl_create_and_load_new_shader d s shader_id = .error .out_of_bounds) := by
  have hright : ∀ src vertex fragment,
      generate_sources (d.gfx_cc_get_features shader_id) = .ok src →
      compile_stage d ShaderKind.vertex src.1 s.gl = .ok vertex →
      compile_stage d ShaderKind.fragment src.2 vertex.2 = .ok fragment →
      ∃ program s1,
        create_until_slot d s shader_id = .ok (program, 64, s1) ∧
        s1.shader_program_pool_size = 65 ∧
        s1.shader_program_pool = s.shader_program_pool ∧
        s1.shader_program_pool.get? 64 = none ∧
        create_from_slot d shader_id program 64 s1 = .error .out_of_bounds ∧
        gfx_vitagl_create_and_load_new_shader d s shader_id = .error .out_of_bounds := by
    intro src vertex fragment hgen ev ef
    rcases create_until_slot_cases d s shader_id src hgen with ⟨_, h⟩ | ⟨vertex1, fragment1,
      program, s1, ev1, ef1, e, hs1, hp1⟩
    · rcases h with h | ⟨v, hv, h⟩
      · rw [ev] at h
        cases h
      · rw [ev] at hv
        obtain rfl := Except.ok.inj hv
        rw [ef] at h
        cases h
    · rw [hsize] at e hs1
      have hout : s1.shader_program_pool.length ≤ 64 := by rw [hp1, hlen]
      have hfrom := create_from_slot_outside d shader_id program 64 s1 hout
      refine ⟨program, s1, e, ?_, hp1, List.get?_eq_none.mpr hout, hfrom, ?_⟩
      · rw [hs1]
        rfl
      · rw [create_eq_halves, bind_of_ok _ _ _ e]
        exact hfrom
  refine ⟨create_eq_halves d s shader_id, ⟨fun hab => ?_, fun hcomp => ?_⟩, hright⟩
  · cases hgen : generate_sources (d.gfx_cc_get_features shader_id) with
    | error e =>
      rw [create_generation_fault d s shader_id e hgen] at hab
      obtain rfl := Except.error.inj hab
      exact absurd hgen (na_generate_sources _)
    | ok src =>
      rcases create_until_slot_cases d s shader_id src hgen with ⟨_, h⟩ | ⟨vertex, fragment,
        _, _, ev, ef, _⟩
      · exact ⟨src, rfl, h⟩
      · obtain ⟨_, _, _, _, _, _, _, hoob⟩ := hright src vertex fragment hgen ev ef
        rw [hoob] at hab
        cases hab
  · obtain ⟨src, hgen, h⟩ := hcomp
    rcases create_until_slot_cases d s shader_id src hgen with ⟨e, _⟩ | ⟨vertex, fragment,
      _, _, ev, ef, _⟩
    · rw [create_eq_halves, e]
      rfl
    · rcases h with h | ⟨v, hv, h⟩
      · rw [ev] at h
        cases h
      · rw [ev] at hv
        obtain rfl := Except.ok.inj hv
        rw [ef] at h
        cases h

/-- Witness for C12 (amended): in the pool with the ids 1 to 64, the create
call for the new id 100 ends in the store outside the pool when the driver
compiles both shaders, and in `abort()` when the driver rejects them. -/
theorem create_in_full_pool_has_no_check_witness :
    gfx_vitagl_create_and_load_new_shader (sample_driver single_texel0_descriptor)
      full_pool_state 100 = .error .out_of_bounds ∧
    gfx_vitagl_create_and_load_new_shader (rejecting_driver single_texel0_descriptor)
      full_pool_state 100 = .error .aborted := by
  obtain ⟨vs, fs, e, _⟩ := generate_sources_fits single_texel0_descriptor (by decide)
    (by decide) (fun h => absurd h.1 (by decide))
  obtain ⟨v, ev⟩ := compile_stage_ok (sample_driver single_texel0_descriptor)
    ShaderKind.vertex vs full_pool_state.gl (fun _ _ => rfl)
  obtain ⟨fr, ef⟩ := compile_stage_ok (sample_driver single_texel0_descriptor)
    ShaderKind.fragment fs v.2 (fun _ _ => rfl)
  constructor
  · obtain ⟨_, _, _, _, _, _, _, h⟩ := (create_in_full_pool_has_no_check
      (sample_driver single_texel0_descriptor) full_pool_state 100 (by decide) rfl).2.2
      (vs, fs) v fr e ev ef
    exact h
  · exact (create_in_full_pool_has_no_check (rejecting_driver single_texel0_descriptor)
      full_pool_state 100 (by decide) rfl).2.1.mpr ⟨(vs, fs), e, Or.inl rfl⟩

/-! ## Two programs in the pool -/

/-- C13: in a pool with at least two free slots that holds neither of two
different formula ids, after creating the first and then the second, lookup
finds each at its own slot and the two slots differ; creating the second
leaves the entry of the first as it was; and `gfx_vitagl_shader_get_info`
returns for each entry the `num_inputs` and `used_textures[0..1]` of its own
descriptor, `num_inputs` being a value that the 8-bit field holds. -/
theorem two_creations_are_independent (d : Driver) (s s1 s2 : GfxState) (id1 id2 p1 p2 : Nat)
    (hsize : s.shader_program_pool_size + 2 ≤ 64)
    (hne : id1 ≠ id2)
    (hnew : ∀ j entry, j < s.shader_program_pool_size →
      s.shader_program_pool.get? j = some entry →
      entry.shader_id ≠ id1 ∧ entry.shader_id ≠ id2)
    (hn1 : (d.gfx_cc_get_features id1).num_inputs < 256)
    (hn2 : (d.gfx_cc_get_features id2).num_inputs < 256)
    (e1 : gfx_vitagl_create_and_load_new_shader d s id1 = .ok (p1, s1))
    (e2 : gfx_vitagl_create_and_load_new_shader d s1 id2 = .ok (p2, s2)) :
    gfx_vitagl_lookup_shader s2 id1 = .ok (some p1, s2) ∧
    gfx_vitagl_lookup_shader s2 id2 = .ok (some p2, s2) ∧
    p1 ≠ p2 ∧
    s2.shader_program_pool.get? p1 = s1.shader_program_pool.get? p1 ∧
    ∃ prg1 prg2, s2.shader_program_pool.get? p1 = some prg1 ∧
      s2.shader_program_pool.get? p2 = some prg2 ∧
      gfx_vitagl_shader_get_info prg1
        = ((d.gfx_cc_get_features id1).num_inputs, (d.gfx_cc_get_features id1).used_textures0,
            (d.gfx_cc_get_features id1).used_textures1) ∧
      gfx_vitagl_shader_get_info prg2
        = ((d.gfx_cc_get_features id2).num_inputs, (d.gfx_cc_get_features id2).used_textures0,
            (d.gfx_cc_get_features id2).used_textures1) := by
  obtain ⟨_, v1, fr1, entry1, a1, gl1, _, _, _, hslot1, _, _, rfl, hpool1, hsz1, _⟩ :=
    create_inv d s id1 p1 s1 e1
  obtain ⟨_, v2, fr2, entry2, a2, gl2, _, _, _, hslot2, _, _, rfl, hpool2, hsz2, _⟩ :=
    create_inv d s1 id2 p2 s2 e2
  have hs1 : s1.shader_program_pool_size = s.shader_program_pool_size + 1 := by
    rw [hsz1]; unfold to_uint8; omega
  have hs2 : s2.shader_program_pool_size = s.shader_program_pool_size + 2 := by
    rw [hsz2, hs1]; unfold to_uint8; omega
  have hlt1 : s.shader_program_pool_size < s.shader_program_pool.length :=
    (List.get?_eq_some.mp hslot1).1
  have hlt2 : s1.shader_program_pool_size < s1.shader_program_pool.length :=
    (List.get?_eq_some.mp hslot2).1
  have hlen1 : s1.shader_program_pool.length = s.shader_program_pool.length := by
    rw [hpool1, List.length_set]
  have hold : ∀ j, j < s.shader_program_pool_size →
      ∃ e0, s2.shader_program_pool.get? j = some e0 ∧ e0.shader_id ≠ id1
        ∧ e0.shader_id ≠ id2 := by
    intro j hj
    have hjl : j < s.shader_program_pool.length := by omega
    have h0 := hnew j _ hj (List.get?_eq_get hjl)
    refine ⟨_, ?_, h0.1, h0.2⟩
    rw [hpool2, get?_set_other _ _ _ _ (by omega), hpool1, get?_set_other _ _ _ _ (by omega)]
    exact List.get?_eq_get hjl
  have hfirst1 : s1.shader_program_pool.get? s.shader_program_pool_size
      = some (created_entry d id1 (attach_stages d v1.1 fr1.1 fr1.2).1 a1
          (gfx_vitagl_set_uniforms s.frame_count s.window_height
            (fill_entry (d.gfx_cc_get_features id1) id1 (attach_stages d v1.1 fr1.1 fr1.2).1
              (vertex_num_floats (d.gfx_cc_get_features id1)) a1) gl1)) := by
    rw [hpool1]; exact get?_set_same _ _ _ hlt1
  have hkeep : s2.shader_program_pool.get? s.shader_program_pool_size
      = s1.shader_program_pool.get? s.shader_program_pool_size := by
    rw [hpool2, get?_set_other _ _ _ _ (by omega)]
  have hsecond : s2.shader_program_pool.get? s1.shader_program_pool_size
      = some (created_entry d id2 (attach_stages d v2.1 fr2.1 fr2.2).1 a2
          (gfx_vitagl_set_uniforms s1.frame_count s1.window_height
            (fill_entry (d.gfx_cc_get_features id2) id2 (attach_stages d v2.1 fr2.1 fr2.2).1
              (vertex_num_floats (d.gfx_cc_get_features id2)) a2) gl2)) := by
    rw [hpool2]; exact get?_set_same _ _ _ hlt2
  have hf1 := created_entry_fields d id1 (attach_stages d v1.1 fr1.1 fr1.2).1 a1
    (gfx_vitagl_set_uniforms s.frame_count s.window_height
      (fill_entry (d.gfx_cc_get_features id1) id1 (attach_stages d v1.1 fr1.1 fr1.2).1
        (vertex_num_floats (d.gfx_cc_get_features id1)) a1) gl1)
  have hf2 := created_entry_fields d id2 (attach_stages d v2.1 fr2.1 fr2.2).1 a2
    (gfx_vitagl_set_uniforms s1.frame_count s1.window_height
      (fill_entry (d.gfx_cc_get_features id2) id2 (attach_stages d v2.1 fr2.1 fr2.2).1
        (vertex_num_floats (d.gfx_cc_get_features id2)) a2) gl2)
  refine ⟨?_, ?_, by omega, hkeep, _, _, hkeep.trans hfirst1, hsecond, ?_, ?_⟩
  · unfold gfx_vitagl_lookup_shader
    rw [lookup_from_hit s2.shader_program_pool id1 s2.shader_program_pool_size 0
      s.shader_program_pool_size _ (hkeep.trans hfirst1) hf1.1 (by omega) (by omega)
      (fun j _ hj => by
        obtain ⟨e0, h0, h1, _⟩ := hold j hj
        exact ⟨e0, h0, h1⟩)]
    rfl
  · unfold gfx_vitagl_lookup_shader
    rw [lookup_from_hit s2.shader_program_pool id2 s2.shader_program_pool_size 0
      s1.shader_program_pool_size _ hsecond hf2.1 (by omega) (by omega)
      (fun j _ hj => by
        by_cases hjs : j = s.shader_program_pool_size
        · subst hjs
          exact ⟨_, hkeep.trans hfirst1, by rw [hf1.1]; exact hne⟩
        · obtain ⟨e0, h0, _, h2⟩ := hold j (by omega)
          exact ⟨e0, h0, h2⟩)]
    rfl
  · unfold gfx_vitagl_shader_get_info
    rw [hf1.2.2.1, hf1.2.2.2.1, hf1.2.2.2.2.1]
    unfold to_uint8
    rw [Nat.mod_eq_of_lt hn1]
  · unfold gfx_vitagl_shader_get_info
    rw [hf2.2.2.1, hf2.2.2.2.1, hf2.2.2.2.2.1]
    unfold to_uint8
    rw [Nat.mod_eq_of_lt hn2]

/-- Witness for C13: the ids 7 and 8, with different descriptors, created one
after the other in the initial pool. -/
theorem two_creations_are_independent_witness :
    ∃ p1 s1 p2 s2,
      gfx_vitagl_create_and_load_new_shader two_formula_driver GfxState.init 7 = .ok (p1, s1) ∧
      gfx_vitagl_create_and_load_new_shader two_formula_driver s1 8 = .ok (p2, s2) ∧
      gfx_vitagl_lookup_shader s2 7 = .ok (some p1, s2) ∧
      gfx_vitagl_lookup_shader s2 8 = .ok (some p2, s2) ∧
      p1 ≠ p2 ∧
      ∃ prg1 prg2, s2.shader_program_pool.get? p1 = some prg1 ∧
        s2.shader_program_pool.get? p2 = some prg2 ∧
        gfx_vitagl_shader_get_info prg1 = (1, true, false) ∧
        gfx_vitagl_shader_get_info prg2 = (2, true, true) := by
  obtain ⟨s1, e1⟩ := create_succeeds two_formula_driver GfxState.init 7
    ShaderProgram.zero (by decide) (by decide) (fun h => absurd h.1 (by decide))
    (fun _ _ => rfl) init_slot zero_arrays_of_seven
  obtain ⟨_, _, _, _, _, _, _, _, _, _, _, _, _, hpool1, hsz1, _⟩ :=
    create_inv two_formula_driver GfxState.init 7 _ s1 e1
  have hslot : s1.shader_program_pool.get? s1.shader_program_pool_size
      = some ShaderProgram.zero := by
    rw [hpool1, hsz1]
    have h1 : to_uint8 (GfxState.init.shader_program_pool_size + 1) = 1 := by decide
    rw [h1, get?_set_other _ _ _ _ (by decide)]
    decide
  obtain ⟨s2, e2⟩ := create_succeeds two_formula_driver s1 8
    ShaderProgram.zero (by decide) (by decide) (fun h => absurd h.2.2.1 (by decide))
    (fun _ _ => rfl) hslot zero_arrays_of_seven
  obtain ⟨h1, h2, h3, _, prg1, prg2, h5, h6, h7, h8⟩ :=
    two_creations_are_independent two_formula_driver GfxState.init s1 s2 7 8 _ _ (by decide)
      (by decide) (fun j _ hj => absurd hj (Nat.not_lt_zero j)) (by decide) (by decide) e1 e2
  exact ⟨_, s1, _, s2, e1, e2, h1, h2, h3, prg1, prg2, h5, h6, h7, h8⟩

/-! ## Wrap modes -/

/-- The test `val & mask` for a mask of one bit. -/
theorem and_two_pow_ne_zero (val a : Nat) : val &&& 2 ^ a ≠ 0 ↔ val.testBit a = true := by
  constructor
  · intro h
    obtain ⟨i, hi⟩ := Nat.ne_zero_implies_bit_true h
    rw [Nat.testBit_and, Nat.testBit_two_pow] at hi
    simp only [Bool.and_eq_true, decide_eq_true_eq] at hi
    obtain ⟨h1, rfl⟩ := hi
    exact h1
  · intro h h0
    have : (val &&& 2 ^ a).testBit a = true := by
      rw [Nat.testBit_and, Nat.testBit_two_pow_self, h]
      rfl
    rw [h0, Nat.zero_testBit] at this
    cases this

/-- C15: with the clamp flag and the mirror flag each a single bit and the
three wrap modes different values, `gfx_cm_to_opengles` returns clamp-to-edge
exactly when the clamp bit is set, whatever the mirror bit; mirrored-repeat
exactly when the clamp bit is clear and the mirror bit set; repeat exactly when
both are clear; and two flag words that agree on these two bits give the same
result. -/
theorem wrap_mode_from_two_bits (k : WrapConstants) (a b val : Nat)
    (hc : k.G_TX_CLAMP = 2 ^ a) (hm : k.G_TX_MIRROR = 2 ^ b)
    (h1 : k.GL_CLAMP_TO_EDGE ≠ k.GL_MIRRORED_REPEAT) (h2 : k.GL_CLAMP_TO_EDGE ≠ k.GL_REPEAT)
    (h3 : k.GL_MIRRORED_REPEAT ≠ k.GL_REPEAT) :
    (gfx_cm_to_opengles k val = k.GL_CLAMP_TO_EDGE ↔ val.testBit a = true) ∧
    (gfx_cm_to_opengles k val = k.GL_MIRRORED_REPEAT
      ↔ val.testBit a = false ∧ val.testBit b = true) ∧
    (gfx_cm_to_opengles k val = k.GL_REPEAT ↔ val.testBit a = false ∧ val.testBit b = false) ∧
    (∀ val1, val1.testBit a = val.testBit a → val1.testBit b = val.testBit b →
      gfx_cm_to_opengles k val1 = gfx_cm_to_opengles k val) := by
  have key : ∀ v, gfx_cm_to_opengles k v
      = if v.testBit a = true then k.GL_CLAMP_TO_EDGE
        else if v.testBit b = true then k.GL_MIRRORED_REPEAT else k.GL_REPEAT := by
    intro v
    unfold gfx_cm_to_opengles
    rw [hc, hm]
    simp only [and_two_pow_ne_zero]
  refine ⟨?_, ?_, ?_, ?_⟩
  · rw [key]
    cases val.testBit a <;> cases val.testBit b <;> simp [h1, h2, h3, Ne.symm h1, Ne.symm h2, Ne.symm h3]
  · rw [key]
    cases val.testBit a <;> cases val.testBit b <;> simp [h1, h2, h3, Ne.symm h1, Ne.symm h2, Ne.symm h3]
  · rw [key]
    cases val.testBit a <;> cases val.testBit b <;> simp [h1, h2, h3, Ne.symm h1, Ne.symm h2, Ne.symm h3]
  · intro val1 e1 e2
    rw [key, key, e1, e2]

/-- Witness for C15: with the header values (clamp is bit 1, mirror is bit 0)
the flag word with both bits set gives clamp-to-edge. -/
theorem wrap_mode_from_two_bits_witness :
    gfx_cm_to_opengles header_constants 3 = header_constants.GL_CLAMP_TO_EDGE :=
  (wrap_mode_from_two_bits header_constants 1 0 3 rfl rfl (by decide) (by decide)
    (by decide)).1.mpr (by decide)

/-! ## The attribute slots bound by lines 371-400 -/

theorem bind_calls_snoc (program i : Nat) (items : List (String × Nat)) (item : String × Nat) :
    bind_calls program i (items ++ [item])
      = bind_calls program i items ++ [GLCall.bindAttribLocation program (i + items.length) item.1] := by
  induction items generalizing i with
  | nil => simp [bind_calls]
  | cons x xs ih =>
    have h := ih (i + 1)
    have e : i + 1 + xs.length = i + (xs.length + 1) := by omega
    rw [e] at h
    show GLCall.bindAttribLocation program i x.1 :: bind_calls program (i + 1) (xs ++ [item]) = _
    rw [h]
    rfl

theorem set_prefix_drop {α : Type} (pre l : List α) (v : α) (h : pre.length < l.length) :
    (pre ++ l.drop pre.length).set pre.length v = (pre ++ [v]) ++ l.drop (pre.length + 1) := by
  rw [List.set_append_right _ _ (le_refl _), Nat.sub_self, List.drop_eq_getElem_cons h,
    List.set_cons_zero, List.append_assoc]
  rfl

theorem bound_start (program : Nat) (entry : ShaderProgram) (gl : List GLCall) :
    Bound program entry gl [] { prg := entry, cnt := 0, gl := gl } := by
  refine ⟨rfl, by simp [bind_calls], Nat.zero_le _, Nat.zero_le _, ?_⟩
  simp

/-- One group of lines 374-377 extends the bound slots by one. -/
theorem bound_step (program : Nat) (entry : ShaderProgram) (gl : List GLCall)
    (items : List (String × Nat)) (name : String) (size : Nat) (a a1 : AttribState)
    (h : Bound program entry gl items a) (e : bind_attrib program name size a = .ok a1) :
    Bound program entry gl (items ++ [(name, size)]) a1 := by
  obtain ⟨hc, hg, hl, hs, hp⟩ := h
  unfold bind_attrib at e
  split at e
  · rename_i hlt
    simp only [Except.ok.injEq] at e
    subst e
    rw [hp] at hlt
    simp only [List.length_append, List.length_map, List.length_range, List.length_drop] at hlt
    have hl1 : items.length < entry.attrib_locations.length := by omega
    have hs1 : items.length < entry.attrib_sizes.length := by omega
    refine ⟨by simp [hc], ?_, by simp; omega, by simp; omega, ?_⟩
    · simp only [hg, hc, bind_calls_snoc, Nat.zero_add, List.append_assoc]
    · simp only [hp, hc, List.length_append, List.length_singleton, List.map_append,
        List.map_cons, List.map_nil, List.range_succ]
      have e1 := set_prefix_drop ((List.range items.length).map (fun (i : Nat) => (i : Int)))
        entry.attrib_locations (items.length : Int) (by simpa using hl1)
      have e2 := set_prefix_drop (items.map (fun item => to_uint8 item.2))
        entry.attrib_sizes (to_uint8 size) (by simpa using hs1)
      simp only [List.length_map, List.length_range] at e1 e2
      rw [e1, e2]
  · cases e

theorem bound_input_step (f : CCFeatures) (program : Nat) (entry : ShaderProgram)
    (gl : List GLCall) (items : List (String × Nat)) (i : Nat) (a a1 : AttribState)
    (h : Bound program entry gl items a) (e : bind_input_attrib f program i a = .ok a1) :
    Bound program entry gl (items ++ [("aInput" ++ fmt_d (i + 1), input_width f)]) a1 := by
  unfold bind_input_attrib at e
  simp only at e
  split at e
  · exact bound_step program entry gl items _ _ a a1 h e
  · cases e

/-- Whatever lines 371-400 return has bound exactly the slots of the layout,
in its order. -/
theorem bind_attribs_sound (f : CCFeatures) (program : Nat) (entry : ShaderProgram)
    (gl : List GLCall) (a : AttribState)
    (e : bind_attribs f program { prg := entry, cnt := 0, gl := gl } = .ok a) :
    Bound program entry gl (attrib_layout f) a := by
  unfold bind_attribs at e
  obtain ⟨a1, e1, e⟩ := bind_eq_ok _ _ _ e
  obtain ⟨a2, e2, e⟩ := bind_eq_ok _ _ _ e
  obtain ⟨a3, e3, e⟩ := bind_eq_ok _ _ _ e
  have h1 := bound_step program entry gl [] _ _ _ a1 (bound_start program entry gl) e1
  have h2 : Bound program entry gl ([("aVtxPos", 4)]
      ++ (if f.used_textures0 || f.used_textures1 then [("aTexCoord", 2)] else [])) a2 := by
    split at e2
    · rename_i ht
      rw [if_pos ht]
      exact bound_step program entry gl _ _ _ a1 a2 h1 e2
    · rename_i ht
      rw [if_neg ht]
      simp only [Except.ok.injEq] at e2
      subst e2
      simpa using h1
  have h3 : Bound program entry gl (([("aVtxPos", 4)]
      ++ (if f.used_textures0 || f.used_textures1 then [("aTexCoord", 2)] else []))
      ++ (if f.opt_fog then [("aFog", 4)] else [])) a3 := by
    split at e3
    · rename_i ht
      rw [if_pos ht]
      exact bound_step program entry gl _ _ _ a2 a3 h2 e3
    · rename_i ht
      rw [if_neg ht]
      simp only [Except.ok.injEq] at e3
      subst e3
      simpa using h2
  have h4 := for_loop_sound (bind_input_attrib f program)
    (fun i st => Bound program entry gl ((([("aVtxPos", 4)]
      ++ (if f.used_textures0 || f.used_textures1 then [("aTexCoord", 2)] else []))
      ++ (if f.opt_fog then [("aFog", 4)] else []))
      ++ (List.range i).map fun i => ("aInput" ++ fmt_d (i + 1), input_width f)) st)
    (fun i st st1 hI hb => by
      have := bound_input_step f program entry gl _ i st st1 hI hb
      simpa [List.range_succ] using this)
    f.num_inputs 0 a3 a (by simpa using h3) e
  simp only [Nat.zero_add] at h4
  unfold attrib_layout
  simpa [List.append_assoc] using h4

/-! ## The calls of `gfx_vitagl_vertex_array_set_attribs` and `gfx_vitagl_load_shader` -/

theorem get?_eq_getD {α : Type} (l : List α) (i : Nat) (d : α) (h : i < l.length) :
    l.get? i = some (l.getD i d) := by
  rw [List.getD_eq_getElem?_getD, List.get?_eq_getElem?, List.getElem?_eq_getElem h]
  rfl

/-- The loop of `gfx_vitagl_vertex_array_set_attribs` over `k` attributes
that lie within the two arrays: it ends with `pos` at the sum of their widths. -/
theorem set_attrib_loop (prg : ShaderProgram) (gl : List GLCall) (k : Nat)
    (hl : k ≤ prg.attrib_locations.length) (hs : k ≤ prg.attrib_sizes.length) :
    for_loop (set_attrib prg) k 0 { pos := 0, gl := gl }
      = .ok { pos := (prg.attrib_sizes.take k).sum,
              gl := gl ++ (List.range k).flatMap (attrib_pointer_calls prg) } := by
  obtain ⟨st, e, hI⟩ := for_loop_invariant (set_attrib prg)
    (fun i st => st = { pos := (prg.attrib_sizes.take i).sum,
                        gl := gl ++ (List.range i).flatMap (attrib_pointer_calls prg) }) k
    (fun i st hi hI => by
      have h1 : i < prg.attrib_locations.length := by omega
      have h2 : i < prg.attrib_sizes.length := by omega
      subst hI
      unfold set_attrib
      rw [get?_eq_getD _ i 0 h1, get?_eq_getD _ i 0 h2]
      refine ⟨_, rfl, ?_⟩
      have hsum : (prg.attrib_sizes.take (i + 1)).sum
          = (prg.attrib_sizes.take i).sum + prg.attrib_sizes.getD i 0 := by
        rw [List.sum_take_succ _ _ h2, List.getD_eq_getElem?_getD, List.getElem?_eq_getElem h2]
        rfl
      simp only [hsum, List.range_succ, List.flatMap_append, List.flatMap_singleton,
        List.append_assoc, attrib_pointer_calls])
    k 0 { pos := 0, gl := gl } (by omega) (by simp)
  rw [e, hI]
  simp

theorem set_attribs_eq (prg : ShaderProgram) (gl : List GLCall)
    (hl : prg.num_attribs ≤ prg.attrib_locations.length)
    (hs : prg.num_attribs ≤ prg.attrib_sizes.length) :
    gfx_vitagl_vertex_array_set_attribs prg gl = .ok (gl ++ set_attribs_calls prg) := by
  unfold gfx_vitagl_vertex_array_set_attribs
  rw [set_attrib_loop prg gl prg.num_attribs hl hs]
  rfl

theorem load_shader_eq (s : GfxState) (prg : ShaderProgram)
    (hl : prg.num_attribs ≤ prg.attrib_locations.length)
    (hs : prg.num_attribs ≤ prg.attrib_sizes.length) :
    gfx_vitagl_load_shader s prg
      = .ok { s with gl := (gfx_vitagl_set_uniforms s.frame_count s.window_height prg
                (s.gl ++ [GLCall.useProgram prg.opengl_program_id] ++ set_attribs_calls prg)) } := by
  unfold gfx_vitagl_load_shader
  rw [set_attribs_eq prg _ hl hs]
  rfl

/-! ## The outcome of a successful create call -/

theorem compile_stage_inv (d : Driver) (kind : ShaderKind) (src : CharBuf) (gl : List GLCall)
    (r : Nat × List GLCall) (e : compile_stage d kind src gl = .ok r) :
    r.2 = gl ++ [GLCall.createShader kind, GLCall.shaderSource r.1 src.text,
      GLCall.compileShader r.1] := by
  unfold compile_stage at e
  simp only at e
  split at e
  · simp only [Except.ok.injEq] at e
    subst e
    rfl
  · cases e

theorem set_uniforms_eq (frame_count window_height : Nat) (prg : ShaderProgram)
    (gl : List GLCall) :
    gfx_vitagl_set_uniforms frame_count window_height prg gl
      = gl ++ (if prg.used_noise then
          [GLCall.uniform1i prg.frame_count_location (to_GLint frame_count),
           GLCall.uniform1i prg.window_height_location (to_GLint window_height)]
        else []) := by
  unfold gfx_vitagl_set_uniforms
  split <;> simp

theorem record_noise_trace (d : Driver) (f : CCFeatures) (program : Nat) (prg : ShaderProgram)
    (gl : List GLCall) :
    (record_noise d f program prg gl).2
      = gl ++ (if f.opt_alpha && f.opt_noise then
          [GLCall.getUniformLocation program "frame_count",
           GLCall.getUniformLocation program "window_height"]
        else []) := by
  unfold record_noise
  split <;> simp

/-- What a pool entry bound to the layout looks like when it is loaded at
line 417: the counters and arrays of the layout, within the arrays. -/
theorem bound_fill_entry (f : CCFeatures) (shader_id program num_floats : Nat)
    (entry : ShaderProgram) (gl : List GLCall) (a : AttribState)
    (h : Bound program entry gl (attrib_layout f) a) :
    (fill_entry f shader_id program num_floats a).attrib_locations
      = (List.range (attrib_layout f).length).map (fun (i : Nat) => (i : Int))
        ++ entry.attrib_locations.drop (attrib_layout f).length ∧
    (fill_entry f shader_id program num_floats a).attrib_sizes
      = (attrib_layout f).map (fun item => to_uint8 item.2)
        ++ entry.attrib_sizes.drop (attrib_layout f).length ∧
    (fill_entry f shader_id program num_floats a).num_attribs
      = to_uint8 (attrib_layout f).length ∧
    (fill_entry f shader_id program num_floats a).num_attribs
      ≤ (fill_entry f shader_id program num_floats a).attrib_locations.length ∧
    (fill_entry f shader_id program num_floats a).num_attribs
      ≤ (fill_entry f shader_id program num_floats a).attrib_sizes.length ∧
    (fill_entry f shader_id program num_floats a).used_noise = entry.used_noise ∧
    (fill_entry f shader_id program num_floats a).frame_count_location
      = entry.frame_count_location ∧
    (fill_entry f shader_id program num_floats a).window_height_location
      = entry.window_height_location := by
  obtain ⟨hc, _, hl, hs, hp⟩ := h
  have hle : to_uint8 (attrib_layout f).length ≤ (attrib_layout f).length := by
    unfold to_uint8
    exact Nat.mod_le _ _
  unfold fill_entry
  simp only [hp, hc]
  refine ⟨trivial, trivial, trivial, ?_, ?_, trivial, trivial, trivial⟩
  · simp only [List.length_append, List.length_map, List.length_range, List.length_drop]
    omega
  · simp only [List.length_append, List.length_map, List.length_drop]
    omega

/-- A successful create call: the slot it takes, the entry it leaves there and
the driver calls it makes. -/
theorem create_outcome (d : Driver) (s : GfxState) (shader_id p : Nat) (s1 : GfxState)
    (e : gfx_vitagl_create_and_load_new_shader d s shader_id = .ok (p, s1)) :
    ∃ (src : CharBuf × CharBuf) (vertex_shader fragment_shader program : Nat)
      (entry filled : ShaderProgram) (a : AttribState) (gl : List GLCall),
      generate_sources (d.gfx_cc_get_features shader_id) = .ok src ∧
      s.shader_program_pool.get? s.shader_program_pool_size = some entry ∧
      p = s.shader_program_pool_size ∧
      Bound program entry
        (s.gl ++ [GLCall.createShader ShaderKind.vertex,
          GLCall.shaderSource vertex_shader src.1.text, GLCall.compileShader vertex_shader,
          GLCall.createShader ShaderKind.fragment,
          GLCall.shaderSource fragment_shader src.2.text, GLCall.compileShader fragment_shader,
          GLCall.createProgram, GLCall.attachShader program vertex_shader,
          GLCall.attachShader program fragment_shader])
        (attrib_layout (d.gfx_cc_get_features shader_id)) a ∧
      filled = fill_entry (d.gfx_cc_get_features shader_id) shader_id program
        (vertex_num_floats (d.gfx_cc_get_features shader_id)) a ∧
      gl = s.gl ++ creation_calls (d.gfx_cc_get_features shader_id) vertex_shader
        fragment_shader program src.1.text src.2.text filled s.frame_count s.window_height ∧
      s1.shader_program_pool.get? p
        = some (record_noise d (d.gfx_cc_get_features shader_id) program filled gl).1 ∧
      s1.gl = (record_noise d (d.gfx_cc_get_features shader_id) program filled gl).2 := by
  unfold gfx_vitagl_create_and_load_new_shader at e
  simp only at e
  obtain ⟨src, e1, e⟩ := bind_eq_ok _ _ _ e
  obtain ⟨vertex, e2, e⟩ := bind_eq_ok _ _ _ e
  obtain ⟨fragment, e3, e⟩ := bind_eq_ok _ _ _ e
  cases hslot : s.shader_program_pool.get? s.shader_program_pool_size with
  | none => rw [hslot] at e; cases e
  | some entry =>
    rw [hslot] at e
    simp only at e
    obtain ⟨a, e4, e⟩ := bind_eq_ok _ _ _ e
    obtain ⟨s2, e5, e⟩ := bind_eq_ok _ _ _ e
    have hb := bind_attribs_sound _ _ _ _ a e4
    have hv := compile_stage_inv d _ _ _ vertex e2
    have hf := compile_stage_inv d _ _ _ fragment e3
    have hfill := bound_fill_entry (d.gfx_cc_get_features shader_id) shader_id
      (attach_stages d vertex.1 fragment.1 fragment.2).1
      (vertex_num_floats (d.gfx_cc_get_features shader_id)) entry _ a hb
    rw [load_shader_eq _ _ hfill.2.2.2.1 hfill.2.2.2.2.1] at e5
    simp only [Except.ok.injEq] at e5
    subst e5
    simp only [Except.ok.injEq, Prod.mk.injEq] at e
    obtain ⟨rfl, rfl⟩ := e
    have hlt : s.shader_program_pool_size < s.shader_program_pool.length :=
      (List.get?_eq_some.mp hslot).1
    have hgl0 : (attach_stages d vertex.1 fragment.1 fragment.2).2
        = s.gl ++ [GLCall.createShader ShaderKind.vertex,
          GLCall.shaderSource vertex.1 src.1.text, GLCall.compileShader vertex.1,
          GLCall.createShader ShaderKind.fragment,
          GLCall.shaderSource fragment.1 src.2.text, GLCall.compileShader fragment.1,
          GLCall.createProgram,
          GLCall.attachShader (attach_stages d vertex.1 fragment.1 fragment.2).1 vertex.1,
          GLCall.attachShader (attach_stages d vertex.1 fragment.1 fragment.2).1 fragment.1] := by
      unfold attach_stages
      simp only [hf, hv, List.append_assoc, List.cons_append, List.nil_append]
    rw [hgl0] at hb
    have hid : (fill_entry (d.gfx_cc_get_features shader_id) shader_id
        (attach_stages d vertex.1 fragment.1 fragment.2).1
        (vertex_num_floats (d.gfx_cc_get_features shader_id)) a).opengl_program_id
        = (attach_stages d vertex.1 fragment.1 fragment.2).1 := rfl
    have hkey : gfx_vitagl_set_uniforms s.frame_count s.window_height
        (fill_entry (d.gfx_cc_get_features shader_id) shader_id
          (attach_stages d vertex.1 fragment.1 fragment.2).1
          (vertex_num_floats (d.gfx_cc_get_features shader_id)) a)
        (a.gl ++ [GLCall.linkProgram (attach_stages d vertex.1 fragment.1 fragment.2).1]
          ++ [GLCall.useProgram (fill_entry (d.gfx_cc_get_features shader_id) shader_id
                (attach_stages d vertex.1 fragment.1 fragment.2).1
                (vertex_num_floats (d.gfx_cc_get_features shader_id)) a).opengl_program_id]
          ++ set_attribs_calls (fill_entry (d.gfx_cc_get_features shader_id) shader_id
              (attach_stages d vertex.1 fragment.1 fragment.2).1
              (vertex_num_floats (d.gfx_cc_get_features shader_id)) a))
        = s.gl ++ creation_calls (d.gfx_cc_get_features shader_id) vertex.1 fragment.1
            (attach_stages d vertex.1 fragment.1 fragment.2).1 src.1.text src.2.text
            (fill_entry (d.gfx_cc_get_features shader_id) shader_id
              (attach_stages d vertex.1 fragment.1 fragment.2).1
              (vertex_num_floats (d.gfx_cc_get_features shader_id)) a)
            s.frame_count s.window_height := by
      rw [set_uniforms_eq, hb.2.1, hid]
      unfold creation_calls
      simp only [List.append_assoc, List.cons_append, List.nil_append]
    refine ⟨src, vertex.1, fragment.1, (attach_stages d vertex.1 fragment.1 fragment.2).1,
      entry, _, a, _, e1, rfl, rfl, hb, rfl, rfl, ?_, ?_⟩
    · simp only [List.set_set]
      rw [get?_set_same _ _ _ hlt, hkey]
    · simp only
      rw [hkey]

/-! ## The recorded attribute layout -/

theorem record_noise_entry (d : Driver) (f : CCFeatures) (program : Nat) (prg : ShaderProgram)
    (gl : List GLCall) :
    (record_noise d f program prg gl).1
      = { prg with
          used_noise := f.opt_alpha && f.opt_noise
          frame_count_location :=
            if f.opt_alpha && f.opt_noise then d.glGetUniformLocation gl program "frame_count"
            else prg.frame_count_location
          window_height_location :=
            if f.opt_alpha && f.opt_noise then
              d.glGetUniformLocation (gl ++ [GLCall.getUniformLocation program "frame_count"])
                program "window_height"
            else prg.window_height_location } := by
  unfold record_noise
  split
  · rename_i h
    simp [h]
  · rename_i h
    have h1 : (f.opt_alpha && f.opt_noise) = false := by simpa using h
    simp [h1]

theorem attrib_layout_length (f : CCFeatures) :
    (attrib_layout f).length
      = 1 + (if f.used_textures0 || f.used_textures1 then 1 else 0)
        + (if f.opt_fog then 1 else 0) + f.num_inputs := by
  unfold attrib_layout
  split <;> split <;> simp <;> omega

theorem attrib_layout_widths (f : CCFeatures) :
    (attrib_layout f).map Prod.snd
      = [4] ++ ((if f.used_textures0 || f.used_textures1 then [2] else [])
        ++ ((if f.opt_fog then [4] else [])
        ++ List.replicate f.num_inputs (if f.opt_alpha then 4 else 3))) := by
  have hrep : ∀ n, (List.range n).map (fun _ => input_width f)
      = List.replicate n (if f.opt_alpha then 4 else 3) := by
    intro n
    induction n with
    | zero => rfl
    | succ k ih =>
      rw [List.range_succ, List.map_append, ih, List.replicate_succ']
      rfl
  unfold attrib_layout
  simp only [List.map_append, List.map_map]
  rw [show (Prod.snd ∘ fun i => ("aInput" ++ fmt_d (i + 1), input_width f))
    = fun _ => input_width f from rfl, hrep]
  split <;> split <;> rfl

theorem attrib_layout_names (f : CCFeatures) :
    (attrib_layout f).map Prod.fst
      = ["aVtxPos"] ++ ((if f.used_textures0 || f.used_textures1 then ["aTexCoord"] else [])
        ++ ((if f.opt_fog then ["aFog"] else [])
        ++ (List.range f.num_inputs).map fun i => "aInput" ++ fmt_d (i + 1))) := by
  unfold attrib_layout
  simp only [List.map_append, List.map_map]
  rw [show (Prod.fst ∘ fun i => ("aInput" ++ fmt_d (i + 1), input_width f))
    = fun i => "aInput" ++ fmt_d (i + 1) from rfl]
  split <;> split <;> rfl

theorem attrib_layout_narrow (f : CCFeatures) :
    (attrib_layout f).map (fun item => to_uint8 item.2) = (attrib_layout f).map Prod.snd := by
  apply List.map_congr_left
  intro item hitem
  have hw : item.2 ≤ 4 := by
    have hm : item.2 ∈ (attrib_layout f).map Prod.snd := List.mem_map_of_mem _ hitem
    rw [attrib_layout_widths] at hm
    simp only [List.mem_append, List.mem_singleton, List.mem_replicate] at hm
    rcases hm with h | h | h | h
    · omega
    · split at h
      · simp only [List.mem_singleton] at h; omega
      · cases h
    · split at h
      · simp only [List.mem_singleton] at h; omega
      · cases h
    · have := h.2
      split at this <;> omega
  unfold to_uint8
  omega

theorem filter_bind_calls (program i : Nat) (items : List (String × Nat)) :
    (bind_calls program i items).filter is_bind_call = bind_calls program i items := by
  induction items generalizing i with
  | nil => rfl
  | cons x xs ih => simp [bind_calls, is_bind_call, ih]

theorem filter_set_attribs_calls (prg : ShaderProgram) :
    (set_attribs_calls prg).filter is_bind_call = [] := by
  unfold set_attribs_calls
  rw [List.filter_eq_nil_iff]
  intro c hc
  rw [List.mem_flatMap] at hc
  obtain ⟨i, _, hi⟩ := hc
  unfold attrib_pointer_calls at hi
  simp only [List.mem_cons, List.mem_singleton, List.not_mem_nil, or_false] at hi
  rcases hi with rfl | rfl <;> simp [is_bind_call]

theorem vs_declared_inputs_skeleton :
    ∀ n, n < 5 → ∀ t0 t1 fog alpha : Bool,
      vs_declared_inputs (vs_text (skeleton n t0 t1 fog alpha false false))
        = (attrib_layout (skeleton n t0 t1 fog alpha false false)).map attrib_declaration := by
  decide!

theorem vs_declared_inputs_eq (f : CCFeatures) (hn : f.num_inputs ≤ 4) :
    vs_declared_inputs (vs_text f) = (attrib_layout f).map attrib_declaration := by
  rw [vs_text_skeleton f]
  exact vs_declared_inputs_skeleton f.num_inputs (by omega) f.used_textures0 f.used_textures1
    f.opt_fog f.opt_alpha

/-- C14: for every descriptor with at most four inputs, the entry that a
successful create call returns has `num_attribs` = 1 + (any texture) + (fog)
+ `num_inputs`; its `attrib_locations[i]` is `i` for every slot below
`num_attribs`; its `attrib_sizes` are, in order, 4 for the position, 2 for the
texture coordinate iff a texture is used, 4 for the fog iff `opt_fog`, and 4
or 3 (with or without `opt_alpha`) for each colour input.  The names
`aVtxPos`, `aTexCoord`, `aFog`, `aInputK` are bound to the slots 0, 1, 2, ...
in this order by the `glBindAttribLocation` calls of the create call, which
makes no other such call, and the vertex source declares its inputs with these
names and widths in the same order. -/
theorem create_records_attribute_layout (d : Driver) (s : GfxState) (shader_id p : Nat)
    (s1 : GfxState) (hn : (d.gfx_cc_get_features shader_id).num_inputs ≤ 4)
    (e : gfx_vitagl_create_and_load_new_shader d s shader_id = .ok (p, s1)) :
    ∃ prg src, s1.shader_program_pool.get? p = some prg ∧
      generate_sources (d.gfx_cc_get_features shader_id) = .ok src ∧
      prg.num_attribs
        = 1 + (if (d.gfx_cc_get_features shader_id).used_textures0
                  || (d.gfx_cc_get_features shader_id).used_textures1 then 1 else 0)
          + (if (d.gfx_cc_get_features shader_id).opt_fog then 1 else 0)
          + (d.gfx_cc_get_features shader_id).num_inputs ∧
      (∀ i, i < prg.num_attribs → prg.attrib_locations.get? i = some (i : Int)) ∧
      prg.attrib_sizes.take prg.num_attribs
        = [4] ++ ((if (d.gfx_cc_get_features shader_id).used_textures0
                      || (d.gfx_cc_get_features shader_id).used_textures1 then [2] else [])
          ++ ((if (d.gfx_cc_get_features shader_id).opt_fog then [4] else [])
          ++ List.replicate (d.gfx_cc_get_features shader_id).num_inputs
              (if (d.gfx_cc_get_features shader_id).opt_alpha then 4 else 3))) ∧
      (attrib_layout (d.gfx_cc_get_features shader_id)).map Prod.fst
        = ["aVtxPos"] ++ ((if (d.gfx_cc_get_features shader_id).used_textures0
                      || (d.gfx_cc_get_features shader_id).used_textures1 then ["aTexCoord"]
                    else [])
          ++ ((if (d.gfx_cc_get_features shader_id).opt_fog then ["aFog"] else [])
          ++ (List.range (d.gfx_cc_get_features shader_id).num_inputs).map
              fun i => "aInput" ++ fmt_d (i + 1))) ∧
      (attrib_layout (d.gfx_cc_get_features shader_id)).map Prod.snd
        = prg.attrib_sizes.take prg.num_attribs ∧
      (s1.gl.drop s.gl.length).filter is_bind_call
        = bind_calls prg.opengl_program_id 0 (attrib_layout (d.gfx_cc_get_features shader_id)) ∧
      vs_declared_inputs src.1.text
        = (attrib_layout (d.gfx_cc_get_features shader_id)).map attrib_declaration := by
  obtain ⟨src, vsh, fsh, program, entry, filled, a, gl, hgen, hslot, rfl, hb, hfilled, hgl,
    hprg, hs1⟩ := create_outcome d s shader_id p s1 e
  obtain ⟨hlocs, hsizes, hcnt, _, _, _⟩ := bound_fill_entry (d.gfx_cc_get_features shader_id)
    shader_id program (vertex_num_floats (d.gfx_cc_get_features shader_id)) entry _ a hb
  rw [← hfilled] at hlocs hsizes hcnt
  have hlen := attrib_layout_length (d.gfx_cc_get_features shader_id)
  have hlen7 : (attrib_layout (d.gfx_cc_get_features shader_id)).length ≤ 7 := by
    rw [hlen]; split <;> split <;> omega
  have hcnt1 : filled.num_attribs = (attrib_layout (d.gfx_cc_get_features shader_id)).length := by
    rw [hcnt]; unfold to_uint8; omega
  have hid : filled.opengl_program_id = program := by rw [hfilled]; rfl
  have htake : filled.attrib_sizes.take filled.num_attribs
      = (attrib_layout (d.gfx_cc_get_features shader_id)).map Prod.snd := by
    rw [hsizes, hcnt1, attrib_layout_narrow]
    exact List.take_left' (by simp)
  obtain ⟨vs, fs⟩ := src
  have hvs := (generate_sources_sound _ vs fs hgen).1
  refine ⟨_, (vs, fs), hprg, hgen, ?_, ?_, ?_, attrib_layout_names _, ?_, ?_, ?_⟩
  · rw [record_noise_entry]
    show filled.num_attribs = _
    rw [hcnt1, hlen]
  · rw [record_noise_entry]
    show ∀ i, i < filled.num_attribs → filled.attrib_locations.get? i = some (i : Int)
    intro i hi
    rw [hcnt1] at hi
    rw [hlocs, List.get?_eq_getElem?, List.getElem?_append_left (by simpa using hi)]
    simp [hi]
  · rw [record_noise_entry]
    show filled.attrib_sizes.take filled.num_attribs = _
    rw [htake, attrib_layout_widths]
  · rw [record_noise_entry]
    exact htake.symm
  · rw [record_noise_entry, hs1, record_noise_trace, hgl]
    show (List.drop s.gl.length _).filter is_bind_call = bind_calls filled.opengl_program_id 0 _
    rw [hid, List.append_assoc, List.drop_left]
    unfold creation_calls
    simp only [List.filter_append, filter_bind_calls, filter_set_attribs_calls]
    have h9 : ∀ (k : ShaderKind) (x y : Nat) (t u : List Char),
        List.filter is_bind_call [GLCall.createShader ShaderKind.vertex, GLCall.shaderSource x t,
          GLCall.compileShader x, GLCall.createShader ShaderKind.fragment,
          GLCall.shaderSource y u, GLCall.compileShader y, GLCall.createProgram,
          GLCall.attachShader program x, GLCall.attachShader program y] = [] :=
      fun _ _ _ _ _ => rfl
    have h2 : List.filter is_bind_call [GLCall.linkProgram program, GLCall.useProgram program]
        = [] := rfl
    rw [h9 ShaderKind.vertex, h2]
    have hu1 : ∀ (c : Bool) (l1 v1 l2 v2 : Int),
        List.filter is_bind_call
          (if c = true then [GLCall.uniform1i l1 v1, GLCall.uniform1i l2 v2] else []) = [] := by
      intro c l1 v1 l2 v2
      cases c <;> rfl
    have hu2 : ∀ (c : Bool) (n1 n2 : String),
        List.filter is_bind_call
          (if c = true then [GLCall.getUniformLocation program n1,
            GLCall.getUniformLocation program n2] else []) = [] := by
      intro c n1 n2
      cases c <;> rfl
    rw [hu1, hu2]
    simp
  · rw [hvs]
    exact vs_declared_inputs_eq _ hn


/-- Witness for C14: the two-texture descriptor (fog, alpha, two inputs)
created in the initial pool has the five slots position, texture coordinate,
fog, input 1, input 2. -/
theorem create_records_attribute_layout_witness :
    ∃ p s1 prg, gfx_vitagl_create_and_load_new_shader two_formula_driver GfxState.init 8
        = .ok (p, s1) ∧
      s1.shader_program_pool.get? p = some prg ∧ prg.num_attribs = 5 ∧
      prg.attrib_sizes.take prg.num_attribs = [4, 2, 4, 4, 4] := by
  obtain ⟨s1, e⟩ := create_succeeds two_formula_driver GfxState.init 8
    ShaderProgram.zero (by decide) (by decide) (fun h => absurd h.2.2.1 (by decide))
    (fun _ _ => rfl) init_slot zero_arrays_of_seven
  obtain ⟨prg, src, h1, _, h3, _, h5, _⟩ := create_records_attribute_layout two_formula_driver
    GfxState.init 8 _ s1 (by decide) e
  exact ⟨_, s1, prg, e, h1, h3, h5⟩

/-! ## Stride and offsets -/

theorem attrib_layout_sum (f : CCFeatures) :
    ((attrib_layout f).map Prod.snd).sum = vertex_num_floats f := by
  rw [attrib_layout_widths, vertex_num_floats_eq]
  simp only [List.sum_append, List.sum_replicate, smul_eq_mul, List.sum_cons, List.sum_nil]
  split <;> split <;> simp <;> omega

/-- C18: for every program created from a descriptor with at most four
inputs, the stride `num_floats` is the sum of the recorded widths
`attrib_sizes[0 .. num_attribs)`, and `gfx_vitagl_vertex_array_set_attribs`
makes for each attribute `i`, in order, the calls
`glEnableVertexAttribArray(i)` and `glVertexAttribPointer(i, attrib_sizes[i],
.., num_floats * sizeof(float), pos * sizeof(float))` where `pos` is the sum of
the widths of the attributes before `i`; its loop ends with `pos` equal to
`num_floats`.  A `float` has four bytes. -/
theorem stride_is_sum_of_widths (d : Driver) (s : GfxState) (shader_id p : Nat) (s1 : GfxState)
    (hn : (d.gfx_cc_get_features shader_id).num_inputs ≤ 4)
    (e : gfx_vitagl_create_and_load_new_shader d s shader_id = .ok (p, s1)) :
    ∃ prg, s1.shader_program_pool.get? p = some prg ∧
      prg.num_floats = (prg.attrib_sizes.take prg.num_attribs).sum ∧
      (∀ gl, for_loop (set_attrib prg) prg.num_attribs 0 { pos := 0, gl := gl }
        = .ok { pos := prg.num_floats, gl := gl ++ set_attribs_calls prg }) ∧
      (∀ gl, gfx_vitagl_vertex_array_set_attribs prg gl = .ok (gl ++ set_attribs_calls prg)) ∧
      set_attribs_calls prg = (List.range prg.num_attribs).flatMap fun i =>
        [GLCall.enableVertexAttribArray (i : Int),
         GLCall.vertexAttribPointer (i : Int) (prg.attrib_sizes.getD i 0) (prg.num_floats * 4)
           ((prg.attrib_sizes.take i).sum * 4)] := by
  obtain ⟨src, vsh, fsh, program, entry, filled, a, gl, hgen, hslot, rfl, hb, hfilled, hgl,
    hprg, hs1⟩ := create_outcome d s shader_id p s1 e
  obtain ⟨hlocs, hsizes, hcnt, hl, hs, _⟩ := bound_fill_entry (d.gfx_cc_get_features shader_id)
    shader_id program (vertex_num_floats (d.gfx_cc_get_features shader_id)) entry _ a hb
  rw [← hfilled] at hlocs hsizes hcnt hl hs
  have hlen := attrib_layout_length (d.gfx_cc_get_features shader_id)
  have hlen7 : (attrib_layout (d.gfx_cc_get_features shader_id)).length ≤ 7 := by
    rw [hlen]; split <;> split <;> omega
  have hcnt1 : filled.num_attribs = (attrib_layout (d.gfx_cc_get_features shader_id)).length := by
    rw [hcnt]; unfold to_uint8; omega
  have htake : filled.attrib_sizes.take filled.num_attribs
      = (attrib_layout (d.gfx_cc_get_features shader_id)).map Prod.snd := by
    rw [hsizes, hcnt1, attrib_layout_narrow]
    exact List.take_left' (by simp)
  have hnf : filled.num_floats = vertex_num_floats (d.gfx_cc_get_features shader_id) := by
    rw [hfilled]
    show to_uint8 _ = _
    have := vertex_num_floats_lt _ hn
    unfold to_uint8
    omega
  have hsum : filled.num_floats = (filled.attrib_sizes.take filled.num_attribs).sum := by
    rw [htake, attrib_layout_sum, hnf]
  have hcalls : ∀ prg : ShaderProgram, prg.num_attribs = filled.num_attribs →
      prg.attrib_locations = filled.attrib_locations → prg.attrib_sizes = filled.attrib_sizes →
      prg.num_floats = filled.num_floats →
      set_attribs_calls prg = (List.range prg.num_attribs).flatMap fun i =>
        [GLCall.enableVertexAttribArray (i : Int),
         GLCall.vertexAttribPointer (i : Int) (prg.attrib_sizes.getD i 0) (prg.num_floats * 4)
           ((prg.attrib_sizes.take i).sum * 4)] := by
    intro prg h1 h2 h3 h4
    unfold set_attribs_calls
    apply List.flatMap_congr
    intro i hi
    rw [List.mem_range, h1, hcnt1] at hi
    have hloc : prg.attrib_locations.getD i 0 = (i : Int) := by
      rw [h2, hlocs, List.getD_eq_getElem?_getD,
        List.getElem?_append_left (by simpa using hi)]
      simp [hi]
    unfold attrib_pointer_calls
    rw [hloc]
  have hr := record_noise_entry d (d.gfx_cc_get_features shader_id) program filled gl
  generalize (record_noise d (d.gfx_cc_get_features shader_id) program filled gl).1 = prg
    at hr hprg
  have k1 : prg.num_attribs = filled.num_attribs := by rw [hr]
  have k2 : prg.attrib_locations = filled.attrib_locations := by rw [hr]
  have k3 : prg.attrib_sizes = filled.attrib_sizes := by rw [hr]
  have k4 : prg.num_floats = filled.num_floats := by rw [hr]
  have hl1 : prg.num_attribs ≤ prg.attrib_locations.length := by rw [k1, k2]; exact hl
  have hs1 : prg.num_attribs ≤ prg.attrib_sizes.length := by rw [k1, k3]; exact hs
  have hsum1 : prg.num_floats = (prg.attrib_sizes.take prg.num_attribs).sum := by
    rw [k1, k3, k4]; exact hsum
  refine ⟨prg, hprg, hsum1, ?_, ?_, hcalls prg k1 k2 k3 k4⟩
  · intro gl0
    rw [set_attrib_loop prg gl0 prg.num_attribs hl1 hs1, ← hsum1]
    rfl
  · intro gl0
    exact set_attribs_eq prg gl0 hl1 hs1

/-- Witness for C18: the two-texture descriptor created in the initial pool. -/
theorem stride_is_sum_of_widths_witness :
    ∃ p s1 prg, gfx_vitagl_create_and_load_new_shader two_formula_driver GfxState.init 8
        = .ok (p, s1) ∧
      s1.shader_program_pool.get? p = some prg ∧
      prg.num_floats = (prg.attrib_sizes.take prg.num_attribs).sum ∧
      gfx_vitagl_vertex_array_set_attribs prg [] = .ok ([] ++ set_attribs_calls prg) := by
  obtain ⟨s1, e⟩ := create_succeeds two_formula_driver GfxState.init 8
    ShaderProgram.zero (by decide) (by decide) (fun h => absurd h.2.2.1 (by decide))
    (fun _ _ => rfl) init_slot zero_arrays_of_seven
  obtain ⟨prg, h1, h2, _, h4, _⟩ := stride_is_sum_of_widths two_formula_driver
    GfxState.init 8 _ s1 (by decide) e
  exact ⟨_, s1, prg, e, h1, h2, h4 []⟩

/-! ## The lines of the fragment source that do not depend on inputs and formulas -/

theorem blank_last_append (ps qs : List (List Char)) (h : qs ≠ []) :
    blank_last (ps ++ qs) = ps ++ blank_last qs := by
  induction ps with
  | nil => rfl
  | cons p ps ih =>
    have hne : ps ++ qs ≠ [] := by
      intro e
      exact h (List.append_eq_nil.mp e).2
    show (if ps ++ qs = [] then _ else _) = _
    rw [if_neg hne]
    show p :: blank_last (ps ++ qs) = _
    rw [ih]
    rfl

theorem fs_declare_input_line_vector (f : CCFeatures) (i : Nat) :
    is_vector_line (fs_declare_input_line f i) = true ∧
    is_vector_line ((fs_declare_input_line f i).dropLast ++ [' ']) = true := by
  rw [fs_declare_input_line_eq]
  have hw : (fmt_d (input_width f)).data = ['3'] ∨ (fmt_d (input_width f)).data = ['4'] := by
    unfold input_width
    cases f.opt_alpha
    · exact Or.inl rfl
    · exact Or.inr rfl
  rcases hw with h | h <;> rw [h] <;> constructor <;> rfl


theorem filter_blank_last_nil (p : List Char → Bool) (ls : List (List Char))
    (h : ∀ l ∈ ls, p l = false ∧ p (l.dropLast ++ [' ']) = false) :
    ls.filter p = [] ∧ (blank_last ls).filter p = [] := by
  constructor
  · rw [List.filter_eq_nil_iff]
    intro l hl
    rw [(h l hl).1]
    decide
  · rw [List.filter_eq_nil_iff]
    intro l hl
    rcases blank_last_mem ls l hl with h1 | ⟨m, hm, rfl⟩
    · rw [(h l h1).1]
      decide
    · rw [(h m hm).2]
      decide

/-- Lines that the filter drops, standing in the middle of a parameter list,
do not change what the filter keeps of the list after line 275. -/
theorem filter_blank_last_inputs (p : List Char → Bool) (before inputs after : List (List Char))
    (hI : ∀ l ∈ inputs, p l = false ∧ p (l.dropLast ++ [' ']) = false)
    (hS : after = [] → (blank_last before).filter p = before.filter p) :
    (blank_last (before ++ (inputs ++ after))).filter p
      = (blank_last (before ++ after)).filter p := by
  obtain ⟨h1, h2⟩ := filter_blank_last_nil p inputs hI
  by_cases hs : after = []
  · subst hs
    simp only [List.append_nil]
    by_cases hi : inputs = []
    · subst hi
      simp
    · rw [blank_last_append before inputs hi, List.filter_append, h2, List.append_nil, hS rfl]
  · rw [← List.append_assoc, blank_last_append (before ++ inputs) after hs,
      blank_last_append before after hs]
    simp only [List.filter_append, h1, List.append_nil]

theorem texel_line_vector (f : CCFeatures) (value : List Char) :
    is_vector_line (texel_line f value) = true := by
  unfold texel_line
  cases f.opt_alpha <;> rfl

/-- The lines of a fragment source that do not start with `float3` or
`float4` depend only on the six option flags of the descriptor. -/
theorem fs_lines_filter (f : CCFeatures) (value : List Char) :
    (fs_lines_with f value).filter (fun l => !is_vector_line l)
      = fs_fixed_lines f.used_textures0 f.used_textures1 f.opt_fog f.opt_alpha f.opt_noise
          f.opt_texture_edge := by
  have hP : fs_param_lines f
      = ((if f.opt_alpha && f.opt_noise then
            ["float random(float3 value) \x7b".data,
             "    float r = dot(sin(value), float3(12.9898, 78.233, 37.719));".data,
             "    return frac(sin(r) * 143758.5453);".data,
             "\x7d".data] else [])
          ++ (["float4 main(".data]
          ++ ((if f.used_textures0 || f.used_textures1 then
                ["float2 vTexCoord : TEXCOORD0,".data] else [])
          ++ (if f.opt_fog then ["float4 vFog : TEXCOORD1,".data] else []))))
        ++ (fs_input_lines f f.num_inputs 0
        ++ ((if f.used_textures0 then ["uniform sampler2D uTex0 : TEXUNIT0,".data] else [])
          ++ ((if f.used_textures1 then ["uniform sampler2D uTex1 : TEXUNIT1,".data] else [])
          ++ (if f.opt_alpha && f.opt_noise then
                ["uniform int frame_count,".data, "uniform int window_height,".data,
                 "float2 gl_FragCoord : WPOS,".data] else [])))) := by
    unfold fs_param_lines
    simp only [List.append_assoc]
  have hP0 : fs_param_lines (skeleton 0 f.used_textures0 f.used_textures1 f.opt_fog f.opt_alpha
        f.opt_noise f.opt_texture_edge)
      = ((if f.opt_alpha && f.opt_noise then
            ["float random(float3 value) \x7b".data,
             "    float r = dot(sin(value), float3(12.9898, 78.233, 37.719));".data,
             "    return frac(sin(r) * 143758.5453);".data,
             "\x7d".data] else [])
          ++ (["float4 main(".data]
          ++ ((if f.used_textures0 || f.used_textures1 then
                ["float2 vTexCoord : TEXCOORD0,".data] else [])
          ++ (if f.opt_fog then ["float4 vFog : TEXCOORD1,".data] else []))))
        ++ ((if f.used_textures0 then ["uniform sampler2D uTex0 : TEXUNIT0,".data] else [])
          ++ ((if f.used_textures1 then ["uniform sampler2D uTex1 : TEXUNIT1,".data] else [])
          ++ (if f.opt_alpha && f.opt_noise then
                ["uniform int frame_count,".data, "uniform int window_height,".data,
                 "float2 gl_FragCoord : WPOS,".data] else []))) := by
    unfold fs_param_lines
    simp only [skeleton, fs_input_lines, List.nil_append, List.append_assoc]
  have hpar : (blank_last (fs_param_lines f)).filter (fun l => !is_vector_line l)
      = (blank_last (fs_param_lines (skeleton 0 f.used_textures0 f.used_textures1 f.opt_fog
          f.opt_alpha f.opt_noise f.opt_texture_edge))).filter (fun l => !is_vector_line l) := by
    rw [hP, hP0]
    apply filter_blank_last_inputs
    · intro l hl
      obtain ⟨k, rfl⟩ := fs_input_lines_mem f _ _ l hl
      obtain ⟨h1, h2⟩ := fs_declare_input_line_vector f k
      rw [h1, h2]
      exact ⟨rfl, rfl⟩
    · cases (f.opt_alpha && f.opt_noise) <;> cases f.used_textures0 <;>
        cases f.used_textures1 <;> cases f.opt_fog <;> decide
  have htex : (texel_line f value :: fs_tail_lines f).filter (fun l => !is_vector_line l)
      = (fs_tail_lines f).filter (fun l => !is_vector_line l) := by
    rw [List.filter_cons, texel_line_vector]
    rfl
  have htex0 : (texel_line (skeleton 0 f.used_textures0 f.used_textures1 f.opt_fog f.opt_alpha
        f.opt_noise f.opt_texture_edge) []
      :: fs_tail_lines (skeleton 0 f.used_textures0 f.used_textures1 f.opt_fog f.opt_alpha
        f.opt_noise f.opt_texture_edge)).filter (fun l => !is_vector_line l)
      = (fs_tail_lines f).filter (fun l => !is_vector_line l) := by
    rw [List.filter_cons, texel_line_vector]
    rfl
  unfold fs_fixed_lines fs_lines_with
  simp only [List.filter_append]
  rw [hpar, htex, htex0]
  rfl

/-- The lines of the fragment source of any descriptor that do not start with
`float3` or `float4`. -/
theorem fs_text_fixed_lines (f : CCFeatures) :
    (lines_of (fs_text f)).filter (fun l => !is_vector_line l)
      = fs_fixed_lines f.used_textures0 f.used_textures1 f.opt_fog f.opt_alpha f.opt_noise
          f.opt_texture_edge := by
  rw [lines_of_fs_text]
  exact fs_lines_filter f _

/-- Filtering the lines of the fragment source by a set of lines none of which
starts with `float3` or `float4`. -/
theorem fs_text_filter_mem (f : CCFeatures) (keep : List (List Char))
    (h : ∀ l ∈ keep, is_vector_line l = false) :
    (lines_of (fs_text f)).filter (fun l => decide (l ∈ keep))
      = (fs_fixed_lines f.used_textures0 f.used_textures1 f.opt_fog f.opt_alpha f.opt_noise
          f.opt_texture_edge).filter (fun l => decide (l ∈ keep)) := by
  rw [← fs_text_fixed_lines, List.filter_filter]
  apply List.filter_congr
  intro l _
  by_cases hl : l ∈ keep
  · simp [hl, h l hl]
  · simp [hl]


theorem mem_fs_lines_iff (f : CCFeatures) (x : List Char) (hx : is_vector_line x = false) :
    x ∈ lines_of (fs_text f)
      ↔ x ∈ fs_fixed_lines f.used_textures0 f.used_textures1 f.opt_fog f.opt_alpha f.opt_noise
          f.opt_texture_edge := by
  rw [← fs_text_fixed_lines, List.mem_filter, hx]
  simp

theorem fs_tail_lines_explicit (f : CCFeatures) :
    fs_tail_lines f
      = (if f.opt_texture_edge && f.opt_alpha then [discard_line] else [])
        ++ ((if f.opt_fog then [if f.opt_alpha then fog_line_alpha else fog_line_plain] else [])
        ++ ((if f.opt_alpha && f.opt_noise then [dither_line] else [])
        ++ [if f.opt_alpha then "return texel;".data else "return float4(texel, 1.0);".data,
            "\x7d".data])) := by
  unfold fs_tail_lines discard_line dither_line
  cases f.opt_texture_edge <;> cases f.opt_alpha <;> cases f.opt_fog <;> cases f.opt_noise <;> rfl

theorem post_statements_fixed :
    ∀ t0 t1 fog alpha noise edge : Bool,
      (fs_fixed_lines t0 t1 fog alpha noise edge).filter (fun l => decide (l ∈ post_statements))
        = (if edge && alpha then [discard_line] else [])
          ++ ((if fog then [if alpha then fog_line_alpha else fog_line_plain] else [])
          ++ ((if alpha && noise then [dither_line] else [])
          ++ [if alpha then "return texel;".data else "return float4(texel, 1.0);".data])) := by
  decide!

theorem discard_fixed :
    ∀ t0 t1 fog alpha noise edge : Bool,
      discard_line ∈ fs_fixed_lines t0 t1 fog alpha noise edge ↔ (edge = true ∧ alpha = true) := by
  decide!

/-- C17: in every fragment source that the builder has written, the
`texel = ...;` assignment is followed by exactly these lines, in this order:
the discard statement iff `opt_texture_edge` and `opt_alpha` are both set, the
fog statement iff `opt_fog`, the dither statement iff `opt_alpha` and
`opt_noise`, the `return` statement, and the closing brace.  None of these
statements stands anywhere else in the source: the lines of the source that
are one of them are these, each once, in this order. -/
theorem post_statements_in_fixed_order (f : CCFeatures) (b b1 : CharBuf)
    (h0 : b.len = 0) (e : build_fragment_source f b = .ok b1) :
    (∃ pre, lines_of b1.text
      = pre ++ texel_line f (pieces_text (texel_value_pieces f))
        :: ((if f.opt_texture_edge && f.opt_alpha then [discard_line] else [])
        ++ ((if f.opt_fog then [if f.opt_alpha then fog_line_alpha else fog_line_plain] else [])
        ++ ((if f.opt_alpha && f.opt_noise then [dither_line] else [])
        ++ [if f.opt_alpha then "return texel;".data else "return float4(texel, 1.0);".data,
            "\x7d".data])))) ∧
    (discard_line ∈ lines_of b1.text ↔ (f.opt_texture_edge = true ∧ f.opt_alpha = true)) ∧
    (lines_of b1.text).filter (fun l => decide (l ∈ post_statements))
      = (if f.opt_texture_edge && f.opt_alpha then [discard_line] else [])
        ++ ((if f.opt_fog then [if f.opt_alpha then fog_line_alpha else fog_line_plain] else [])
        ++ ((if f.opt_alpha && f.opt_noise then [dither_line] else [])
        ++ [if f.opt_alpha then "return texel;".data
            else "return float4(texel, 1.0);".data])) := by
  have ht := (build_fragment_source_sound f b b1 h0 e).2.2
  rw [ht]
  refine ⟨⟨blank_last (fs_param_lines f)
      ++ ([") : COLOR".data, "\x7b".data]
      ++ ((if f.used_textures0 then ["float4 texVal0 = tex2D(uTex0, vTexCoord);".data] else [])
      ++ (if f.used_textures1 then ["float4 texVal1 = tex2D(uTex1, vTexCoord);".data]
          else []))), ?_⟩, ?_, ?_⟩
  · rw [lines_of_fs_text, ← fs_tail_lines_explicit]
    unfold fs_lines fs_lines_with
    simp only [List.append_assoc]
  · rw [mem_fs_lines_iff f discard_line (by decide)]
    exact discard_fixed _ _ _ _ _ _
  · rw [fs_text_filter_mem f post_statements (by decide)]
    exact post_statements_fixed _ _ _ _ _ _

/-- Witness for C17: a descriptor with discard, alpha and noise, built in the
empty 1024-byte buffer: after the assignment stand the discard statement, the
dither statement and the return. -/
theorem post_statements_in_fixed_order_witness :
    ∃ b1, build_fragment_source noise_descriptor fresh_buf = .ok b1 ∧
      (lines_of b1.text).filter (fun l => decide (l ∈ post_statements))
        = [discard_line, dither_line, "return texel;".data] := by
  obtain ⟨b1, e, _⟩ := build_fragment_source_run noise_descriptor fresh_buf rfl
    (by decide) (by rw [fresh_buf_length]; decide!)
  exact ⟨b1, e, (post_statements_in_fixed_order noise_descriptor fresh_buf b1 rfl e).2.2⟩

/-! ## Noise: uniform handles and source lines -/

theorem noise_lines_fixed :
    ∀ t0 t1 fog alpha noise edge : Bool,
      (fs_fixed_lines t0 t1 fog alpha noise edge).filter (fun l => decide (l ∈ noise_lines))
        = if alpha && noise then noise_lines else [] := by
  decide!

theorem noise_line_fixed :
    ∀ t0 t1 fog alpha noise edge : Bool, ∀ l ∈ noise_lines,
      (l ∈ fs_fixed_lines t0 t1 fog alpha noise edge ↔ (alpha = true ∧ noise = true)) := by
  decide!

/-- The noise fields of the entry that a successful create call leaves, the
two uniform lookups at the end of its driver calls, and the noise lines of
the fragment source it has generated. -/
theorem create_noise_outcome (d : Driver) (s : GfxState) (shader_id p : Nat) (s1 : GfxState)
    (e : gfx_vitagl_create_and_load_new_shader d s shader_id = .ok (p, s1)) :
    ∃ prg src gl, s1.shader_program_pool.get? p = some prg ∧
      generate_sources (d.gfx_cc_get_features shader_id) = .ok src ∧
      prg.used_noise = ((d.gfx_cc_get_features shader_id).opt_alpha
        && (d.gfx_cc_get_features shader_id).opt_noise) ∧
      (((d.gfx_cc_get_features shader_id).opt_alpha
          && (d.gfx_cc_get_features shader_id).opt_noise) = true →
        prg.frame_count_location
          = d.glGetUniformLocation gl prg.opengl_program_id "frame_count" ∧
        prg.window_height_location
          = d.glGetUniformLocation
              (gl ++ [GLCall.getUniformLocation prg.opengl_program_id "frame_count"])
              prg.opengl_program_id "window_height" ∧
        s1.gl = gl ++ [GLCall.getUniformLocation prg.opengl_program_id "frame_count",
          GLCall.getUniformLocation prg.opengl_program_id "window_height"]) ∧
      (lines_of src.2.text).filter (fun l => decide (l ∈ noise_lines))
        = (if (d.gfx_cc_get_features shader_id).opt_alpha
              && (d.gfx_cc_get_features shader_id).opt_noise then noise_lines else []) ∧
      (∀ l ∈ noise_lines, (l ∈ lines_of src.2.text
        ↔ ((d.gfx_cc_get_features shader_id).opt_alpha = true
            ∧ (d.gfx_cc_get_features shader_id).opt_noise = true))) := by
  obtain ⟨src, vsh, fsh, program, entry, filled, a, gl, hgen, hslot, rfl, hb, hfilled, hgl,
    hprg, hs1⟩ := create_outcome d s shader_id p s1 e
  obtain ⟨vs, fs⟩ := src
  have hfs := (generate_sources_sound _ vs fs hgen).2.1
  have hid : filled.opengl_program_id = program := by rw [hfilled]; rfl
  have hr := record_noise_entry d (d.gfx_cc_get_features shader_id) program filled gl
  have ht := record_noise_trace d (d.gfx_cc_get_features shader_id) program filled gl
  rw [ht] at hs1
  generalize (record_noise d (d.gfx_cc_get_features shader_id) program filled gl).1 = prg
    at hr hprg
  have k0 : prg.opengl_program_id = program := by rw [hr]; exact hid
  refine ⟨prg, (vs, fs), gl, hprg, hgen, by rw [hr], ?_, ?_, ?_⟩
  · intro han
    rw [k0]
    refine ⟨?_, ?_, ?_⟩
    · rw [hr]
      simp only [han, if_true]
    · rw [hr]
      simp only [han, if_true]
    · rw [hs1, if_pos han]
  · show (lines_of fs.text).filter _ = _
    rw [hfs, fs_text_filter_mem _ noise_lines (by decide)]
    exact noise_lines_fixed _ _ _ _ _ _
  · intro l hl
    show l ∈ lines_of fs.text ↔ _
    have hv : is_vector_line l = false := by
      revert l
      decide
    rw [hfs, mem_fs_lines_iff _ l hv]
    exact noise_line_fixed _ _ _ _ _ _ l hl

/-- C16 (evaluation of the code as stated): a descriptor with `opt_noise` set
and `opt_alpha` clear is created without noise handles (`used_noise` is false)
and its fragment source has none of the noise lines. -/
theorem noise_without_alpha_has_no_handles :
    noise_without_alpha_descriptor.opt_noise = true ∧
    ∃ p s1 prg src,
      gfx_vitagl_create_and_load_new_shader (sample_driver noise_without_alpha_descriptor)
        GfxState.init 7 = .ok (p, s1) ∧
      s1.shader_program_pool.get? p = some prg ∧ prg.used_noise = false ∧
      generate_sources noise_without_alpha_descriptor = .ok src ∧
      ∀ l ∈ noise_lines, l ∉ lines_of src.2.text := by
  refine ⟨rfl, ?_⟩
  obtain ⟨s1, e⟩ := create_succeeds (sample_driver noise_without_alpha_descriptor)
    GfxState.init 7 ShaderProgram.zero (by decide) (by decide) (fun h => absurd h.1 (by decide))
    (fun _ _ => rfl) init_slot zero_arrays_of_seven
  obtain ⟨prg, src, gl, h1, h2, h3, _, _, h6⟩ := create_noise_outcome _ _ _ _ _ e
  refine ⟨_, s1, prg, src, e, h1, h3, h2, ?_⟩
  intro l hl hmem
  have := (h6 l hl).mp hmem
  exact absurd this.1 (by decide)

/-- C16 (amended): the entry that a successful create call returns has
`used_noise` set if and only if `opt_alpha` and `opt_noise` are both set in the
descriptor; in that case its two locations are what `glGetUniformLocation`
returned for `frame_count` and `window_height`, the last two driver calls of
the create call, and the fragment source has the lines of the helper
`random`, the two uniforms, the fragment coordinate parameter and the dither
statement, each once and in this order; otherwise the source has none of these
lines. -/
theorem noise_handles_iff_alpha_and_noise (d : Driver) (s : GfxState) (shader_id p : Nat)
    (s1 : GfxState)
    (e : gfx_vitagl_create_and_load_new_shader d s shader_id = .ok (p, s1)) :
    ∃ prg src gl, s1.shader_program_pool.get? p = some prg ∧
      generate_sources (d.gfx_cc_get_features shader_id) = .ok src ∧
      (prg.used_noise = true ↔ ((d.gfx_cc_get_features shader_id).opt_alpha = true
        ∧ (d.gfx_cc_get_features shader_id).opt_noise = true)) ∧
      ((d.gfx_cc_get_features shader_id).opt_alpha = true →
        (d.gfx_cc_get_features shader_id).opt_noise = true →
        prg.frame_count_location
          = d.glGetUniformLocation gl prg.opengl_program_id "frame_count" ∧
        prg.window_height_location
          = d.glGetUniformLocation
              (gl ++ [GLCall.getUniformLocation prg.opengl_program_id "frame_count"])
              prg.opengl_program_id "window_height" ∧
        s1.gl = gl ++ [GLCall.getUniformLocation prg.opengl_program_id "frame_count",
          GLCall.getUniformLocation prg.opengl_program_id "window_height"]) ∧
      (lines_of src.2.text).filter (fun l => decide (l ∈ noise_lines))
        = (if (d.gfx_cc_get_features shader_id).opt_alpha
              && (d.gfx_cc_get_features shader_id).opt_noise then noise_lines else []) ∧
      (∀ l ∈ noise_lines, (l ∈ lines_of src.2.text
        ↔ ((d.gfx_cc_get_features shader_id).opt_alpha = true
            ∧ (d.gfx_cc_get_features shader_id).opt_noise = true))) := by
  obtain ⟨prg, src, gl, h1, h2, h3, h4, h5, h6⟩ := create_noise_outcome d s shader_id p s1 e
  refine ⟨prg, src, gl, h1, h2, ?_, ?_, h5, h6⟩
  · rw [h3, Bool.and_eq_true]
  · intro ha hn
    exact h4 (by rw [ha, hn]; rfl)

/-- Witness for C16 (amended): the descriptor with noise and alpha, created in
the initial pool, has `used_noise` set. -/
theorem noise_handles_iff_alpha_and_noise_witness :
    ∃ p s1 prg, gfx_vitagl_create_and_load_new_shader (sample_driver noise_descriptor)
        GfxState.init 7 = .ok (p, s1) ∧
      s1.shader_program_pool.get? p = some prg ∧ prg.used_noise = true := by
  obtain ⟨s1, e⟩ := create_succeeds (sample_driver noise_descriptor)
    GfxState.init 7 ShaderProgram.zero (by decide) (by decide) (fun h => absurd h.2.1 (by decide))
    (fun _ _ => rfl) init_slot zero_arrays_of_seven
  obtain ⟨prg, _, _, h1, _, h3, _⟩ := noise_handles_iff_alpha_and_noise
    (sample_driver noise_descriptor) GfxState.init 7 _ s1 e
  exact ⟨_, s1, prg, e, h1, h3.mpr ⟨rfl, rfl⟩⟩

/-! ## Uniforms pushed at creation and at a later load -/

theorem filter_uniform_bind_calls (program i : Nat) (items : List (String × Nat)) :
    (bind_calls program i items).filter is_uniform_call = [] := by
  induction items generalizing i with
  | nil => rfl
  | cons x xs ih => simp [bind_calls, is_uniform_call, ih]

theorem filter_uniform_set_attribs_calls (prg : ShaderProgram) :
    (set_attribs_calls prg).filter is_uniform_call = [] := by
  unfold set_attribs_calls
  rw [List.filter_eq_nil_iff]
  intro c hc
  rw [List.mem_flatMap] at hc
  obtain ⟨i, _, hi⟩ := hc
  unfold attrib_pointer_calls at hi
  simp only [List.mem_cons, List.mem_singleton, List.not_mem_nil, or_false] at hi
  rcases hi with rfl | rfl <;> simp [is_uniform_call]

/-- C19 (evaluation of the code): for a descriptor with `opt_alpha` and
`opt_noise`, created in a pool slot whose `used_noise` is still clear (as in
every slot that was never used), the create call binds the program but makes
no `glUniform1i` call: line 417 loads the entry before lines 419-425 set
`used_noise` and the two locations.  The entry it returns has `used_noise`
set, and a later `gfx_vitagl_load_shader` of it ends with the two `glUniform1i`
calls that push the frame counter and the window height. -/
theorem creation_pushes_no_uniforms (d : Driver) (s : GfxState) (shader_id p : Nat)
    (s1 : GfxState) (entry : ShaderProgram)
    (hslot : s.shader_program_pool.get? s.shader_program_pool_size = some entry)
    (hstale : entry.used_noise = false)
    (ha : (d.gfx_cc_get_features shader_id).opt_alpha = true)
    (hn : (d.gfx_cc_get_features shader_id).opt_noise = true)
    (e : gfx_vitagl_create_and_load_new_shader d s shader_id = .ok (p, s1)) :
    ∃ prg, s1.shader_program_pool.get? p = some prg ∧ prg.used_noise = true ∧
      GLCall.useProgram prg.opengl_program_id ∈ s1.gl.drop s.gl.length ∧
      (s1.gl.drop s.gl.length).filter is_uniform_call = [] ∧
      ∃ s2, gfx_vitagl_load_shader s1 prg = .ok s2 ∧
        s2.gl = s1.gl ++ ([GLCall.useProgram prg.opengl_program_id] ++ (set_attribs_calls prg
          ++ [GLCall.uniform1i prg.frame_count_location (to_GLint s1.frame_count),
              GLCall.uniform1i prg.window_height_location (to_GLint s1.window_height)])) := by
  obtain ⟨src, vsh, fsh, program, entry1, filled, a, gl, hgen, hslot1, rfl, hb, hfilled, hgl,
    hprg, hs1⟩ := create_outcome d s shader_id p s1 e
  rw [hslot] at hslot1
  obtain rfl := Option.some.inj hslot1
  obtain ⟨_, _, _, hl, hs, hnoise, _⟩ := bound_fill_entry (d.gfx_cc_get_features shader_id)
    shader_id program (vertex_num_floats (d.gfx_cc_get_features shader_id)) entry _ a hb
  rw [← hfilled] at hl hs hnoise
  have hid : filled.opengl_program_id = program := by rw [hfilled]; rfl
  have hfn : filled.used_noise = false := by rw [hnoise, hstale]
  have han : ((d.gfx_cc_get_features shader_id).opt_alpha
      && (d.gfx_cc_get_features shader_id).opt_noise) = true := by rw [ha, hn]; rfl
  have hr := record_noise_entry d (d.gfx_cc_get_features shader_id) program filled gl
  have ht := record_noise_trace d (d.gfx_cc_get_features shader_id) program filled gl
  rw [ht, hgl, if_pos han] at hs1
  generalize (record_noise d (d.gfx_cc_get_features shader_id) program filled gl).1 = prg
    at hr hprg
  have k0 : prg.opengl_program_id = program := by rw [hr]; exact hid
  have k1 : prg.num_attribs = filled.num_attribs := by rw [hr]
  have k2 : prg.attrib_locations = filled.attrib_locations := by rw [hr]
  have k3 : prg.attrib_sizes = filled.attrib_sizes := by rw [hr]
  have k5 : prg.used_noise = true := by rw [hr]; exact han
  have hdrop : s1.gl.drop s.gl.length
      = creation_calls (d.gfx_cc_get_features shader_id) vsh fsh program src.1.text src.2.text
          filled s.frame_count s.window_height
        ++ [GLCall.getUniformLocation program "frame_count",
            GLCall.getUniformLocation program "window_height"] := by
    rw [hs1, List.append_assoc, List.drop_left]
  refine ⟨prg, hprg, k5, ?_, ?_, ?_⟩
  · rw [hdrop, k0]
    unfold creation_calls
    simp
  · rw [hdrop]
    unfold creation_calls
    simp only [List.filter_append, filter_uniform_bind_calls, filter_uniform_set_attribs_calls,
      hfn]
    rfl
  · rw [load_shader_eq s1 prg (by rw [k1, k2]; exact hl) (by rw [k1, k3]; exact hs)]
    refine ⟨_, rfl, ?_⟩
    show gfx_vitagl_set_uniforms s1.frame_count s1.window_height prg _ = _
    rw [set_uniforms_eq, k5]
    simp only [if_true, List.append_assoc]

/-- Witness for C19 (evaluation of the code): the descriptor with noise and
alpha, created in the initial pool. -/
theorem creation_pushes_no_uniforms_witness :
    ∃ p s1 prg, gfx_vitagl_create_and_load_new_shader (sample_driver noise_descriptor)
        GfxState.init 7 = .ok (p, s1) ∧
      s1.shader_program_pool.get? p = some prg ∧ prg.used_noise = true ∧
      (s1.gl.drop GfxState.init.gl.length).filter is_uniform_call = [] := by
  obtain ⟨s1, e⟩ := create_succeeds (sample_driver noise_descriptor)
    GfxState.init 7 ShaderProgram.zero (by decide) (by decide) (fun h => absurd h.2.1 (by decide))
    (fun _ _ => rfl) init_slot zero_arrays_of_seven
  obtain ⟨prg, h1, h2, _, h4, _⟩ := creation_pushes_no_uniforms (sample_driver noise_descriptor)
    GfxState.init 7 _ s1 ShaderProgram.zero init_slot rfl rfl rfl e
  exact ⟨_, s1, prg, e, h1, h2, h4⟩

/-! ## Enabled attribute arrays across unload and load -/

theorem unload_shader_eq (s : GfxState) (prg : ShaderProgram)
    (h : prg.num_attribs ≤ prg.attrib_locations.length) :
    gfx_vitagl_unload_shader s (some prg) = .ok { s with gl := s.gl ++ unload_calls prg } := by
  obtain ⟨gl1, e, hI⟩ := for_loop_invariant (unset_attrib prg)
    (fun i gl1 => gl1 = s.gl ++ (List.range i).map fun i =>
      GLCall.disableVertexAttribArray (prg.attrib_locations.getD i 0)) prg.num_attribs
    (fun i st hi hI => by
      have h1 : i < prg.attrib_locations.length := by omega
      subst hI
      unfold unset_attrib
      rw [get?_eq_getD _ i 0 h1]
      refine ⟨_, rfl, ?_⟩
      simp only [List.range_succ, List.map_append, List.map_cons, List.map_nil,
        List.append_assoc])
    prg.num_attribs 0 s.gl (by omega) (by simp)
  unfold gfx_vitagl_unload_shader
  simp only
  rw [bind_of_ok _ _ _ e, hI]
  simp [unload_calls]

/-- C22: for every descriptor with at most four inputs and a pool entry whose
two attribute arrays have their seven elements, lines 371-400 bind
1 + (any texture) + (fog) + `num_inputs` slots, at most 7, without a store
outside the arrays.  The entry that a successful create call returns has
`num_attribs` at most 7, its arrays still have seven elements, and the elements
below `num_attribs` are the ones the create call wrote (slot numbers and
widths of the layout) while the elements from `num_attribs` on are what the
slot held before; `gfx_vitagl_vertex_array_set_attribs` and
`gfx_vitagl_unload_shader`, which read the indices below `num_attribs`, return
without reading outside the arrays. -/
theorem attribute_arrays_in_bounds (d : Driver) (s : GfxState) (shader_id : Nat)
    (entry : ShaderProgram)
    (hn : (d.gfx_cc_get_features shader_id).num_inputs ≤ 4)
    (hslot : s.shader_program_pool.get? s.shader_program_pool_size = some entry)
    (h7 : arrays_of_seven entry) :
    (∀ program gl, ∃ a,
      bind_attribs (d.gfx_cc_get_features shader_id) program { prg := entry, cnt := 0, gl := gl }
        = .ok a ∧
      a.cnt ≤ 7 ∧
      a.cnt = 1 + (if (d.gfx_cc_get_features shader_id).used_textures0
                      || (d.gfx_cc_get_features shader_id).used_textures1 then 1 else 0)
                + (if (d.gfx_cc_get_features shader_id).opt_fog then 1 else 0)
                + (d.gfx_cc_get_features shader_id).num_inputs) ∧
    (∀ p s1, gfx_vitagl_create_and_load_new_shader d s shader_id = .ok (p, s1) →
      ∃ prg, s1.shader_program_pool.get? p = some prg ∧
        prg.num_attribs ≤ 7 ∧
        prg.attrib_locations.length = 7 ∧ prg.attrib_sizes.length = 7 ∧
        prg.attrib_locations
          = (List.range prg.num_attribs).map (fun (i : Nat) => (i : Int))
            ++ entry.attrib_locations.drop prg.num_attribs ∧
        prg.attrib_sizes
          = (attrib_layout (d.gfx_cc_get_features shader_id)).map Prod.snd
            ++ entry.attrib_sizes.drop prg.num_attribs ∧
        (attrib_layout (d.gfx_cc_get_features shader_id)).length = prg.num_attribs ∧
        (∀ gl, ∃ gl1, gfx_vitagl_vertex_array_set_attribs prg gl = .ok gl1) ∧
        (∀ s0, ∃ s2, gfx_vitagl_unload_shader s0 (some prg) = .ok s2)) := by
  constructor
  · intro program gl
    obtain ⟨a, e, _, hc⟩ := bind_attribs_run (d.gfx_cc_get_features shader_id) program entry gl
      h7 hn
    refine ⟨a, e, ?_, ?_⟩
    · rw [hc]; exact slot_count_le _ hn
    · rw [hc]; rfl
  · intro p s1 e
    obtain ⟨src, vsh, fsh, program, entry1, filled, a, gl, hgen, hslot1, rfl, hb, hfilled, hgl,
      hprg, hs1⟩ := create_outcome d s shader_id p s1 e
    rw [hslot] at hslot1
    obtain rfl := Option.some.inj hslot1
    obtain ⟨hlocs, hsizes, hcnt, hl, hs, _⟩ := bound_fill_entry (d.gfx_cc_get_features shader_id)
      shader_id program (vertex_num_floats (d.gfx_cc_get_features shader_id)) entry _ a hb
    rw [← hfilled] at hlocs hsizes hcnt hl hs
    have hlen := attrib_layout_length (d.gfx_cc_get_features shader_id)
    have hlen7 : (attrib_layout (d.gfx_cc_get_features shader_id)).length ≤ 7 := by
      rw [hlen]; split <;> split <;> omega
    have hcnt1 : filled.num_attribs
        = (attrib_layout (d.gfx_cc_get_features shader_id)).length := by
      rw [hcnt]; unfold to_uint8; omega
    have hr := record_noise_entry d (d.gfx_cc_get_features shader_id) program filled gl
    generalize (record_noise d (d.gfx_cc_get_features shader_id) program filled gl).1 = prg
      at hr hprg
    have k1 : prg.num_attribs = filled.num_attribs := by rw [hr]
    have k2 : prg.attrib_locations = filled.attrib_locations := by rw [hr]
    have k3 : prg.attrib_sizes = filled.attrib_sizes := by rw [hr]
    have hll : prg.attrib_locations.length = 7 := by
      rw [k2, hlocs]
      simp only [List.length_append, List.length_map, List.length_range, List.length_drop, h7.1]
      omega
    have hsl : prg.attrib_sizes.length = 7 := by
      rw [k3, hsizes]
      simp only [List.length_append, List.length_map, List.length_drop, h7.2]
      omega
    refine ⟨prg, hprg, by omega, hll, hsl, ?_, ?_, by omega, ?_, ?_⟩
    · rw [k2, hlocs, k1, hcnt1]
    · rw [k3, hsizes, k1, hcnt1, attrib_layout_narrow]
    · intro gl0
      exact ⟨_, set_attribs_eq prg gl0 (by omega) (by omega)⟩
    · intro s0
      exact ⟨_, unload_shader_eq s0 prg (by omega)⟩

/-- Witness for C22: the two-texture descriptor (five slots) created in the
initial pool. -/
theorem attribute_arrays_in_bounds_witness :
    ∃ p s1 prg, gfx_vitagl_create_and_load_new_shader two_formula_driver GfxState.init 8
        = .ok (p, s1) ∧
      s1.shader_program_pool.get? p = some prg ∧ prg.num_attribs ≤ 7 ∧
      prg.attrib_locations.length = 7 ∧ prg.attrib_sizes.length = 7 := by
  obtain ⟨s1, e⟩ := create_succeeds two_formula_driver GfxState.init 8
    ShaderProgram.zero (by decide) (by decide) (fun h => absurd h.2.2.1 (by decide))
    (fun _ _ => rfl) init_slot zero_arrays_of_seven
  obtain ⟨prg, h1, h2, h3, h4, _⟩ := (attribute_arrays_in_bounds two_formula_driver GfxState.init
    8 ShaderProgram.zero (by decide) init_slot zero_arrays_of_seven).2 _ s1 e
  exact ⟨_, s1, prg, e, h1, h2, h3, h4⟩

/-! ## Vertex outputs and fragment inputs -/

theorem takeWhile_append_stop {α : Type} (p : α → Bool) (xs : List α) (c : α) (rest : List α)
    (hc : p c = false) : (xs ++ c :: rest).takeWhile p = (xs ++ [c]).takeWhile p := by
  induction xs with
  | nil => simp [List.takeWhile, hc]
  | cons x xs ih =>
    simp only [List.cons_append, List.takeWhile_cons]
    split
    · rw [ih]
    · rfl

theorem fs_varyings_of_lines_stop (ls rest : List (List Char)) :
    fs_varyings_of_lines (ls ++ ") : COLOR".data :: rest)
      = fs_varyings_of_lines (ls ++ [") : COLOR".data]) := by
  unfold fs_varyings_of_lines
  rw [takeWhile_append_stop _ ls _ rest (by decide)]

theorem fs_declared_varyings_eq (f : CCFeatures) :
    fs_declared_varyings (fs_text f)
      = fs_varyings_of_lines (blank_last (fs_param_lines f) ++ [") : COLOR".data]) := by
  unfold fs_declared_varyings
  rw [lines_of_fs_text]
  unfold fs_lines fs_lines_with
  exact fs_varyings_of_lines_stop _ _

theorem fs_input_lines_congr (f g : CCFeatures) (h : f.opt_alpha = g.opt_alpha) (count i : Nat) :
    fs_input_lines f count i = fs_input_lines g count i := by
  induction count generalizing i with
  | zero => rfl
  | succ n ih =>
    have hl : fs_declare_input_line f i = fs_declare_input_line g i := by
      unfold fs_declare_input_line input_width
      rw [h]
    show fs_declare_input_line f i :: fs_input_lines f n (i + 1) = _
    rw [hl, ih]
    rfl

theorem fs_param_lines_skeleton (f : CCFeatures) :
    fs_param_lines f
      = fs_param_lines (skeleton f.num_inputs f.used_textures0 f.used_textures1 f.opt_fog
          f.opt_alpha f.opt_noise false) := by
  unfold fs_param_lines
  rw [fs_input_lines_congr f (skeleton f.num_inputs f.used_textures0 f.used_textures1 f.opt_fog
    f.opt_alpha f.opt_noise false) rfl]
  rfl

theorem varying_declarations_skeleton (f : CCFeatures) :
    varying_declarations f
      = varying_declarations (skeleton f.num_inputs f.used_textures0 f.used_textures1 f.opt_fog
          f.opt_alpha f.opt_noise false) := rfl

theorem fs_varyings_skeleton :
    ∀ n, n < 5 → ∀ t0 t1 fog alpha noise : Bool,
      fs_varyings_of_lines
          (blank_last (fs_param_lines (skeleton n t0 t1 fog alpha noise false))
            ++ [") : COLOR".data])
        = varying_declarations (skeleton n t0 t1 fog alpha noise false) := by
  decide!

theorem vs_outputs_skeleton :
    ∀ n, n < 5 → ∀ t0 t1 fog alpha : Bool,
      vs_declared_outputs (vs_text (skeleton n t0 t1 fog alpha false false))
        = varying_declarations (skeleton n t0 t1 fog alpha false false) := by
  decide!

/-- C21: for every descriptor with at most four inputs whose sources are
generated, the outputs `T out N : S` that the vertex source declares and the
varying inputs `T N : S` that the fragment source declares are the same
declarations in the same order: `float2 vTexCoord : TEXCOORD0` iff a texture
is used, `float4 vFog : TEXCOORD1` iff `opt_fog`, and
`floatW vInputK : TEXCOORD(K+1)` for K = 1 .. `num_inputs` with W = 4 or 3
(with or without `opt_alpha`). -/
theorem fragment_inputs_mirror_vertex_outputs (f : CCFeatures) (vs fs : CharBuf)
    (hn : f.num_inputs ≤ 4) (e : generate_sources f = .ok (vs, fs)) :
    vs_declared_outputs vs.text = fs_declared_varyings fs.text ∧
    (∀ decl, decl ∈ vs_declared_outputs vs.text ↔ decl ∈ fs_declared_varyings fs.text) ∧
    fs_declared_varyings fs.text
      = (if f.used_textures0 || f.used_textures1 then ["float2 vTexCoord : TEXCOORD0".data]
          else [])
        ++ ((if f.opt_fog then ["float4 vFog : TEXCOORD1".data] else [])
        ++ (List.range f.num_inputs).map fun i =>
            ("float" ++ fmt_d (if f.opt_alpha then 4 else 3) ++ " vInput" ++ fmt_d (i + 1)
              ++ " : TEXCOORD" ++ fmt_d (i + 2)).data) := by
  obtain ⟨hvs, hfs, _⟩ := generate_sources_sound f vs fs e
  have h1 : vs_declared_outputs vs.text = varying_declarations f := by
    rw [hvs, vs_text_skeleton f]
    exact vs_outputs_skeleton f.num_inputs (by omega) f.used_textures0 f.used_textures1
      f.opt_fog f.opt_alpha
  have h2 : fs_declared_varyings fs.text = varying_declarations f := by
    rw [hfs, fs_declared_varyings_eq, fs_param_lines_skeleton, varying_declarations_skeleton]
    exact fs_varyings_skeleton f.num_inputs (by omega) f.used_textures0 f.used_textures1
      f.opt_fog f.opt_alpha f.opt_noise
  refine ⟨h1.trans h2.symm, fun decl => by rw [h1, h2], ?_⟩
  rw [h2]
  rfl

/-- Witness for C21: the two-texture descriptor (fog, alpha, two inputs): both
sources declare the texture coordinate, the fog and the two inputs. -/
theorem fragment_inputs_mirror_vertex_outputs_witness :
    ∃ vs fs, generate_sources two_texture_descriptor = .ok (vs, fs) ∧
      vs_declared_outputs vs.text = fs_declared_varyings fs.text ∧
      fs_declared_varyings fs.text
        = ["float2 vTexCoord : TEXCOORD0".data, "float4 vFog : TEXCOORD1".data,
           "float4 vInput1 : TEXCOORD2".data, "float4 vInput2 : TEXCOORD3".data] := by
  obtain ⟨vs, fs, e, _⟩ := generate_sources_fits two_texture_descriptor (by decide) (by decide)
    (fun h => absurd h.2.2.1 (by decide))
  obtain ⟨h1, _, h3⟩ := fragment_inputs_mirror_vertex_outputs two_texture_descriptor vs fs
    (by decide) e
  exact ⟨vs, fs, e, h1, h3.trans (by decide)⟩

end GfxVitaGL
